import Mathlib

/-!
CreatureCore: playback edges, region compositing, colour compositing, the asset
cache, blending and bone queries.

A shallow embedding of `CreatureCore.cpp` (Creature UE4 plugin).

Modelling conventions

* `float` values are exact rationals (`ℚ`); no rounding is modelled.
* `FName` is a `String` (the engine compares names without regard to case;
  names are taken up to that identification); a `TMap<FName, V>` is an
  association list in iteration order, `Contains` / `operator[]` being
  `List.lookup`.
* `creature_manager` points to an object owned by the external pose engine.
  The functions that dereference it take the manager as an explicit argument
  and give back the parts of it they write.
* Raw buffers (`glm::uint32 *`, `glm::float32 *`) and `TArray`s are lists.
  A write outside a buffer is undefined behaviour in the source; here it is
  dropped, a read outside yields `0`, and the theorems state the bounds they
  rely on.
* The file-static maps `global_animations` and `global_load_data_packets`
  are passed explicitly; what the external library builds (packets, clips) is
  a parameter, `CreatureModule`.
* `FTransform` is a type parameter with the operations used on it;
  `glm::length`, a square root, is a function parameter.
-/

namespace CreatureCore

/-! ## External types (declared outside `CreatureCore.cpp`) -/

/-- Colour with four `uint8` channels, in the argument order of the
constructor `FColor(R, G, B, A)`. -/
structure FColor where
  R : Nat
  G : Nat
  B : Nat
  A : Nat
deriving DecidableEq, Repr

/-- The accessors of `meshRenderRegion` that `CreatureCore.cpp` calls:
`getStartPtIndex`, `getEndPtIndex`, `getStartIndex`, `getEndIndex`,
`getOpacity`, `getRed`, `getGreen`, `getBlue`. -/
structure meshRenderRegion where
  start_pt_index : Nat
  end_pt_index : Nat
  start_index : Nat
  end_index : Nat
  opacity : ℚ
  red : ℚ
  green : ℚ
  blue : ℚ
deriving DecidableEq

/-- Modelled from the spec: `meshRenderRegion::getNumPts` is declared outside
this file; a region owns the point range `[start_pt_index, end_pt_index]`,
both ends included, so it has `end - start + 1` points (none when the range
is empty). -/
def meshRenderRegion.getNumPts (r : meshRenderRegion) : Nat :=
  r.end_pt_index + 1 - r.start_pt_index

/-- Class `CreatureModule::CreatureAnimation`, as far as `ParseEvents` reads it:
`getStartTime()` and `getEndTime()`, which the caller stores in `int`s. -/
structure CreatureAnimation where
  start_time : ℤ
  end_time : ℤ
deriving DecidableEq, Repr

/-- Vector `glm::vec4` with `float` components. -/
structure vec4 where
  x : ℚ
  y : ℚ
  z : ℚ
  w : ℚ
deriving DecidableEq

/-- Vector `FVector` with `float` components. -/
structure FVector where
  X : ℚ
  Y : ℚ
  Z : ℚ
deriving DecidableEq

/-- The accessors of `meshBone` that `CreatureCore.cpp` calls: `getWorldStartPt`
and `getWorldEndPt`. -/
structure meshBone where
  world_start_pt : vec4
  world_end_pt : vec4
deriving DecidableEq

/-- Class `CreatureModule::CreatureLoadDataPacket`: the parsed source of one asset,
identified here with the text it holds. -/
structure CreatureLoadDataPacket where
  data : String
deriving DecidableEq, Repr

/-- Class `CreatureModule::Creature` with its render composition: the buffers and
tables `CreatureCore.cpp` reads through `GetGlobalIndices`, `GetRenderPts`,
`GetTotalNumIndices`, `GetTotalNumPoints`, `getRegions`, `getRegionsMap`,
`getBonesMap`, `GetGlobalUvs`, `GetAnimationNames`. -/
structure Creature where
  global_indices : List Nat
  render_pts : List ℚ
  total_num_indices : Nat
  total_num_pts : Nat
  regions : List meshRenderRegion
  regions_map : List (String × meshRenderRegion)
  bones_map : List (String × meshBone) := []
  global_uvs : List ℚ := []
  animation_names : List String := []

/-- Class `CreatureModule::CreatureManager`, as far as it is read here:
`getActualRunTime`, `GetActiveAnimationName`, `GetCreature`,
`GetAllAnimations`; `auto_blending` is what `SetAutoBlending` was last called
with, `auto_blend_to` the arguments of the last `AutoBlendTo` call. -/
structure CreatureManager where
  actual_run_time : ℚ
  active_animation_name : String
  creature : Creature
  all_animations : List (String × CreatureAnimation) := []
  auto_blending : Bool := false
  auto_blend_to : Option (String × ℚ) := none

/-- The entry points of `CreatureMetaData` that `UpdateCreatureRender` and
`RunTick` call. `morph_data_isValid` is `morph_data.isValid()`.
`updateIndicesAndPoints` receives the destination indices, the source
indices, the points, `delta_z`, both totals, the animation name, the
skin-swap switch, the swapped region ids and the run time; it yields the
number of indices written together with the new destination and points. -/
structure CreatureMetaData where
  hasRegionOrder : String → ℤ → Bool
  updateIndicesAndPoints :
    List Nat → List Nat → List ℚ → ℚ → Nat → Nat → String → Bool → List Nat → ℤ →
      ℤ × List Nat × List ℚ
  morph_data_isValid : Bool := false

/-- The functions of `CreatureModule` that `CreatureCore.cpp` calls to build a
packet or a clip: `LoadCreatureJSONData(filename, packet)`,
`LoadCreatureJSONDataFromString(source, packet)` and the constructor
`CreatureAnimation(load_data, name)`. -/
structure CreatureModule where
  LoadCreatureJSONData : String → CreatureLoadDataPacket
  LoadCreatureJSONDataFromString : String → CreatureLoadDataPacket
  newCreatureAnimation : CreatureLoadDataPacket → String → CreatureAnimation

/-- The methods of the external pose engine that `CreatureCore.cpp` calls on a
manager, a creature or the meta data and that the model leaves open, each with
the object it acts on as last argument. -/
structure CreatureEngine where
  SetTimeScale : ℚ → CreatureManager → CreatureManager
  GetTimeScale : CreatureManager → ℚ
  SetShouldLoop : Bool → CreatureManager → CreatureManager
  SetIsPlaying : Bool → CreatureManager → CreatureManager
  ResetToStartTimes : CreatureManager → CreatureManager
  setRunTime : ℚ → CreatureManager → CreatureManager
  Update : ℚ → CreatureManager → CreatureManager
  SetActiveAnimationName : String → CreatureManager → CreatureManager
  AddAnimation : CreatureAnimation → CreatureManager → CreatureManager
  newCreature : CreatureLoadDataPacket → Creature
  newCreatureManager : Creature → CreatureManager
  updateMorphStep : CreatureMetaData → ℚ → CreatureManager → CreatureManager

/-- The host file system as `InitCreatureRender` sees it:
`FPlatformFile::FileExists` and `FPaths::ProjectContentDir()`. -/
structure PlatformFile where
  FileExists : String → Bool
  ProjectContentDir : String

/-- The buffers and counters of a `CreatureMeshDataModifier`. -/
structure MeshModifierData where
  m_indices : List Nat
  m_pts : List ℚ
  m_uvs : List ℚ
  m_colors : List FColor
  m_isValid : Bool
  m_numIndices : ℤ
  m_maxIndice : ℤ

/-- Class `CreatureMeshDataModifier`: its data and the callback `m_initCB`, taken as
a function on the data (the instance it also receives is left out). -/
structure CreatureMeshDataModifier where
  data : MeshModifierData
  m_initCB : Option (MeshModifierData → MeshModifierData) := none

/-- Source `CreatureMeshDataModifier::initData`. -/
def CreatureMeshDataModifier.initData (m : CreatureMeshDataModifier) :
    CreatureMeshDataModifier :=
  match m.m_initCB with
  | some cb => { m with data := cb m.data }
  | none => m

/-- Source `CreatureMeshDataModifier::numPoints`. -/
def CreatureMeshDataModifier.numPoints (m : CreatureMeshDataModifier) : ℤ :=
  (m.data.m_pts.length : ℤ) / 3

/-- The values of `EWorldType::Type`. -/
inductive EWorldType where
  | None
  | Game
  | Editor
  | PIE
  | EditorPreview
  | GamePreview
  | Inactive
deriving DecidableEq

/-- What `GetProcMeshData` hands to the `FProceduralMeshTriData` constructor: the
three buffer pointers (`none` for `nullptr`), the two counts and the colour
array pointed to; the lock is left out. -/
structure FProceduralMeshTriData where
  indices : Option (List Nat)
  points : Option (List ℚ)
  uvs : Option (List ℚ)
  point_num : ℤ
  indices_num : ℤ
  region_colors : List FColor

/-! ## The instance state -/

/-- The data members of `CreatureCore` that the modelled functions touch
(`creature_manager` apart, see the conventions above). -/
structure Core where
  smooth_transitions : Bool
  should_play : Bool
  is_looping : Bool
  play_start_done : Bool
  play_end_done : Bool
  is_disabled : Bool
  is_driven : Bool
  is_animation_loaded : Bool
  should_process_animation_start : Bool
  should_process_animation_end : Bool
  should_update_render_indices : Bool
  region_overlap_z_delta : ℚ
  animation_frame : ℚ
  absolute_creature_filename : String
  region_custom_order : List String
  region_colors : List FColor
  region_colors_map : List (String × FColor)
  meta_data : Option CreatureMetaData
  global_indices_copy : Option (List Nat)
  skin_swap_active : Bool
  skin_swap_indices : List Nat
  skin_swap_region_ids : List Nat
  region_order_indices_num : ℤ
  mesh_modifier : Option CreatureMeshDataModifier := none
  run_morph_targets : Bool := false
  pJsonData : Option String := none
  creature_filename : String := "None"
  creature_asset_filename : String := "None"
  start_animation_name : String := "None"

/-- The state `CreatureCore::CreatureCore()` builds. -/
def Core.init : Core where
  smooth_transitions := false
  should_play := true
  is_looping := true
  play_start_done := false
  play_end_done := false
  is_disabled := false
  is_driven := false
  is_animation_loaded := false
  should_process_animation_start := false
  should_process_animation_end := false
  should_update_render_indices := false
  region_overlap_z_delta := 1 / 100
  animation_frame := 0
  absolute_creature_filename := ""
  region_custom_order := []
  region_colors := []
  region_colors_map := []
  meta_data := none
  global_indices_copy := none
  skin_swap_active := false
  skin_swap_indices := []
  skin_swap_region_ids := []
  region_order_indices_num := 0

/-! ## Misc functions -/

/-- Source `GetAnimationToken`: `Printf("%s_%s", filename, name)`. -/
def GetAnimationToken (filename_in name_in : String) : String :=
  filename_in ++ "_" ++ name_in

/-- C cast `(int) x` of a float: truncation towards zero. -/
def truncToInt (x : ℚ) : ℤ :=
  if 0 ≤ x then ⌊x⌋ else ⌈x⌉

/-- C cast `(uint8) x` of a float: truncation towards zero, kept to the low
eight bits. -/
def toUInt8 (x : ℚ) : Nat :=
  (truncToInt x % 256).toNat

/-- Source `FMath::Clamp(X, Min, Max)`. -/
def Clamp (x lo hi : ℚ) : ℚ :=
  if x < lo then lo else if x < hi then x else hi

/-! ## One-shot signals -/

/-- Source `CreatureCore::GetAndClearShouldAnimStart`: the return value and the
state afterwards. -/
def GetAndClearShouldAnimStart (s : Core) : Bool × Core :=
  let retval := s.should_process_animation_start
  (retval, { s with should_process_animation_start := false })

/-- Source `CreatureCore::GetAndClearShouldAnimEnd`: the return value and the state
afterwards. -/
def GetAndClearShouldAnimEnd (s : Core) : Bool × Core :=
  let retval := s.should_process_animation_end
  (retval, { s with should_process_animation_end := false })

/-! ## Playback -/

/-- The body of `if (cur_animation) { ... }` in `ParseEvents`: both edge
tests, the start test first. -/
def ParseEvents.edges (cur_runtime deltaTime : ℚ) (cur_animation : CreatureAnimation)
    (s : Core) : Core :=
  let cur_start_time : ℤ := cur_animation.start_time
  let cur_end_time : ℤ := cur_animation.end_time
  let diff_val_start : ℚ := |cur_runtime - (cur_start_time : ℚ)|
  let cutoff : ℚ := 1 / 100
  let s1 : Core :=
    if diff_val_start ≤ cutoff ∧ s.is_looping = false ∧ s.play_start_done = false
        ∧ s.should_play = true then
      { s with play_start_done := true, should_process_animation_start := true }
    else s
  if cur_runtime + 1 ≥ (cur_end_time : ℚ) ∧ s1.is_looping = false ∧ s1.play_end_done = false
      ∧ s1.should_play = true ∧ deltaTime > 0 then
    { s1 with play_end_done := true, should_play := false,
              should_process_animation_end := true }
  else s1

/-- Source `CreatureCore::ParseEvents(deltaTime)`, with the clip cache
`global_animations` and the manager it reads passed in. -/
def ParseEvents (global_animations : List (String × CreatureAnimation))
    (creature_manager : CreatureManager) (deltaTime : ℚ) (s : Core) : Core :=
  let cur_runtime := creature_manager.actual_run_time
  let s0 : Core := { s with animation_frame := cur_runtime }
  let load_filename := s0.absolute_creature_filename
  let cur_animation_name := creature_manager.active_animation_name
  let cur_token := GetAnimationToken load_filename cur_animation_name
  match global_animations.lookup cur_token with
  | some cur_animation => ParseEvents.edges cur_runtime deltaTime cur_animation s0
  | none => s0

/-- Source `CreatureCore::SetBluePrintAnimationPlay(flag_in)`. -/
def SetBluePrintAnimationPlay (flag_in : Bool) (s : Core) : Core :=
  { s with should_play := flag_in, play_start_done := false, play_end_done := false }

/-! ## Buffers -/

/-- Source `memcpy(dst + dst_off, src + src_off, n * sizeof(glm::uint32))`, word by
word. -/
def Memcpy (dst : List Nat) (dst_off : Nat) (src : List Nat) (src_off : Nat) : Nat → List Nat
  | 0 => dst
  | n + 1 => (Memcpy dst dst_off src src_off n).set (dst_off + n) (src.getD (src_off + n) 0)

/-- Source `CreatureCore::GetIndicesCopy(init_size)`: the scratch buffer is allocated
on the first call only; a later call returns the buffer there is, whatever
`init_size` asks for. The contents of a fresh `new glm::uint32[init_size]`
are indeterminate; the model fills it with `0`. The result is the buffer
together with the state that now owns it. -/
def GetIndicesCopy (init_size : Nat) (s : Core) : List Nat × Core :=
  match s.global_indices_copy with
  | none =>
      let fresh := List.replicate init_size 0
      (fresh, { s with global_indices_copy := some fresh })
  | some buf => (buf, s)

/-- Source `CreatureCore::shouldSkinSwap`. -/
def shouldSkinSwap (s : Core) : Bool :=
  s.meta_data.isSome && s.skin_swap_active && decide (s.skin_swap_indices.length > 0)

/-! ## Colour compositor -/

/-- The loop `for (i = start_pt_index; i <= end_pt_index; i++) region_colors[i] = c`. -/
def fillColors (region_colors : List FColor) (start_pt_index end_pt_index : Nat)
    (c : FColor) : List FColor :=
  (List.range (end_pt_index + 1 - start_pt_index)).foldl
    (fun cs k => cs.set (start_pt_index + k) c) region_colors

/-- The colour the base pass computes for one region (`cur_r`, `cur_g`,
`cur_b`, `cur_alpha`). -/
def regionColor (cur_region : meshRenderRegion) : FColor :=
  let opacity : ℚ := Clamp (cur_region.opacity / 100) 0 1
  let cur_alpha := toUInt8 (opacity * 255)
  let cur_r := toUInt8 (cur_region.red / 100 * opacity * 255)
  let cur_g := toUInt8 (cur_region.green / 100 * opacity * 255)
  let cur_b := toUInt8 (cur_region.blue / 100 * opacity * 255)
  FColor.mk cur_r cur_g cur_b cur_alpha

/-- The base pass of `ProcessRenderRegions` ("fill up animation alphas"): one
iteration per entry of the regions map, in iteration order. -/
def basePass (regions_map : List (String × meshRenderRegion)) (region_colors : List FColor) :
    List FColor :=
  regions_map.foldl
    (fun cs cur_region_pair =>
      let cur_region := cur_region_pair.2
      fillColors cs cur_region.start_pt_index cur_region.end_pt_index (regionColor cur_region))
    region_colors

/-- The override pass of `ProcessRenderRegions` ("user overwrite alphas"): one
iteration per entry of `region_colors_map`. -/
def overridePass (regions_map : List (String × meshRenderRegion))
    (region_colors_map : List (String × FColor)) (region_colors : List FColor) : List FColor :=
  region_colors_map.foldl
    (fun cs cur_iter =>
      let cur_name := cur_iter.1
      let cur_alpha := cur_iter.2.A
      match regions_map.lookup cur_name with
      | some cur_region =>
          fillColors cs cur_region.start_pt_index cur_region.end_pt_index
            (FColor.mk cur_alpha cur_alpha cur_alpha cur_alpha)
      | none => cs)
    region_colors

/-- Source `CreatureCore::ProcessRenderRegions`. -/
def ProcessRenderRegions (cur_creature : Creature) (s : Core) : Core :=
  let regions_map := cur_creature.regions_map
  let colors0 : List FColor :=
    if s.region_colors.length ≠ cur_creature.total_num_pts then
      List.replicate cur_creature.total_num_pts (FColor.mk 255 255 255 255)
    else s.region_colors
  let colors1 := basePass regions_map colors0
  let colors2 :=
    if s.region_colors_map.length > 0 then
      overridePass regions_map s.region_colors_map colors1
    else colors1
  { s with region_colors := colors2 }

/-! ## Region compositor -/

/-- The depth loop over one region: `region_pts = cur_pts + start_pt_index * 3`,
then `region_pts[2] = region_z; region_pts += 3` once per point. -/
def setRegionZ (cur_pts : List ℚ) (single_region : meshRenderRegion) (region_z : ℚ) : List ℚ :=
  (List.range single_region.getNumPts).foldl
    (fun pts i => pts.set (single_region.start_pt_index * 3 + i * 3 + 2) region_z) cur_pts

/-- The loop "Normal update in default order": the points and `region_z`
after all regions have been visited. -/
def depthLoop (cur_regions : List meshRenderRegion) (delta_z : ℚ) (cur_pts : List ℚ)
    (region_z : ℚ) : List ℚ × ℚ :=
  cur_regions.foldl
    (fun acc single_region => (setRegionZ acc.1 single_region acc.2, acc.2 + delta_z))
    (cur_pts, region_z)

/-- The two assignments `should_update_render_indices = false` and
`region_order_indices_num = 0` at the head of `UpdateCreatureRender`. -/
def UpdateCreatureRender.clearFlags (s : Core) : Core :=
  { s with should_update_render_indices := false, region_order_indices_num := 0 }

/-- The branch `region_custom_order.Num() != cur_regions.Num()` of
`UpdateCreatureRender`: depth in natural order, then, with meta data, either
the skin swap copy or the region-order track. -/
def UpdateCreatureRender.defaultOrder (creature_manager : CreatureManager) (s : Core) :
    Core × CreatureManager :=
  let cur_creature := creature_manager.creature
  let cur_num_indices := cur_creature.total_num_indices
  let delta_z := s.region_overlap_z_delta
  let cur_pts := (depthLoop cur_creature.regions delta_z cur_creature.render_pts 0).1
  match s.meta_data with
  | none =>
      (s, { creature_manager with creature := { cur_creature with render_pts := cur_pts } })
  | some meta_data =>
      let alloc := GetIndicesCopy cur_num_indices s
      let dst_indices := alloc.1
      let s1 := alloc.2
      let has_region_order :=
        meta_data.hasRegionOrder creature_manager.active_animation_name
          (truncToInt creature_manager.actual_run_time)
      if shouldSkinSwap s1 && (has_region_order == false) then
        let dst := Memcpy dst_indices 0 s1.skin_swap_indices 0 s1.skin_swap_indices.length
        ({ s1 with global_indices_copy := some dst, should_update_render_indices := true },
          { creature_manager with creature := { cur_creature with render_pts := cur_pts } })
      else
        let cur_runtime := truncToInt creature_manager.actual_run_time
        let out :=
          meta_data.updateIndicesAndPoints dst_indices cur_creature.global_indices cur_pts
            delta_z cur_creature.total_num_indices cur_creature.total_num_pts
            creature_manager.active_animation_name (shouldSkinSwap s1)
            s1.skin_swap_region_ids cur_runtime
        ({ s1 with region_order_indices_num := out.1, global_indices_copy := some out.2.1,
                   should_update_render_indices := true },
          { creature_manager with creature := { cur_creature with render_pts := out.2.2 } })

/-- The locals the custom-order loop carries from one name to the next. -/
structure CustomOrderLoop where
  cur_pts : List ℚ
  region_z : ℚ
  dst_indices : List Nat
  indice_idx : Nat

/-- One iteration of `for (auto& custom_region_name : region_custom_order)`. -/
def CustomOrderLoop.step (regions_map : List (String × meshRenderRegion)) (cur_idx : List Nat)
    (delta_z : ℚ) (st : CustomOrderLoop) (custom_region_name : String) : CustomOrderLoop :=
  let real_name := custom_region_name
  match regions_map.lookup real_name with
  | some single_region =>
      let copy_start_idx := single_region.start_index
      let copy_end_idx := single_region.end_index
      let copy_num_indices := copy_end_idx + 1 - copy_start_idx
      { cur_pts := setRegionZ st.cur_pts single_region st.region_z
        region_z := st.region_z + delta_z
        dst_indices := Memcpy st.dst_indices st.indice_idx cur_idx copy_start_idx copy_num_indices
        indice_idx := st.indice_idx + copy_num_indices }
  | none => st

/-- The whole custom-order loop. -/
def CustomOrderLoop.run (regions_map : List (String × meshRenderRegion)) (cur_idx : List Nat)
    (delta_z : ℚ) (region_custom_order : List String) (st : CustomOrderLoop) : CustomOrderLoop :=
  region_custom_order.foldl (CustomOrderLoop.step regions_map cur_idx delta_z) st

/-- The `else` branch of `UpdateCreatureRender` ("Custom order update"). -/
def UpdateCreatureRender.customOrder (creature_manager : CreatureManager) (s : Core) :
    Core × CreatureManager :=
  let cur_creature := creature_manager.creature
  let cur_num_indices := cur_creature.total_num_indices
  let alloc := GetIndicesCopy cur_num_indices s
  let s1 := alloc.2
  let fin :=
    CustomOrderLoop.run cur_creature.regions_map cur_creature.global_indices
      s.region_overlap_z_delta s.region_custom_order
      { cur_pts := cur_creature.render_pts, region_z := 0, dst_indices := alloc.1, indice_idx := 0 }
  ({ s1 with global_indices_copy := some fin.dst_indices, should_update_render_indices := true },
    { creature_manager with creature := { cur_creature with render_pts := fin.cur_pts } })

/-- Source `CreatureCore::UpdateCreatureRender`: the instance state and the manager
(whose creature owns the points) afterwards. -/
def UpdateCreatureRender (creature_manager : CreatureManager) (s : Core) :
    Core × CreatureManager :=
  let cur_creature := creature_manager.creature
  let cur_regions := cur_creature.regions
  let s0 : Core := UpdateCreatureRender.clearFlags s
  let out :=
    if s0.region_custom_order.length ≠ cur_regions.length then
      UpdateCreatureRender.defaultOrder creature_manager s0
    else
      UpdateCreatureRender.customOrder creature_manager s0
  (ProcessRenderRegions out.2.creature out.1, out.2)

/-! ## The draw buffer handed out -/

/-- Source `CreatureCore::HasMeshModifier`. -/
def HasMeshModifier (s : Core) : Bool :=
  s.mesh_modifier.isSome

/-- Source `CreatureCore::GetRealTotalIndicesNum`. -/
def GetRealTotalIndicesNum (creature_manager : CreatureManager) (s : Core) : ℤ :=
  let modifier_valid : Bool :=
    match s.mesh_modifier with
    | some mesh_modifier => mesh_modifier.data.m_isValid
    | none => false
  if HasMeshModifier s && modifier_valid then
    match s.mesh_modifier with
    | some mesh_modifier => mesh_modifier.data.m_numIndices
    | none => 0
  else
    let cur_creature := creature_manager.creature
    let num_indices : ℤ := (cur_creature.total_num_indices : ℤ)
    if s.region_order_indices_num > 0 then s.region_order_indices_num
    else if shouldSkinSwap s then (s.skin_swap_indices.length : ℤ)
    else num_indices

/-- Source `TArray::SetNum` on the colour array: cut to `n` entries or filled up to
`n` with new entries, whose contents the engine leaves open (here `0`). -/
def SetNumColors (colors : List FColor) (n : Nat) : List FColor :=
  colors.take n ++ List.replicate (n - colors.length) (FColor.mk 0 0 0 0)

/-- Source `CreatureCore::GetProcMeshData(world_type)`, for a manager whose creature
exists: the data handed out and the instance afterwards. -/
def GetProcMeshData (world_type : EWorldType) (creature_manager : CreatureManager) (s : Core) :
    FProceduralMeshTriData × Core :=
  let cur_creature := creature_manager.creature
  if s.is_animation_loaded = false then
    ({ indices := none, points := none, uvs := none, point_num := 0, indices_num := 0,
       region_colors := s.region_colors }, s)
  else
    let num_points := cur_creature.total_num_pts
    let num_indices := cur_creature.total_num_indices
    let cur_indices := cur_creature.global_indices
    let cur_pts := cur_creature.render_pts
    let cur_uvs := cur_creature.global_uvs
    let alloc := GetIndicesCopy num_indices s
    let copy_indices := Memcpy alloc.1 0 cur_indices 0 num_indices
    let s1 : Core := { alloc.2 with global_indices_copy := some copy_indices }
    let colors1 : List FColor :=
      if s1.region_colors.length ≠ num_points then SetNumColors s1.region_colors num_points
      else s1.region_colors
    let colors2 : List FColor :=
      if world_type = EWorldType.Editor ∨ world_type = EWorldType.EditorPreview then
        colors1.map fun _ => FColor.mk 255 255 255 255
      else colors1
    let s2 : Core := { s1 with region_colors := colors2 }
    match s2.mesh_modifier with
    | some mesh_modifier =>
        let m := mesh_modifier.initData
        ({ indices := some m.data.m_indices, points := some m.data.m_pts,
           uvs := some m.data.m_uvs, point_num := m.numPoints,
           indices_num := m.data.m_maxIndice, region_colors := m.data.m_colors },
          { s2 with mesh_modifier := some m })
    | none =>
        ({ indices := some copy_indices, points := some cur_pts, uvs := some cur_uvs,
           point_num := (num_points : ℤ), indices_num := (num_indices : ℤ),
           region_colors := colors2 }, s2)

/-! ## Asset cache -/

/-- Source `TMap::Contains`. -/
def TMapContains {V : Type} (m : List (String × V)) (key : String) : Bool :=
  (m.lookup key).isSome

/-- Source `TMap::Add(key, value)`: the value of `key` becomes `value`, whether or
not the key was there. -/
def TMapAdd {V : Type} (m : List (String × V)) (key : String) (value : V) : List (String × V) :=
  (m.filter fun e => e.1 != key) ++ [(key, value)]

/-- Modelled from the spec: the assignment `map[key] = value` of
`LoadDataPacket(const FName&)` goes through `TMap::operator[]`, declared
outside this file; the spec has the path-based load populate the cache on
demand, so the assignment stores `value` under `key` like `Add`. -/
def TMapAssign {V : Type} (m : List (String × V)) (key : String) (value : V) :
    List (String × V) :=
  TMapAdd m key value

/-- Source `TMap::Remove(key)`. -/
def TMapRemove {V : Type} (m : List (String × V)) (key : String) : List (String × V) :=
  m.filter fun e => e.1 != key

/-- Source `FString::StartsWith`. -/
def StartsWith (str pre : String) : Bool :=
  pre.data.isPrefixOf str.data

/-- The two file-static maps `global_animations` and
`global_load_data_packets`. -/
structure Globals where
  global_animations : List (String × CreatureAnimation)
  global_load_data_packets : List (String × CreatureLoadDataPacket)
deriving DecidableEq

/-- Source `CreatureCore::LoadDataPacket(const FName& filename_in)`: the return value
and the packet cache afterwards. -/
def LoadDataPacket (M : CreatureModule) (filename_in : String)
    (global_load_data_packets : List (String × CreatureLoadDataPacket)) :
    Bool × List (String × CreatureLoadDataPacket) :=
  if TMapContains global_load_data_packets filename_in then
    (true, global_load_data_packets)
  else
    let new_packet := M.LoadCreatureJSONData filename_in
    (true, TMapAssign global_load_data_packets filename_in new_packet)

/-- Source `CreatureCore::LoadDataPacket(const FName& filename_in, FString* pSourceData)`:
the return value and the packet cache afterwards; a null `pSourceData` is
`none`. -/
def LoadDataPacket.fromData (M : CreatureModule) (filename_in : String)
    (pSourceData : Option String)
    (global_load_data_packets : List (String × CreatureLoadDataPacket)) :
    Bool × List (String × CreatureLoadDataPacket) :=
  match pSourceData with
  | none => (false, global_load_data_packets)
  | some source =>
      if TMapContains global_load_data_packets filename_in then
        (true, global_load_data_packets)
      else if source.length = 0 then
        (false, global_load_data_packets)
      else
        let new_packet := M.LoadCreatureJSONDataFromString source
        (true, TMapAdd global_load_data_packets filename_in new_packet)

/-- Source `CreatureCore::FreeDataPacket(filename_in)`. -/
def FreeDataPacket (filename_in : String) (g : Globals) : Globals :=
  if TMapContains g.global_load_data_packets filename_in then
    let remove_keys : List String :=
      (g.global_animations.filter fun anim_pair =>
        StartsWith anim_pair.1 (filename_in ++ "_")).map fun anim_pair => anim_pair.1
    let animations := remove_keys.foldl (fun m cur_key => TMapRemove m cur_key) g.global_animations
    { global_animations := animations
      global_load_data_packets := TMapRemove g.global_load_data_packets filename_in }
  else g

/-- Source `CreatureCore::LoadAnimation(filename_in, name_in)`. -/
def LoadAnimation (M : CreatureModule) (filename_in name_in : String) (g : Globals) : Globals :=
  let cur_token := GetAnimationToken filename_in name_in
  if TMapContains g.global_animations cur_token then g
  else if TMapContains g.global_load_data_packets filename_in = false then g
  else
    match g.global_load_data_packets.lookup filename_in with
    | some load_data =>
        let new_animation := M.newCreatureAnimation load_data name_in
        { g with global_animations := TMapAdd g.global_animations cur_token new_animation }
    | none => g

/-- The two entry points of loading, as one call: the path-based
`LoadDataPacket(key)` or the inline `LoadDataPacket(key, pSourceData)`. -/
inductive LoadCall where
  | path
  | fromData (pSourceData : Option String)
deriving DecidableEq

/-- One load of `key` through the entry point `c`. -/
def LoadCall.run (M : CreatureModule) (key : String) :
    LoadCall → List (String × CreatureLoadDataPacket) →
      Bool × List (String × CreatureLoadDataPacket)
  | .path, cache => LoadDataPacket M key cache
  | .fromData pSourceData, cache => LoadDataPacket.fromData M key pSourceData cache

/-! ## Blending -/

/-- Source `CreatureCore::SetAutoBlendActiveAnimation(name_in, factor)`: the instance
and the manager afterwards. -/
def SetAutoBlendActiveAnimation (name_in : String) (factor : ℚ)
    (creature_manager : CreatureManager) (s : Core) : Core × CreatureManager :=
  let all_animations := creature_manager.all_animations
  if TMapContains all_animations name_in = false then (s, creature_manager)
  else
    let factor : ℚ :=
      if factor < 1 / 1000 then 1 / 1000
      else if factor > 1 then 1
      else factor
    let s1 : Core :=
      if s.smooth_transitions = false then { s with smooth_transitions := true } else s
    (s1, { creature_manager with auto_blending := true, auto_blend_to := some (name_in, factor) })

/-! ## Bone transforms -/

/-- The operations of the engine type `FTransform` that `GetBluePrintBoneXform`
uses, over a carrier `T`: the default-constructed transform, the result of
`Blend(Atom1, Atom2, Alpha)` and the product `A * B`. -/
structure FTransformOps (T : Type) where
  identity : T
  Blend : T → T → ℚ → T
  mul : T → T → T

/-- Entry `FCreatureBoneData` of the table `bone_data`. -/
structure FCreatureBoneData (T : Type) where
  name : String
  point1 : FVector
  point2 : FVector
  xform : T
  startXform : T
  endXform : T

/-- Source `CreatureCore::GetBluePrintBoneXform`, with the member `bone_data` passed
in: the loop runs to the first entry named `name_in` and breaks there. -/
def GetBluePrintBoneXform {T : Type} (ops : FTransformOps T) (name_in : String)
    (world_transform : Bool) (position_slide_factor : ℚ) (base_transform : T) :
    List (FCreatureBoneData T) → T
  | [] => ops.identity
  | bone :: rest =>
      if bone.name = name_in then
        let ret_xform := bone.xform
        let diff_slide_factor : ℚ := |position_slide_factor|
        let diff_cutoff : ℚ := 1 / 100
        let ret_xform :=
          if diff_slide_factor > diff_cutoff then
            ops.Blend bone.startXform bone.endXform (position_slide_factor + 1 / 2)
          else ret_xform
        if world_transform then ops.mul ret_xform base_transform else ret_xform
      else
        GetBluePrintBoneXform ops name_in world_transform position_slide_factor base_transform rest

/-- Difference of two `glm::vec4`. -/
def vec4.sub (a b : vec4) : vec4 :=
  { x := a.x - b.x, y := a.y - b.y, z := a.z - b.z, w := a.w - b.w }

/-- Division of a `glm::vec4` by a scalar. -/
def vec4.divScalar (a : vec4) (c : ℚ) : vec4 :=
  { x := a.x / c, y := a.y / c, z := a.z / c, w := a.w / c }

/-- Source `glm::dot` on `glm::vec4`. -/
def vec4.dot (a b : vec4) : ℚ :=
  a.x * b.x + a.y * b.y + a.z * b.z + a.w * b.w

/-- The body of the loop of `IsBluePrintBonesCollide` for one bone: whether it
reaches `return true`. `length` stands for `glm::length`, whose square root has
no exact rational value. When the length is 0 the division yields no number
(NaN or an infinity in every component), every comparison with the projection
fails, and the bone is passed over. -/
def IsBluePrintBonesCollide.hit (length : vec4 → ℚ) (real_test_pt : vec4) (bone_size : ℚ)
    (cur_bone : meshBone) : Bool :=
  let bone_start_pt := cur_bone.world_start_pt
  let bone_end_pt := cur_bone.world_end_pt
  let bone_vec := bone_end_pt.sub bone_start_pt
  let bone_length := length bone_vec
  if bone_length = 0 then false
  else
    let bone_unit_vec := bone_vec.divScalar bone_length
    let rel_vec := real_test_pt.sub bone_start_pt
    let proj_length_u := rel_vec.dot bone_unit_vec
    if proj_length_u ≥ 0 ∧ proj_length_u ≤ bone_length then
      let bone_unit_normal_vec : vec4 :=
        { bone_unit_vec with x := -bone_unit_vec.y, y := bone_unit_vec.x }
      let proj_length_v : ℚ := |rel_vec.dot bone_unit_normal_vec|
      if proj_length_v ≤ bone_size then true else false
    else false

/-- The loop `for (auto cur_data : bones_map)` of `IsBluePrintBonesCollide`. -/
def IsBluePrintBonesCollide.loop (length : vec4 → ℚ) (real_test_pt : vec4) (bone_size : ℚ) :
    List (String × meshBone) → Bool
  | [] => false
  | cur_data :: rest =>
      if IsBluePrintBonesCollide.hit length real_test_pt bone_size cur_data.2 then true
      else IsBluePrintBonesCollide.loop length real_test_pt bone_size rest

/-- Source `CreatureCore::IsBluePrintBonesCollide`, from the point where the test
point has been taken into the base transform's local space
(`local_test_point`). -/
def IsBluePrintBonesCollide (length : vec4 → ℚ) (local_test_point : FVector) (bone_size : ℚ)
    (creature_manager : CreatureManager) : Bool :=
  let bone_size : ℚ := if bone_size ≤ 0 then 1 else bone_size
  let bones_map := creature_manager.creature.bones_map
  let real_test_pt : vec4 :=
    { x := local_test_point.X, y := local_test_point.Y, z := local_test_point.Z, w := 1 }
  IsBluePrintBonesCollide.loop length real_test_pt bone_size bones_map

/-! ## Entry points that reach for the manager -/

/-- A call made through the pointer `creature_manager` with no null test before
it: there is no result (`none`) when the pointer is null. -/
def throughManager {α : Type} (creature_manager : Option CreatureManager)
    (body : CreatureManager → α) : Option α :=
  match creature_manager with
  | some m => some (body m)
  | none => none

/-- Source `CreatureCore::SetTimeScale(timeScale)`; the pointer `creature_manager`
is `none` when null. -/
def SetTimeScale (E : CreatureEngine) (timeScale : ℚ) (creature_manager : Option CreatureManager)
    (s : Core) : Core × Option CreatureManager :=
  match creature_manager with
  | none => (s, none)
  | some cur_creature_manager => (s, some (E.SetTimeScale timeScale cur_creature_manager))

/-- Source `CreatureCore::SetBluePrintAnimationLoop(flag_in)`. -/
def SetBluePrintAnimationLoop (E : CreatureEngine) (flag_in : Bool)
    (creature_manager : Option CreatureManager) (s : Core) : Core × Option CreatureManager :=
  let s1 : Core := { s with is_looping := flag_in }
  match creature_manager with
  | some m => (s1, some (E.SetShouldLoop s1.is_looping m))
  | none => (s1, none)

/-- Source `CreatureCore::SetBluePrintAnimationResetToStart()`. -/
def SetBluePrintAnimationResetToStart (E : CreatureEngine)
    (creature_manager : Option CreatureManager) (s : Core) : Core × Option CreatureManager :=
  match creature_manager with
  | some m =>
      let m1 := E.ResetToStartTimes m
      let cur_runtime := m1.actual_run_time
      let s1 : Core := { s with animation_frame := cur_runtime }
      let m2 := E.Update 0 m1
      ({ s1 with play_start_done := false, play_end_done := false }, some m2)
  | none => ({ s with play_start_done := false, play_end_done := false }, none)

/-- Source `CreatureCore::SetBluePrintAnimationResetToEnd()`: no result when the
manager exists but `GetAnimation` of the active name yields a null clip,
which the source dereferences. -/
def SetBluePrintAnimationResetToEnd (E : CreatureEngine)
    (creature_manager : Option CreatureManager) (s : Core) :
    Option (Core × Option CreatureManager) :=
  match creature_manager with
  | some m =>
      match m.all_animations.lookup m.active_animation_name with
      | some anim =>
          let cur_runtime : ℚ := (anim.end_time : ℚ)
          let m1 := E.setRunTime cur_runtime m
          let s1 : Core := { s with animation_frame := cur_runtime }
          let m2 := E.Update 0 m1
          some ({ s1 with play_start_done := false, play_end_done := false }, some m2)
      | none => none
  | none => some ({ s with play_start_done := false, play_end_done := false }, none)

/-- Source `CreatureCore::SetBluePrintAnimationFrame(time_in)`: every statement goes
through `creature_manager`. -/
def SetBluePrintAnimationFrame (E : CreatureEngine) (time_in : ℚ)
    (creature_manager : Option CreatureManager) (s : Core) : Option (Core × CreatureManager) :=
  throughManager creature_manager fun m =>
    let cur_delta := (time_in - m.actual_run_time) / E.GetTimeScale m
    let m1 := E.Update cur_delta m
    ({ s with animation_frame := m1.actual_run_time }, m1)

/-- Source `CreatureCore::SetActiveAnimation(name_in)`. -/
def SetActiveAnimation (E : CreatureEngine) (name_in : String)
    (creature_manager : Option CreatureManager) (s : Core) : Option (Core × CreatureManager) :=
  throughManager creature_manager fun m =>
    (s, { E.SetActiveAnimationName name_in m with auto_blending := false })

/-- Source `CreatureCore::SetAutoBlendActiveAnimation(name_in, factor)` as called on
the pointer `creature_manager`: its first statement already goes through
it. -/
def SetAutoBlendActiveAnimation.onPointer (name_in : String) (factor : ℚ)
    (creature_manager : Option CreatureManager) (s : Core) : Option (Core × CreatureManager) :=
  throughManager creature_manager fun m => SetAutoBlendActiveAnimation name_in factor m s

/-! ## The update lock -/

/-- What a function does with `update_lock` and the shared state, in program
order: construct an `FScopeLock` on it, leave the scope of one, or read or
write the playback flags or the pose solver. -/
inductive LockStep where
  | acquire
  | release
  | access
deriving DecidableEq

/-- Whether every `access` of a step list happens while at least one
`FScopeLock` of the calling thread is alive; `depth` counts the live ones
(the critical section is re-entrant). -/
def guardedFrom (depth : Nat) : List LockStep → Bool
  | [] => true
  | .acquire :: rest => guardedFrom (depth + 1) rest
  | .release :: rest => guardedFrom (depth - 1) rest
  | .access :: rest => decide (0 < depth) && guardedFrom depth rest

/-- The steps of `SetBluePrintAnimationPlay`: three flag writes, no `FScopeLock`. -/
def SetBluePrintAnimationPlay.lockSteps : List LockStep :=
  [.access]

/-- The steps of `SetBluePrintAnimationResetToStart`: `FScopeLock` first, then the
solver calls and the flag writes. -/
def SetBluePrintAnimationResetToStart.lockSteps : List LockStep :=
  [.acquire, .access, .release]

/-- The steps of `SetBluePrintAnimationPlayFromStart`: `FScopeLock` first, then the
two calls. -/
def SetBluePrintAnimationPlayFromStart.lockSteps : List LockStep :=
  [.acquire] ++ SetBluePrintAnimationResetToStart.lockSteps
    ++ SetBluePrintAnimationPlay.lockSteps ++ [.release]

/-- The steps of `SetBluePrintAnimationResetToEnd`: solver calls and flag writes, no
`FScopeLock`. -/
def SetBluePrintAnimationResetToEnd.lockSteps : List LockStep :=
  [.access]

/-- The steps of `SetBluePrintAnimationFrame`: solver calls and a write of
`animation_frame`, no `FScopeLock`. -/
def SetBluePrintAnimationFrame.lockSteps : List LockStep :=
  [.access]

/-- The steps of `SetAutoBlendActiveAnimation`: solver calls and a write of
`smooth_transitions`, no `FScopeLock`. -/
def SetAutoBlendActiveAnimation.lockSteps : List LockStep :=
  [.access]

/-- The steps of `RunTick` once the animation is loaded: `FScopeLock`, then the
whole tick. -/
def RunTick.lockSteps : List LockStep :=
  [.acquire, .access, .release]

/-! ## Initialisation and the tick -/

/-- Source `FName::IsNone`: the name is the engine's `None`. -/
def FNameIsNone (name : String) : Bool :=
  name == "None"

/-- Source `CreatureCore::LoadCreature(filename_in)`: the new manager; no result when
`filename_in` is not in the packet cache, which `operator[]` requires.
`draw_triangles` is not modelled. -/
def LoadCreature (E : CreatureEngine) (filename_in : String) (g : Globals) :
    Option CreatureManager :=
  match g.global_load_data_packets.lookup filename_in with
  | some load_data => some (E.newCreatureManager (E.newCreature load_data))
  | none => none

/-- Source `CreatureCore::AddLoadedAnimation(filename_in, name_in)`. -/
def AddLoadedAnimation (E : CreatureEngine) (filename_in name_in : String) (g : Globals)
    (creature_manager : CreatureManager) (s : Core) : Bool × CreatureManager :=
  let cur_token := GetAnimationToken filename_in name_in
  match g.global_animations.lookup cur_token with
  | some anim =>
      (true, E.SetShouldLoop s.is_looping (E.SetIsPlaying true (E.AddAnimation anim creature_manager)))
  | none => (false, creature_manager)

/-- The part of `InitCreatureRender` under `if (init_success)`: the caches and the
new manager afterwards; no result when the creature has no animation name
(`all_animation_names[0]`) or the packet is missing. `FillBoneData` writes
`bone_data` only, which is kept outside `Core`. -/
def InitCreatureRender.onSuccess (M : CreatureModule) (E : CreatureEngine) (load_filename : String)
    (g : Globals) (s : Core) : Option (Globals × CreatureManager) :=
  match LoadCreature E load_filename g with
  | none => none
  | some m0 =>
      let all_animation_names := m0.creature.animation_names
      match all_animation_names with
      | [] => none
      | name0 :: _ =>
          let first_animation_name := name0
          let loaded :=
            all_animation_names.foldl
              (fun (acc : Globals × CreatureManager) cur_name =>
                let g1 := LoadAnimation M load_filename cur_name acc.1
                (g1, (AddLoadedAnimation E load_filename cur_name g1 acc.2 s).2))
              (g, m0)
          let cur_str := s.start_animation_name
          let first_animation_name :=
            if all_animation_names.contains cur_str then cur_str else first_animation_name
          let m1 : CreatureManager :=
            { E.SetActiveAnimationName first_animation_name loaded.2 with auto_blending := false }
          let m2 : CreatureManager :=
            if s.smooth_transitions then { m1 with auto_blending := true } else m1
          some (loaded.1, m2)

/-- The first half of `InitCreatureRender`, down to `if (init_success)`:
`init_success`, `load_filename`, the instance and the caches at that point. -/
def InitCreatureRender.load (M : CreatureModule) (F : PlatformFile) (g : Globals) (s : Core) :
    Bool × String × Core × Globals :=
  let cur_creature_filename := s.creature_filename
  let s0 : Core := { s with is_animation_loaded := false }
  match s0.pJsonData with
  | some json =>
      let cur_creature_filename :=
        if FNameIsNone cur_creature_filename then s0.creature_asset_filename
        else cur_creature_filename
      let load_filename := cur_creature_filename
      let r := LoadDataPacket.fromData M load_filename (some json) g.global_load_data_packets
      (r.1, load_filename, { s0 with absolute_creature_filename := cur_creature_filename },
        { g with global_load_data_packets := r.2 })
  | none =>
      let curCreatureFilenameString := cur_creature_filename
      let does_exist := F.FileExists curCreatureFilenameString
      let cur_creature_filename :=
        if does_exist then cur_creature_filename
        else F.ProjectContentDir ++ "/" ++ curCreatureFilenameString
      let does_exist :=
        if does_exist then does_exist else F.FileExists curCreatureFilenameString
      if does_exist then
        let load_filename := cur_creature_filename
        let r := LoadDataPacket M load_filename g.global_load_data_packets
        (true, load_filename, { s0 with absolute_creature_filename := cur_creature_filename },
          { g with global_load_data_packets := r.2 })
      else (false, "None", s0, g)

/-- Source `CreatureCore::InitCreatureRender()`: the returned flag, the instance, the
caches and the manager pointer afterwards. -/
def InitCreatureRender (M : CreatureModule) (E : CreatureEngine) (F : PlatformFile)
    (g : Globals) (creature_manager : Option CreatureManager) (s : Core) :
    Option (Bool × Core × Globals × Option CreatureManager) :=
  let loaded := InitCreatureRender.load M F g s
  let init_success := loaded.1
  let load_filename := loaded.2.1
  let s1 := loaded.2.2.1
  let g1 := loaded.2.2.2
  if init_success then
    match InitCreatureRender.onSuccess M E load_filename g1 s1 with
    | some out =>
        some (init_success, { s1 with is_animation_loaded := true }, out.1, some out.2)
    | none => none
  else
    some (init_success, { s1 with is_animation_loaded := true }, g1, creature_manager)

/-- Source `CreatureCore::RunTick(delta_time)`: the returned flag, the instance and
the manager afterwards; no result when the driven branch runs
`UpdateCreatureRender` on a null manager. -/
def RunTick (E : CreatureEngine) (delta_time : ℚ) (g : Globals)
    (creature_manager : Option CreatureManager) (s : Core) :
    Option (Bool × Core × Option CreatureManager) :=
  if s.is_animation_loaded = false then some (false, s, creature_manager)
  else if s.is_driven then
    throughManager creature_manager fun m =>
      (true, (UpdateCreatureRender m s).1, some (UpdateCreatureRender m s).2)
  else if s.is_disabled then some (false, s, creature_manager)
  else
    match creature_manager with
    | some m =>
        let s1 := ParseEvents g.global_animations m delta_time s
        let m1 : CreatureManager :=
          if s1.should_play then
            let morph_targets_valid : Bool :=
              match s1.meta_data with
              | some meta_data => s1.run_morph_targets && meta_data.morph_data_isValid
              | none => false
            if morph_targets_valid then
              match s1.meta_data with
              | some meta_data => E.updateMorphStep meta_data delta_time m
              | none => m
            else E.Update delta_time m
          else m
        some (true, (UpdateCreatureRender m1 s1).1, some (UpdateCreatureRender m1 s1).2)
    | none => some (true, s, none)

/-! ## Runs of ticks and consumer reads -/

/-- The events of a run: a tick (`ParseEvents` with the clip cache, the manager
and the elapsed time of that moment) or one of the two consumer reads. -/
inductive RunEvent where
  | tick (global_animations : List (String × CreatureAnimation))
      (creature_manager : CreatureManager) (deltaTime : ℚ)
  | readStart
  | readEnd

/-- One event: the state afterwards, whether it was a `GetAndClearShouldAnimStart`
that returned `true`, and whether it was a `GetAndClearShouldAnimEnd` that
returned `true`. -/
def RunEvent.apply : RunEvent → Core → Core × Bool × Bool
  | .tick global_animations creature_manager deltaTime, s =>
      (ParseEvents global_animations creature_manager deltaTime s, false, false)
  | .readStart, s => ((GetAndClearShouldAnimStart s).2, (GetAndClearShouldAnimStart s).1, false)
  | .readEnd, s => ((GetAndClearShouldAnimEnd s).2, false, (GetAndClearShouldAnimEnd s).1)

/-- The trace of a run: one entry per event, in order. -/
def runTrace : List RunEvent → Core → List (Core × Bool × Bool)
  | [], _ => []
  | e :: es, s => e.apply s :: runTrace es (e.apply s).1

/-- The state a run ends in. -/
def runFinal : List RunEvent → Core → Core
  | [], s => s
  | e :: es, s => runFinal es (e.apply s).1

/-- How many `GetAndClearShouldAnimStart` calls of a trace returned `true`. -/
def startReads (tr : List (Core × Bool × Bool)) : Nat :=
  tr.countP (fun x => x.2.1)

/-- How many `GetAndClearShouldAnimEnd` calls of a trace returned `true`. -/
def endReads (tr : List (Core × Bool × Bool)) : Nat :=
  tr.countP (fun x => x.2.2)

/-! ## Definitions used to state the properties -/

/-- The index sequence of a custom order, in the words of the claim: for each
name of the custom order, in sequence, that is a key of the regions map, the
slice `source[startIndex..endIndex]` (both ends included); a name that is not
a key contributes nothing. -/
def customOrderIndices (regions_map : List (String × meshRenderRegion)) (source : List Nat)
    (region_custom_order : List String) : List Nat :=
  region_custom_order.flatMap fun name =>
    match regions_map.lookup name with
    | some r => (source.drop r.start_index).take (r.end_index + 1 - r.start_index)
    | none => []

/-- The custom-order total: the sum of the index-range lengths of the listed
names that are keys of the regions map. -/
def customOrderCount (regions_map : List (String × meshRenderRegion))
    (region_custom_order : List String) : Nat :=
  (region_custom_order.map fun name =>
    match regions_map.lookup name with
    | some r => r.end_index + 1 - r.start_index
    | none => 0).sum

/-- The manager `creature_manager` with the entry `name` taken out of its
creature's regions map. -/
def withoutRegion (name : String) (creature_manager : CreatureManager) : CreatureManager :=
  { creature_manager with
    creature :=
      { creature_manager.creature with
        regions_map := creature_manager.creature.regions_map.filter fun e => e.1 != name } }

/-- The unit axis `U` of a bone: its vector from start to end divided by its
length `L`. -/
def boneUnitAxis (length : vec4 → ℚ) (bone : meshBone) : vec4 :=
  (bone.world_end_pt.sub bone.world_start_pt).divScalar
    (length (bone.world_end_pt.sub bone.world_start_pt))

/-- The normal `N` of a bone: its unit axis `U` with `N.x = -U.y` and
`N.y = U.x`. -/
def boneNormal (length : vec4 → ℚ) (bone : meshBone) : vec4 :=
  { boneUnitAxis length bone with
    x := -(boneUnitAxis length bone).y, y := (boneUnitAxis length bone).x }

/-- The condition of the collision claim on one bone, for the test point `pt`
and the radius `radius`: `L > 0`, `0 <= dot(pt - P1, U) <= L` and
`|dot(pt - P1, N)| <= radius`. -/
def boneWithin (length : vec4 → ℚ) (pt : vec4) (radius : ℚ) (bone : meshBone) : Prop :=
  0 < length (bone.world_end_pt.sub bone.world_start_pt)
    ∧ 0 ≤ (pt.sub bone.world_start_pt).dot (boneUnitAxis length bone)
    ∧ (pt.sub bone.world_start_pt).dot (boneUnitAxis length bone)
        ≤ length (bone.world_end_pt.sub bone.world_start_pt)
    ∧ |(pt.sub bone.world_start_pt).dot (boneNormal length bone)| ≤ radius

instance (length : vec4 → ℚ) (pt : vec4) (radius : ℚ) (bone : meshBone) :
    Decidable (boneWithin length pt radius bone) := by
  unfold boneWithin
  infer_instance

/-! ## Concrete inputs -/

/-- A clip cache holding one clip, `run` of asset `hero`, from time 0 to 100. -/
def demoClips : List (String × CreatureAnimation) :=
  [("hero_run", { start_time := 0, end_time := 100 })]

/-- Two regions: `a` owns points 0..1 and indices 0..2, `b` owns points 2..3
and indices 3..5. -/
def demoRegionA : meshRenderRegion :=
  { start_pt_index := 0, end_pt_index := 1, start_index := 0, end_index := 2,
    opacity := 100, red := 100, green := 50, blue := 7 }

/-- The second region of the demo creature. -/
def demoRegionB : meshRenderRegion :=
  { start_pt_index := 2, end_pt_index := 3, start_index := 3, end_index := 5,
    opacity := 60, red := 100, green := 100, blue := 100 }

/-- A creature of four points and two triangles. -/
def demoCreature : Creature :=
  { global_indices := [10, 11, 12, 13, 14, 15]
    render_pts := [1, 1, 1, 2, 2, 2, 3, 3, 3, 4, 4, 4]
    total_num_indices := 6
    total_num_pts := 4
    regions := [demoRegionA, demoRegionB]
    regions_map := [("a", demoRegionA), ("b", demoRegionB)] }

/-- The manager of the demo creature, playing `run` at run time `t`. -/
def demoManager (t : ℚ) : CreatureManager :=
  { actual_run_time := t, active_animation_name := "run", creature := demoCreature }

/-- A freshly constructed instance of asset `hero`, switched to non-looping. -/
def demoCore : Core :=
  { Core.init with is_looping := false, absolute_creature_filename := "hero" }

/-- The run of the edge-detection example: ticks at run times 0.005, 0.006, 99.2
and 99.5, both signals read after every tick. -/
def demoRun : List RunEvent :=
  [ .tick demoClips (demoManager (5 / 1000)) (1 / 60), .readStart, .readEnd,
    .tick demoClips (demoManager (6 / 1000)) (1 / 60), .readStart, .readEnd,
    .tick demoClips (demoManager (992 / 10)) (1 / 60), .readStart, .readEnd,
    .tick demoClips (demoManager (995 / 10)) (1 / 60), .readStart, .readEnd ]

/-- An instance on which a tick has raised "started" and, before any consumer
read, `SetBluePrintAnimationPlay(true)` has re-armed the edges. -/
def pendingCore : Core :=
  SetBluePrintAnimationPlay true (ParseEvents demoClips (demoManager (5 / 1000)) (1 / 60) demoCore)

/-- A run on `pendingCore`: a read, a tick at run time 0.005, a read. -/
def pendingRun : List RunEvent :=
  [ .readStart, .tick demoClips (demoManager (5 / 1000)) (1 / 60), .readStart ]

/-- An instance whose two edges have both been consumed. -/
def consumedCore : Core :=
  { demoCore with play_start_done := true, play_end_done := true, should_play := false }

/-- The demo instance with the custom order `b, a`: as many names as the
creature has regions. -/
def customOrderCore : Core :=
  { demoCore with region_custom_order := ["b", "a"] }

/-- The demo instance with the custom order `b`: one name for two regions. -/
def shortOrderCore : Core :=
  { demoCore with region_custom_order := ["b"] }

/-- The demo instance with the custom order `b, b`: two names, region `a`
not among them. -/
def duplicateOrderCore : Core :=
  { demoCore with region_custom_order := ["b", "b"] }

/-- A meta data object whose region-order track has no keyframe at all and whose
index computation, were it called, would claim two indices and reverse the
destination. -/
def demoMeta : CreatureMetaData :=
  { hasRegionOrder := fun _ _ => false
    updateIndicesAndPoints := fun dst _ pts _ _ _ _ _ _ _ => (2, dst.reverse, pts) }

/-- The demo instance in default order (custom order `b` for two regions) with
meta data and an active skin swap whose permutation is `15 14 13 12 11 10`. -/
def skinSwapCore : Core :=
  { demoCore with
    region_custom_order := ["b"]
    meta_data := some demoMeta
    skin_swap_active := true
    skin_swap_indices := [15, 14, 13, 12, 11, 10] }

/-- The same skin swap on an instance whose custom order `b, a` has as many
names as the creature has regions. -/
def skinSwapCustomCore : Core :=
  { skinSwapCore with region_custom_order := ["b", "a"] }

/-- A region of opacity 0 owning points 0..1. -/
def overlapRegionA : meshRenderRegion :=
  { start_pt_index := 0, end_pt_index := 1, start_index := 0, end_index := 2,
    opacity := 0, red := 100, green := 100, blue := 100 }

/-- A fully opaque region owning points 1..2: it shares point 1 with
`overlapRegionA`. -/
def overlapRegionB : meshRenderRegion :=
  { start_pt_index := 1, end_pt_index := 2, start_index := 3, end_index := 5,
    opacity := 100, red := 100, green := 100, blue := 100 }

/-- A creature of three points whose two regions share point 1. -/
def overlapCreature : Creature :=
  { global_indices := [0, 1, 2, 3, 4, 5]
    render_pts := [0, 0, 0, 0, 0, 0, 0, 0, 0]
    total_num_indices := 6
    total_num_pts := 3
    regions := [overlapRegionA, overlapRegionB]
    regions_map := [("a", overlapRegionA), ("b", overlapRegionB)] }

/-- A fresh instance with the alpha overrides `a -> 10` and `b -> 20`, as two
calls of `SetBluePrintRegionAlpha` leave them. -/
def overrideCore : Core :=
  { Core.init with
    region_colors_map := [("a", FColor.mk 10 10 10 10), ("b", FColor.mk 20 20 20 20)] }

/-- A fresh instance with the alpha overrides `a -> 10` and `ghost -> 20`, the
second naming no region. -/
def ghostOverrideCore : Core :=
  { Core.init with
    region_colors_map := [("a", FColor.mk 10 10 10 10), ("ghost", FColor.mk 20 20 20 20)] }

/-- An external library for the examples: a file's packet holds the file name,
an inline packet holds the source text, and every clip built from a packet
runs from 0 to the length of the packet's text. -/
def demoModule : CreatureModule :=
  { LoadCreatureJSONData := fun filename => { data := filename }
    LoadCreatureJSONDataFromString := fun source => { data := source }
    newCreatureAnimation := fun load_data _ =>
      { start_time := 0, end_time := (load_data.data.length : ℤ) } }

/-- A packet cache that already holds asset `hero`. -/
def heroCache : List (String × CreatureLoadDataPacket) :=
  [("hero", { data := "hero" })]

/-- Both caches after the assets `a` and `a_b` have been loaded, no clip yet. -/
def collisionGlobals : Globals :=
  { global_animations := []
    global_load_data_packets := [("a", { data := "1" }), ("a_b", { data := "22" })] }

/-- Both caches after asset `hero` and its clips `run` and `idle` have been
loaded. -/
def heroGlobals : Globals :=
  { global_animations :=
      [("hero_run", { start_time := 0, end_time := 100 }),
       ("hero_idle", { start_time := 0, end_time := 50 })]
    global_load_data_packets := [("hero", { data := "hero" })] }

/-- The demo manager knowing the clips `run` and `idle`. -/
def blendManager : CreatureManager :=
  { demoManager 0 with
    all_animations :=
      [("run", { start_time := 0, end_time := 100 }),
       ("idle", { start_time := 0, end_time := 50 })] }

/-- Transforms reduced to a translation along one axis: `Blend` interpolates
linearly and the product adds. -/
def lineOps : FTransformOps ℚ :=
  { identity := 0
    Blend := fun a b alpha => a + (b - a) * alpha
    mul := fun a b => a + b }

/-- A bone table with two bones on that axis: `arm` from 0 to 10 (midpoint 5),
`leg` from 20 to 40 (midpoint 30). -/
def lineBones : List (FCreatureBoneData ℚ) :=
  [ { name := "arm", point1 := ⟨0, 0, 0⟩, point2 := ⟨10, 0, 0⟩,
      xform := 5, startXform := 0, endXform := 10 },
    { name := "leg", point1 := ⟨20, 0, 0⟩, point2 := ⟨40, 0, 0⟩,
      xform := 30, startXform := 20, endXform := 40 } ]

/-- A length for the examples: the sum of the absolute components, which is
the Euclidean length of a vector parallel to an axis. -/
def axisLength (v : vec4) : ℚ :=
  |v.x| + |v.y| + |v.z| + |v.w|

/-- The demo manager whose creature has one bone, from `(0, 0, 0)` to
`(10, 0, 0)`. -/
def boneManager : CreatureManager :=
  { demoManager 0 with
    creature :=
      { demoCreature with
        bones_map :=
          [("spine", { world_start_pt := ⟨0, 0, 0, 1⟩, world_end_pt := ⟨10, 0, 0, 1⟩ })] } }

/-- The demo instance with the custom order `a, ghost`: two names for two
regions, the second naming no region. -/
def ghostOrderCore : Core :=
  { demoCore with region_custom_order := ["a", "ghost"] }

/-- The demo instance with the custom order `b, a`, its animation loaded. -/
def loadedCustomOrderCore : Core :=
  { customOrderCore with is_animation_loaded := true }

/-- A pose engine for the examples: a time scale of 1, `Update` advancing the
run time by the elapsed time, the resets and setters writing the run time or
the active name, the other setters leaving the manager as it is, and a new
creature being the demo creature with the clip names `run` and `idle`. -/
def demoEngine : CreatureEngine :=
  { SetTimeScale := fun _ m => m
    GetTimeScale := fun _ => 1
    SetShouldLoop := fun _ m => m
    SetIsPlaying := fun _ m => m
    ResetToStartTimes := fun m => { m with actual_run_time := 0 }
    setRunTime := fun t m => { m with actual_run_time := t }
    Update := fun dt m => { m with actual_run_time := m.actual_run_time + dt }
    SetActiveAnimationName := fun name m => { m with active_animation_name := name }
    AddAnimation := fun _ m => m
    newCreature := fun _ => { demoCreature with animation_names := ["run", "idle"] }
    newCreatureManager := fun c =>
      { actual_run_time := 0, active_animation_name := "None", creature := c }
    updateMorphStep := fun _ _ m => m }

/-- A host file system without any file. -/
def emptyDisk : PlatformFile :=
  { FileExists := fun _ => false, ProjectContentDir := "/Content" }

/-- Both caches empty. -/
def emptyGlobals : Globals :=
  { global_animations := [], global_load_data_packets := [] }

/-- A fresh instance of asset `hero` that was given an empty inline source. -/
def emptySourceCore : Core :=
  { Core.init with pJsonData := some "", creature_asset_filename := "hero" }

/-- A fresh instance that names the file `hero.json` and has no inline source. -/
def missingFileCore : Core :=
  { Core.init with creature_filename := "hero.json" }

/-- Both caches after the assets `hero` and `hero_big` and one clip of each,
`idle` of `hero` and `run` of `hero_big`, have been loaded. -/
def sharedStartGlobals : Globals :=
  { global_animations :=
      [("hero_idle", { start_time := 0, end_time := 50 }),
       ("hero_big_run", { start_time := 0, end_time := 100 })]
    global_load_data_packets := [("hero", { data := "hero" }), ("hero_big", { data := "big" })] }

/-! ## Playback: lemmas -/

theorem ParseEvents_eq_of_found (global_animations : List (String × CreatureAnimation))
    (creature_manager : CreatureManager) (deltaTime : ℚ) (s : Core) (clip : CreatureAnimation)
    (hfound : global_animations.lookup
      (GetAnimationToken s.absolute_creature_filename creature_manager.active_animation_name)
        = some clip) :
    ParseEvents global_animations creature_manager deltaTime s
      = ParseEvents.edges creature_manager.actual_run_time deltaTime clip
          { s with animation_frame := creature_manager.actual_run_time } := by
  simp only [ParseEvents, hfound]

/-- The start flags after a tick: either untouched, or the start edge fired. -/
theorem ParseEvents_start_flags (ga : List (String × CreatureAnimation))
    (m : CreatureManager) (dt : ℚ) (s : Core) :
    ((ParseEvents ga m dt s).play_start_done = s.play_start_done
        ∧ (ParseEvents ga m dt s).should_process_animation_start
            = s.should_process_animation_start)
      ∨ (s.play_start_done = false ∧ (ParseEvents ga m dt s).play_start_done = true
        ∧ (ParseEvents ga m dt s).should_process_animation_start = true) := by
  cases hl : ga.lookup (GetAnimationToken s.absolute_creature_filename m.active_animation_name) with
  | none => simp [ParseEvents, hl]
  | some clip =>
    rw [ParseEvents_eq_of_found ga m dt s clip hl]
    simp only [ParseEvents.edges]
    split_ifs <;> simp_all

theorem ParseEvents_end_flags (ga : List (String × CreatureAnimation))
    (m : CreatureManager) (dt : ℚ) (s : Core) :
    ((ParseEvents ga m dt s).play_end_done = s.play_end_done
        ∧ (ParseEvents ga m dt s).should_process_animation_end
            = s.should_process_animation_end
        ∧ (ParseEvents ga m dt s).should_play = s.should_play)
      ∨ (s.play_end_done = false ∧ (ParseEvents ga m dt s).play_end_done = true
        ∧ (ParseEvents ga m dt s).should_process_animation_end = true
        ∧ (ParseEvents ga m dt s).should_play = false) := by
  cases hl : ga.lookup (GetAnimationToken s.absolute_creature_filename m.active_animation_name) with
  | none => simp [ParseEvents, hl]
  | some clip =>
    rw [ParseEvents_eq_of_found ga m dt s clip hl]
    simp only [ParseEvents.edges]
    split_ifs <;> simp_all

theorem startReads_le (run : List RunEvent) (s : Core) :
    startReads (runTrace run s)
      ≤ s.should_process_animation_start.toNat + (!s.play_start_done).toNat := by
  induction run generalizing s with
  | nil => simp [runTrace, startReads]
  | cons e es ih =>
    have h := ih (e.apply s).1
    cases e with
    | tick ga m dt =>
      simp only [runTrace, startReads, RunEvent.apply, List.countP_cons] at h ⊢
      rcases ParseEvents_start_flags ga m dt s with ⟨h1, h2⟩ | ⟨h0, h1, h2⟩
      · rw [h1, h2] at h; simpa using h
      · rw [h1, h2] at h; rw [h0]; simp at h ⊢; omega
    | readStart =>
      simp only [runTrace, startReads, RunEvent.apply, GetAndClearShouldAnimStart,
        List.countP_cons] at h ⊢
      cases hs : s.should_process_animation_start <;> simp [hs] at h ⊢ <;> omega
    | readEnd =>
      simp only [runTrace, startReads, RunEvent.apply, GetAndClearShouldAnimEnd,
        List.countP_cons] at h ⊢
      simpa using h

theorem endReads_le (run : List RunEvent) (s : Core) :
    endReads (runTrace run s)
      ≤ s.should_process_animation_end.toNat + (!s.play_end_done).toNat := by
  induction run generalizing s with
  | nil => simp [runTrace, endReads]
  | cons e es ih =>
    have h := ih (e.apply s).1
    cases e with
    | tick ga m dt =>
      simp only [runTrace, endReads, RunEvent.apply, List.countP_cons] at h ⊢
      rcases ParseEvents_end_flags ga m dt s with ⟨h1, h2, _⟩ | ⟨h0, h1, h2, _⟩
      · rw [h1, h2] at h; simpa using h
      · rw [h1, h2] at h; rw [h0]; simp at h ⊢; omega
    | readStart =>
      simp only [runTrace, endReads, RunEvent.apply, GetAndClearShouldAnimStart,
        List.countP_cons] at h ⊢
      simpa using h
    | readEnd =>
      simp only [runTrace, endReads, RunEvent.apply, GetAndClearShouldAnimEnd,
        List.countP_cons] at h ⊢
      cases hs : s.should_process_animation_end <;> simp [hs] at h ⊢ <;> omega

theorem apply_should_play_false (e : RunEvent) (s : Core) (h : s.should_play = false) :
    (e.apply s).1.should_play = false := by
  cases e with
  | tick ga m dt =>
    simp only [RunEvent.apply]
    rcases ParseEvents_end_flags ga m dt s with ⟨_, _, h3⟩ | ⟨_, _, _, h3⟩
    · rw [h3, h]
    · exact h3
  | readStart => simpa [RunEvent.apply, GetAndClearShouldAnimStart] using h
  | readEnd => simpa [RunEvent.apply, GetAndClearShouldAnimEnd] using h

theorem runTrace_should_play_false (run : List RunEvent) (s : Core)
    (h : s.should_play = false) : ∀ x ∈ runTrace run s, x.1.should_play = false := by
  induction run generalizing s with
  | nil => simp [runTrace]
  | cons e es ih =>
    intro x hx
    simp only [runTrace, List.mem_cons] at hx
    rcases hx with rfl | hx
    · exact apply_should_play_false e s h
    · exact ih _ (apply_should_play_false e s h) x hx

theorem apply_end_raised (e : RunEvent) (s : Core) (h0 : s.play_end_done = false)
    (h1 : (e.apply s).1.play_end_done = true) : (e.apply s).1.should_play = false := by
  cases e with
  | tick ga m dt =>
    simp only [RunEvent.apply] at h1 ⊢
    rcases ParseEvents_end_flags ga m dt s with ⟨h2, _, _⟩ | ⟨_, _, _, h3⟩
    · rw [h2, h0] at h1; cases h1
    · exact h3
  | readStart => simp [RunEvent.apply, GetAndClearShouldAnimStart, h0] at h1
  | readEnd => simp [RunEvent.apply, GetAndClearShouldAnimEnd, h0] at h1

theorem runTrace_append (pre suf : List RunEvent) (s : Core) :
    runTrace (pre ++ suf) s = runTrace pre s ++ runTrace suf (runFinal pre s) := by
  induction pre generalizing s with
  | nil => simp [runTrace, runFinal]
  | cons e es ih => simp [runTrace, runFinal, ih]

theorem runTrace_length (run : List RunEvent) (s : Core) :
    (runTrace run s).length = run.length := by
  induction run generalizing s with
  | nil => simp [runTrace]
  | cons e es ih => simp [runTrace, ih]

/-! ## Playback: the claims -/

/-- C1: on a tick that finds the active clip, the end edge fires exactly when
`runtime + 1 >= clipEnd`, the instance is not looping, the end edge is not yet
consumed, `should_play` holds and the elapsed time is positive. When it fires,
`should_process_animation_end` and `play_end_done` become true and
`should_play` becomes false; otherwise the three flags keep their values. -/
theorem C1_end_edge (global_animations : List (String × CreatureAnimation))
    (creature_manager : CreatureManager) (deltaTime : ℚ) (s : Core) (clip : CreatureAnimation)
    (hfound : global_animations.lookup
      (GetAnimationToken s.absolute_creature_filename creature_manager.active_animation_name)
        = some clip) :
    ((creature_manager.actual_run_time + 1 ≥ (clip.end_time : ℚ) ∧ s.is_looping = false
        ∧ s.play_end_done = false ∧ s.should_play = true ∧ deltaTime > 0) →
      (ParseEvents global_animations creature_manager deltaTime s).should_process_animation_end
          = true
        ∧ (ParseEvents global_animations creature_manager deltaTime s).play_end_done = true
        ∧ (ParseEvents global_animations creature_manager deltaTime s).should_play = false)
    ∧ (¬ (creature_manager.actual_run_time + 1 ≥ (clip.end_time : ℚ) ∧ s.is_looping = false
        ∧ s.play_end_done = false ∧ s.should_play = true ∧ deltaTime > 0) →
      (ParseEvents global_animations creature_manager deltaTime s).should_process_animation_end
          = s.should_process_animation_end
        ∧ (ParseEvents global_animations creature_manager deltaTime s).play_end_done
          = s.play_end_done
        ∧ (ParseEvents global_animations creature_manager deltaTime s).should_play
          = s.should_play) := by
  rw [ParseEvents_eq_of_found global_animations creature_manager deltaTime s clip hfound]
  constructor
  · intro h
    simp only [ParseEvents.edges]
    split_ifs <;> simp_all
  · intro h
    simp only [ParseEvents.edges]
    split_ifs <;> simp_all

/-- C1, at a concrete tick: clip 0..100 found, run time 99.2, elapsed 1/60,
fresh non-looping instance: the end edge fires and playback stops. -/
theorem C1_end_edge_witness :
    demoClips.lookup
        (GetAnimationToken demoCore.absolute_creature_filename
          (demoManager (992 / 10)).active_animation_name)
        = some { start_time := 0, end_time := 100 }
      ∧ (ParseEvents demoClips (demoManager (992 / 10)) (1 / 60) demoCore).should_process_animation_end = true
      ∧ (ParseEvents demoClips (demoManager (992 / 10)) (1 / 60) demoCore).play_end_done = true
      ∧ (ParseEvents demoClips (demoManager (992 / 10)) (1 / 60) demoCore).should_play = false :=
  ⟨by decide,
    (C1_end_edge demoClips (demoManager (992 / 10)) (1 / 60) demoCore
      { start_time := 0, end_time := 100 } (by decide)).1
      ⟨by norm_num [demoManager], rfl, rfl, rfl, by norm_num⟩⟩

/-- C2: on a tick that finds the active clip, the start edge fires exactly when
`|runtime - clipStart| <= 0.01`, the instance is not looping, the start edge
is not yet consumed and `should_play` holds. When it fires, `play_start_done`
and `should_process_animation_start` become true; otherwise both flags keep
their values. -/
theorem C2_start_edge (global_animations : List (String × CreatureAnimation))
    (creature_manager : CreatureManager) (deltaTime : ℚ) (s : Core) (clip : CreatureAnimation)
    (hfound : global_animations.lookup
      (GetAnimationToken s.absolute_creature_filename creature_manager.active_animation_name)
        = some clip) :
    ((|creature_manager.actual_run_time - (clip.start_time : ℚ)| ≤ 1 / 100
        ∧ s.is_looping = false ∧ s.play_start_done = false ∧ s.should_play = true) →
      (ParseEvents global_animations creature_manager deltaTime s).play_start_done = true
        ∧ (ParseEvents global_animations creature_manager deltaTime s).should_process_animation_start = true)
    ∧ (¬ (|creature_manager.actual_run_time - (clip.start_time : ℚ)| ≤ 1 / 100
        ∧ s.is_looping = false ∧ s.play_start_done = false ∧ s.should_play = true) →
      (ParseEvents global_animations creature_manager deltaTime s).play_start_done
          = s.play_start_done
        ∧ (ParseEvents global_animations creature_manager deltaTime s).should_process_animation_start = s.should_process_animation_start) := by
  rw [ParseEvents_eq_of_found global_animations creature_manager deltaTime s clip hfound]
  constructor
  · intro h
    simp only [ParseEvents.edges]
    split_ifs <;> simp_all
  · intro h
    simp only [ParseEvents.edges]
    split_ifs <;> simp_all

/-- C2, at a concrete tick: clip 0..100 found, run time 0.005, fresh
non-looping instance: the start edge fires. -/
theorem C2_start_edge_witness :
    demoClips.lookup
        (GetAnimationToken demoCore.absolute_creature_filename
          (demoManager (5 / 1000)).active_animation_name)
        = some { start_time := 0, end_time := 100 }
      ∧ (ParseEvents demoClips (demoManager (5 / 1000)) (1 / 60) demoCore).play_start_done = true
      ∧ (ParseEvents demoClips (demoManager (5 / 1000)) (1 / 60) demoCore).should_process_animation_start = true :=
  ⟨by decide,
    (C2_start_edge demoClips (demoManager (5 / 1000)) (1 / 60) demoCore
      { start_time := 0, end_time := 100 } (by decide)).1
      ⟨by norm_num [demoManager, abs_le], rfl, rfl, rfl⟩⟩

/-- C3 as stated fails: `pendingCore` is non-looping, has `should_play` set and
both edges unconsumed, yet over `pendingRun` (read, tick at 0.005, read)
`GetAndClearShouldAnimStart` returns `true` twice, because a "started" signal
raised before the run began was still waiting to be read. -/
theorem C3_counterexample :
    pendingCore.is_looping = false ∧ pendingCore.should_play = true
      ∧ pendingCore.play_start_done = false ∧ pendingCore.play_end_done = false
      ∧ startReads (runTrace pendingRun pendingCore) = 2
      ∧ ¬ startReads (runTrace pendingRun pendingCore) ≤ 1 := by
  have h : startReads (runTrace pendingRun pendingCore) = 2 := by decide!
  exact ⟨by decide!, by decide!, by decide!, by decide!, h, by omega⟩

/-- C3, amended: for every run of ticks and consumer reads that starts
non-looping with `should_play` true, both edges unconsumed and no signal
waiting to be read, `GetAndClearShouldAnimStart` returns `true` at most once,
`GetAndClearShouldAnimEnd` returns `true` at most once, and from the event at
which `play_end_done` went from false to true (the tick that raised "ended")
onwards every state of the run has `should_play` false. -/
theorem C3_signals_at_most_once (run : List RunEvent) (s : Core)
    (_hloop : s.is_looping = false) (_hplay : s.should_play = true)
    (hstart : s.play_start_done = false) (hend : s.play_end_done = false)
    (hs : s.should_process_animation_start = false)
    (he : s.should_process_animation_end = false) :
    startReads (runTrace run s) ≤ 1
      ∧ endReads (runTrace run s) ≤ 1
      ∧ ∀ (pre : List RunEvent) (e : RunEvent) (post : List RunEvent),
          run = pre ++ e :: post →
          (runFinal pre s).play_end_done = false →
          (e.apply (runFinal pre s)).1.play_end_done = true →
          ∀ x ∈ (runTrace run s).drop pre.length, x.1.should_play = false := by
  refine ⟨?_, ?_, ?_⟩
  · have h := startReads_le run s
    rw [hstart, hs] at h
    simpa using h
  · have h := endReads_le run s
    rw [hend, he] at h
    simpa using h
  · intro pre e post hrun h0 h1 x hx
    subst hrun
    rw [runTrace_append, List.drop_left' (runTrace_length pre s)] at hx
    simp only [runTrace, List.mem_cons] at hx
    rcases hx with rfl | hx
    · exact apply_end_raised e _ h0 h1
    · exact runTrace_should_play_false post _ (apply_end_raised e _ h0 h1) x hx

/-- C3, on the run of the example (clip 0..100, ticks at 0.005, 0.006, 99.2 and
99.5, reads after every tick): each signal is read as `true` exactly once and
the run ends with `should_play` false. -/
theorem C3_signals_at_most_once_witness :
    startReads (runTrace demoRun demoCore) = 1
      ∧ endReads (runTrace demoRun demoCore) = 1
      ∧ (runFinal demoRun demoCore).should_play = false
      ∧ startReads (runTrace demoRun demoCore) ≤ 1
      ∧ endReads (runTrace demoRun demoCore) ≤ 1 := by
  have h := C3_signals_at_most_once demoRun demoCore rfl rfl rfl rfl rfl rfl
  exact ⟨by decide!, by decide!, by decide!, h.1, h.2.1⟩

/-- C4 as stated fails: on an instance whose edges are both consumed,
`SetBluePrintAnimationPlay(false)` does not leave the edge flags unchanged. -/
theorem C4_counterexample :
    ¬ ((SetBluePrintAnimationPlay false consumedCore).play_start_done
          = consumedCore.play_start_done
        ∧ (SetBluePrintAnimationPlay false consumedCore).play_end_done
          = consumedCore.play_end_done) := by
  simp [SetBluePrintAnimationPlay, consumedCore]

/-- C4, amended: for either argument, `SetBluePrintAnimationPlay(flag)` sets
`should_play` to the argument and sets both edge flags to false. -/
theorem C4_play_resets_edges (flag_in : Bool) (s : Core) :
    (SetBluePrintAnimationPlay flag_in s).should_play = flag_in
      ∧ (SetBluePrintAnimationPlay flag_in s).play_start_done = false
      ∧ (SetBluePrintAnimationPlay flag_in s).play_end_done = false :=
  ⟨rfl, rfl, rfl⟩

/-! ## Buffers: lemmas -/

theorem foldl_set_length {α : Type} (f : Nat → Nat) (v : α) (ks : List Nat) (l : List α) :
    (ks.foldl (fun l k => l.set (f k) v) l).length = l.length := by
  induction ks generalizing l with
  | nil => rfl
  | cons k ks ih => simp [List.foldl_cons, ih]

theorem foldl_set_getElem? {α : Type} (f : Nat → Nat) (v : α) (ks : List Nat) (l : List α)
    (i : Nat) :
    (ks.foldl (fun l k => l.set (f k) v) l)[i]?
      = if (∃ k ∈ ks, f k = i) ∧ i < l.length then some v else l[i]? := by
  induction ks generalizing l with
  | nil => simp
  | cons k ks ih =>
    rw [List.foldl_cons, ih, List.length_set, List.getElem?_set]
    by_cases hk : f k = i
    · by_cases hi : i < l.length
      · have h1 : (∃ k_1 ∈ k :: ks, f k_1 = i) := ⟨k, List.mem_cons_self _ _, hk⟩
        simp only [hk, hi, h1, and_true, if_true]
        split_ifs <;> rfl
      · simp only [hi, and_false, if_false, hk, if_true]
        exact (List.getElem?_eq_none (by omega)).symm
    · have h1 : (∃ k_1 ∈ k :: ks, f k_1 = i) ↔ (∃ k_1 ∈ ks, f k_1 = i) := by
        constructor
        · rintro ⟨k1, hm, hf⟩
          rcases List.mem_cons.1 hm with rfl | hm
          · exact absurd hf hk
          · exact ⟨k1, hm, hf⟩
        · rintro ⟨k1, hm, hf⟩
          exact ⟨k1, List.mem_cons_of_mem _ hm, hf⟩
      simp only [h1, hk, if_false]

theorem fillColors_length (cs : List FColor) (a b : Nat) (c : FColor) :
    (fillColors cs a b c).length = cs.length :=
  foldl_set_length _ _ _ _

theorem fillColors_getElem? (cs : List FColor) (a b : Nat) (c : FColor) (i : Nat) :
    (fillColors cs a b c)[i]? = if (a ≤ i ∧ i ≤ b) ∧ i < cs.length then some c else cs[i]? := by
  unfold fillColors
  rw [foldl_set_getElem?]
  have h : (∃ k ∈ List.range (b + 1 - a), a + k = i) ↔ (a ≤ i ∧ i ≤ b) := by
    constructor
    · rintro ⟨k, hk, rfl⟩
      have := List.mem_range.1 hk
      omega
    · rintro ⟨h1, h2⟩
      exact ⟨i - a, List.mem_range.2 (by omega), by omega⟩
  simp only [h]

theorem setRegionZ_length (pts : List ℚ) (r : meshRenderRegion) (z : ℚ) :
    (setRegionZ pts r z).length = pts.length :=
  foldl_set_length _ _ _ _

theorem setRegionZ_getElem? (pts : List ℚ) (r : meshRenderRegion) (z : ℚ) (j : Nat) :
    (setRegionZ pts r z)[j]?
      = if (j % 3 = 2 ∧ r.start_pt_index ≤ j / 3 ∧ j / 3 ≤ r.end_pt_index) ∧ j < pts.length
        then some z else pts[j]? := by
  unfold setRegionZ
  rw [foldl_set_getElem?]
  have h : (∃ k ∈ List.range r.getNumPts, r.start_pt_index * 3 + k * 3 + 2 = j)
      ↔ (j % 3 = 2 ∧ r.start_pt_index ≤ j / 3 ∧ j / 3 ≤ r.end_pt_index) := by
    unfold meshRenderRegion.getNumPts
    constructor
    · rintro ⟨k, hk, rfl⟩
      have := List.mem_range.1 hk
      omega
    · rintro ⟨h1, h2, h3⟩
      exact ⟨j / 3 - r.start_pt_index, List.mem_range.2 (by omega), by omega⟩
  simp only [h]

theorem Memcpy_length (dst : List Nat) (off : Nat) (src : List Nat) (so n : Nat) :
    (Memcpy dst off src so n).length = dst.length := by
  induction n with
  | zero => rfl
  | succ n ih => simp [Memcpy, ih]

theorem Memcpy_getElem? (dst : List Nat) (off : Nat) (src : List Nat) (so n i : Nat) :
    (Memcpy dst off src so n)[i]?
      = if (off ≤ i ∧ i < off + n) ∧ i < dst.length then some (src.getD (so + (i - off)) 0)
        else dst[i]? := by
  induction n with
  | zero =>
    have : ¬ (off ≤ i ∧ i < off + 0) := by omega
    rw [if_neg (fun h => this h.1)]
    rfl
  | succ n ih =>
    rw [Memcpy, List.getElem?_set, ih, Memcpy_length]
    by_cases h1 : off + n = i
    · subst h1
      by_cases h2 : off + n < dst.length
      · have h3 : (off ≤ off + n ∧ off + n < off + (n + 1)) := by omega
        have h4 : off + n - off = n := by omega
        simp [h2, h3, h4]
      · have h3 : dst[off + n]? = none := List.getElem?_eq_none (by omega)
        simp [h2, h3]
    · have h3 : (off ≤ i ∧ i < off + (n + 1)) ↔ (off ≤ i ∧ i < off + n) := by omega
      simp only [h1, if_false, h3]

theorem Memcpy_eq (dst : List Nat) (off : Nat) (src : List Nat) (so n : Nat)
    (hd : off + n ≤ dst.length) (hs : so + n ≤ src.length) :
    Memcpy dst off src so n = dst.take off ++ (src.drop so).take n ++ dst.drop (off + n) := by
  apply List.ext_getElem?
  intro i
  rw [Memcpy_getElem?]
  have hA : (dst.take off).length = off := by simp; omega
  have hB : ((src.drop so).take n).length = n := by simp; omega
  by_cases h1 : i < off
  · have : ¬ (off ≤ i ∧ i < off + n) := by omega
    rw [List.append_assoc, List.getElem?_append_left (by omega)]
    simp [this, List.getElem?_take, h1]
  · by_cases h2 : i < off + n
    · have h3 : (off ≤ i ∧ i < off + n) ∧ i < dst.length := ⟨⟨by omega, h2⟩, by omega⟩
      rw [List.getElem?_append_left (by simp; omega), List.getElem?_append_right (by omega)]
      have h4 : i - off < n := by omega
      have h5 : so + (i - off) < src.length := by omega
      rw [if_pos h3]
      simp only [hA, if_true, List.getElem?_take, h4, List.getElem?_drop,
        List.getD_eq_getElem?_getD, List.getElem?_eq_getElem h5, Option.getD_some]
    · have : ¬ (off ≤ i ∧ i < off + n) := by omega
      rw [List.getElem?_append_right (by simp; omega)]
      have h6 : off + n + (i - (dst.take off ++ (src.drop so).take n).length) = i := by
        simp; omega
      simp only [this, false_and, if_false, List.getElem?_drop, h6]

theorem GetIndicesCopy_clearFlags (n : Nat) (s : Core) :
    (GetIndicesCopy n (UpdateCreatureRender.clearFlags s)).1 = (GetIndicesCopy n s).1 := by
  unfold GetIndicesCopy UpdateCreatureRender.clearFlags
  cases h : s.global_indices_copy <;> simp [h]

theorem CustomOrderLoop.run_indices (regions_map : List (String × meshRenderRegion))
    (src : List Nat) (delta_z : ℚ) (order : List String) (st : CustomOrderLoop)
    (hrange : ∀ name ∈ order, ∀ r, regions_map.lookup name = some r →
      r.start_index ≤ r.end_index ∧ r.end_index < src.length)
    (hcap : st.indice_idx + customOrderCount regions_map order ≤ st.dst_indices.length) :
    (CustomOrderLoop.run regions_map src delta_z order st).dst_indices
        = st.dst_indices.take st.indice_idx ++ customOrderIndices regions_map src order
            ++ st.dst_indices.drop (st.indice_idx + customOrderCount regions_map order)
      ∧ (CustomOrderLoop.run regions_map src delta_z order st).indice_idx
        = st.indice_idx + customOrderCount regions_map order
      ∧ (customOrderIndices regions_map src order).length
        = customOrderCount regions_map order := by
  induction order generalizing st with
  | nil => simp [CustomOrderLoop.run, customOrderIndices, customOrderCount]
  | cons name order ih =>
    have hrange' : ∀ name ∈ order, ∀ r, regions_map.lookup name = some r →
        r.start_index ≤ r.end_index ∧ r.end_index < src.length :=
      fun n hn r hr => hrange n (List.mem_cons_of_mem _ hn) r hr
    cases hl : regions_map.lookup name with
    | none =>
      have hstep : CustomOrderLoop.step regions_map src delta_z st name = st := by
        simp [CustomOrderLoop.step, hl]
      have hc : customOrderCount regions_map (name :: order)
          = customOrderCount regions_map order := by
        simp [customOrderCount, hl]
      have hi : customOrderIndices regions_map src (name :: order)
          = customOrderIndices regions_map src order := by
        simp [customOrderIndices, hl]
      rw [hc] at hcap
      have := ih st hrange' hcap
      simp only [CustomOrderLoop.run, List.foldl_cons, hstep, hc, hi] at this ⊢
      exact this
    | some r =>
      obtain ⟨hr1, hr2⟩ := hrange name (List.mem_cons_self _ _) r hl
      have hc : customOrderCount regions_map (name :: order)
          = (r.end_index + 1 - r.start_index) + customOrderCount regions_map order := by
        simp [customOrderCount, hl]
      have hi : customOrderIndices regions_map src (name :: order)
          = (src.drop r.start_index).take (r.end_index + 1 - r.start_index)
              ++ customOrderIndices regions_map src order := by
        simp [customOrderIndices, hl]
      rw [hc] at hcap
      have hm := Memcpy_eq st.dst_indices st.indice_idx src r.start_index
        (r.end_index + 1 - r.start_index) (by omega) (by omega)
      have hseg : ((src.drop r.start_index).take (r.end_index + 1 - r.start_index)).length
          = r.end_index + 1 - r.start_index := by
        simp; omega
      have hstep : CustomOrderLoop.step regions_map src delta_z st name
          = { cur_pts := setRegionZ st.cur_pts r st.region_z
              region_z := st.region_z + delta_z
              dst_indices := Memcpy st.dst_indices st.indice_idx src r.start_index
                (r.end_index + 1 - r.start_index)
              indice_idx := st.indice_idx + (r.end_index + 1 - r.start_index) } := by
        simp [CustomOrderLoop.step, hl]
      have := ih (CustomOrderLoop.step regions_map src delta_z st name) hrange'
        (by rw [hstep]; simp only [Memcpy_length]; omega)
      obtain ⟨h1, h2, h3⟩ := this
      refine ⟨?_, ?_, ?_⟩
      · simp only [CustomOrderLoop.run, List.foldl_cons] at h1 ⊢
        rw [h1, hstep]
        simp only []
        rw [hm, hc, hi]
        have hlen : (st.dst_indices.take st.indice_idx).length = st.indice_idx := by
          simp; omega
        have e1 : List.take (st.indice_idx + (r.end_index + 1 - r.start_index))
            (st.dst_indices.take st.indice_idx
              ++ (src.drop r.start_index).take (r.end_index + 1 - r.start_index)
              ++ st.dst_indices.drop (st.indice_idx + (r.end_index + 1 - r.start_index)))
            = st.dst_indices.take st.indice_idx
              ++ (src.drop r.start_index).take (r.end_index + 1 - r.start_index) := by
          apply List.take_left'
          simp only [List.length_append, hlen, hseg]
        have e2 : List.drop (st.indice_idx + (r.end_index + 1 - r.start_index)
              + customOrderCount regions_map order)
            (st.dst_indices.take st.indice_idx
              ++ (src.drop r.start_index).take (r.end_index + 1 - r.start_index)
              ++ st.dst_indices.drop (st.indice_idx + (r.end_index + 1 - r.start_index)))
            = st.dst_indices.drop (st.indice_idx + ((r.end_index + 1 - r.start_index)
              + customOrderCount regions_map order)) := by
          rw [← List.drop_drop, List.drop_left' (by simp only [List.length_append, hlen, hseg]),
            List.drop_drop]
          congr 1
          omega
        rw [e1, e2]
        simp only [List.append_assoc]
      · simp only [CustomOrderLoop.run, List.foldl_cons] at h2 ⊢
        rw [h2, hstep, hc]
        simp only []
        omega
      · rw [hi, hc, List.length_append, hseg, h3]

/-! ## Region compositor: lemmas -/

theorem UpdateCreatureRender_of_custom (creature_manager : CreatureManager) (s : Core)
    (h : s.region_custom_order.length = creature_manager.creature.regions.length) :
    UpdateCreatureRender creature_manager s
      = (ProcessRenderRegions
          (UpdateCreatureRender.customOrder creature_manager
            (UpdateCreatureRender.clearFlags s)).2.creature
          (UpdateCreatureRender.customOrder creature_manager
            (UpdateCreatureRender.clearFlags s)).1,
         (UpdateCreatureRender.customOrder creature_manager
            (UpdateCreatureRender.clearFlags s)).2) := by
  have h' : (UpdateCreatureRender.clearFlags s).region_custom_order.length
      = creature_manager.creature.regions.length := h
  simp only [UpdateCreatureRender, h', ne_eq, not_true_eq_false, if_false]

theorem UpdateCreatureRender_of_default (creature_manager : CreatureManager) (s : Core)
    (h : s.region_custom_order.length ≠ creature_manager.creature.regions.length) :
    UpdateCreatureRender creature_manager s
      = (ProcessRenderRegions
          (UpdateCreatureRender.defaultOrder creature_manager
            (UpdateCreatureRender.clearFlags s)).2.creature
          (UpdateCreatureRender.defaultOrder creature_manager
            (UpdateCreatureRender.clearFlags s)).1,
         (UpdateCreatureRender.defaultOrder creature_manager
            (UpdateCreatureRender.clearFlags s)).2) := by
  have h' : (UpdateCreatureRender.clearFlags s).region_custom_order.length
      ≠ creature_manager.creature.regions.length := h
  simp only [UpdateCreatureRender, h', ne_eq, not_false_eq_true, if_true]

theorem UpdateCreatureRender_custom_flag (creature_manager : CreatureManager) (s : Core)
    (h : s.region_custom_order.length = creature_manager.creature.regions.length) :
    (UpdateCreatureRender creature_manager s).1.should_update_render_indices = true := by
  rw [UpdateCreatureRender_of_custom creature_manager s h]
  rfl

theorem UpdateCreatureRender_default_plain (creature_manager : CreatureManager) (s : Core)
    (h : s.region_custom_order.length ≠ creature_manager.creature.regions.length)
    (hmeta : s.meta_data = none) :
    (UpdateCreatureRender creature_manager s).1.should_update_render_indices = false
      ∧ (UpdateCreatureRender creature_manager s).1.global_indices_copy
          = s.global_indices_copy := by
  rw [UpdateCreatureRender_of_default creature_manager s h]
  have hm : (UpdateCreatureRender.clearFlags s).meta_data = none := hmeta
  simp only [UpdateCreatureRender.defaultOrder, hm, ProcessRenderRegions]
  exact ⟨rfl, rfl⟩

/-! ## Region compositor: the claims -/

/-- C5 as stated fails in both directions. With the custom order `b, a` on a
creature of two regions (list non-empty, length equal to the region count) the
claim prescribes the default branch, yet the index copy is not what the
default branch leaves but the custom-order rebuild `13 14 15 10 11 12`. With
the custom order `b` (non-empty, length 1 differs from 2) the claim prescribes
the custom-order rebuild, yet the index copy is not the custom branch's but
stays unallocated as in the default branch. -/
theorem C5_counterexample :
    ¬ ((customOrderCore.region_custom_order = []
          ∨ customOrderCore.region_custom_order.length
              = (demoManager 0).creature.regions.length) →
        (UpdateCreatureRender (demoManager 0) customOrderCore).1.global_indices_copy
          = (UpdateCreatureRender.defaultOrder (demoManager 0)
              (UpdateCreatureRender.clearFlags customOrderCore)).1.global_indices_copy)
    ∧ (UpdateCreatureRender (demoManager 0) customOrderCore).1.global_indices_copy
        = some [13, 14, 15, 10, 11, 12]
    ∧ ¬ ((shortOrderCore.region_custom_order ≠ []
          ∧ shortOrderCore.region_custom_order.length
              ≠ (demoManager 0).creature.regions.length) →
        (UpdateCreatureRender (demoManager 0) shortOrderCore).1.global_indices_copy
          = (UpdateCreatureRender.customOrder (demoManager 0)
              (UpdateCreatureRender.clearFlags shortOrderCore)).1.global_indices_copy)
    ∧ (UpdateCreatureRender (demoManager 0) shortOrderCore).1.global_indices_copy = none := by
  refine ⟨by decide!, by decide!, by decide!, by decide!⟩

/-- C5, amended: `UpdateCreatureRender` takes the custom-order branch exactly
when the custom-order list has as many names as the topology has regions
(an empty list on a topology without regions included), and the
default-order branch whenever the two counts differ; either branch is
followed by `ProcessRenderRegions`. In the custom-order branch the render
indices are flagged for update; in the default-order branch without meta data
they are not, and the index copy is left as it was. -/
theorem C5_branch_selection (creature_manager : CreatureManager) (s : Core) :
    (s.region_custom_order.length = creature_manager.creature.regions.length →
      UpdateCreatureRender creature_manager s
        = (ProcessRenderRegions
            (UpdateCreatureRender.customOrder creature_manager
              (UpdateCreatureRender.clearFlags s)).2.creature
            (UpdateCreatureRender.customOrder creature_manager
              (UpdateCreatureRender.clearFlags s)).1,
           (UpdateCreatureRender.customOrder creature_manager
              (UpdateCreatureRender.clearFlags s)).2)
        ∧ (UpdateCreatureRender creature_manager s).1.should_update_render_indices = true)
    ∧ (s.region_custom_order.length ≠ creature_manager.creature.regions.length →
      UpdateCreatureRender creature_manager s
        = (ProcessRenderRegions
            (UpdateCreatureRender.defaultOrder creature_manager
              (UpdateCreatureRender.clearFlags s)).2.creature
            (UpdateCreatureRender.defaultOrder creature_manager
              (UpdateCreatureRender.clearFlags s)).1,
           (UpdateCreatureRender.defaultOrder creature_manager
              (UpdateCreatureRender.clearFlags s)).2)
        ∧ (s.meta_data = none →
            (UpdateCreatureRender creature_manager s).1.should_update_render_indices = false
              ∧ (UpdateCreatureRender creature_manager s).1.global_indices_copy
                  = s.global_indices_copy)) := by
  constructor
  · intro h
    exact ⟨UpdateCreatureRender_of_custom creature_manager s h,
      UpdateCreatureRender_custom_flag creature_manager s h⟩
  · intro h
    exact ⟨UpdateCreatureRender_of_default creature_manager s h,
      UpdateCreatureRender_default_plain creature_manager s h⟩
theorem UpdateCreatureRender_customOrder_copy (creature_manager : CreatureManager) (s : Core)
    (hbranch : s.region_custom_order.length = creature_manager.creature.regions.length) :
    (UpdateCreatureRender creature_manager s).1.global_indices_copy
      = some (CustomOrderLoop.run creature_manager.creature.regions_map
          creature_manager.creature.global_indices s.region_overlap_z_delta
          s.region_custom_order
          { cur_pts := creature_manager.creature.render_pts, region_z := 0,
            dst_indices := (GetIndicesCopy creature_manager.creature.total_num_indices s).1,
            indice_idx := 0 }).dst_indices := by
  rw [UpdateCreatureRender_of_custom creature_manager s hbranch]
  simp only [ProcessRenderRegions, UpdateCreatureRender.customOrder, GetIndicesCopy_clearFlags]
  rfl

/-- C6: when `UpdateCreatureRender` takes the custom-order branch, every listed
region's index range lying inside the source buffer and the destination
having room for the total, the first `k` entries of the index copy are the
concatenation, in custom-order sequence, of `source[startIndex..endIndex]` for
each listed name that is a key of the regions map, `k` being the sum of those
ranges' lengths; the entries from position `k` on are those the buffer held
before, and the buffer keeps its length. -/
theorem C6_custom_order_indices (creature_manager : CreatureManager) (s : Core)
    (hbranch : s.region_custom_order.length = creature_manager.creature.regions.length)
    (hrange : ∀ name ∈ s.region_custom_order, ∀ r,
      creature_manager.creature.regions_map.lookup name = some r →
        r.start_index ≤ r.end_index
          ∧ r.end_index < creature_manager.creature.global_indices.length)
    (hcap : customOrderCount creature_manager.creature.regions_map s.region_custom_order
      ≤ (GetIndicesCopy creature_manager.creature.total_num_indices s).1.length) :
    ∃ dst : List Nat,
      (UpdateCreatureRender creature_manager s).1.global_indices_copy = some dst
        ∧ dst.take (customOrderCount creature_manager.creature.regions_map s.region_custom_order)
            = customOrderIndices creature_manager.creature.regions_map
                creature_manager.creature.global_indices s.region_custom_order
        ∧ (customOrderIndices creature_manager.creature.regions_map
              creature_manager.creature.global_indices s.region_custom_order).length
            = customOrderCount creature_manager.creature.regions_map s.region_custom_order
        ∧ dst.drop (customOrderCount creature_manager.creature.regions_map s.region_custom_order)
            = (GetIndicesCopy creature_manager.creature.total_num_indices s).1.drop
                (customOrderCount creature_manager.creature.regions_map s.region_custom_order)
        ∧ dst.length = (GetIndicesCopy creature_manager.creature.total_num_indices s).1.length := by
  obtain ⟨h1, _, h3⟩ := CustomOrderLoop.run_indices creature_manager.creature.regions_map
    creature_manager.creature.global_indices s.region_overlap_z_delta s.region_custom_order
    { cur_pts := creature_manager.creature.render_pts, region_z := 0,
      dst_indices := (GetIndicesCopy creature_manager.creature.total_num_indices s).1,
      indice_idx := 0 }
    hrange (by simpa using hcap)
  refine ⟨_, UpdateCreatureRender_customOrder_copy creature_manager s hbranch, ?_, h3, ?_, ?_⟩
  · rw [h1]
    simp only [List.take_zero, List.nil_append, Nat.zero_add]
    exact List.take_left' h3
  · rw [h1]
    simp only [List.take_zero, List.nil_append, Nat.zero_add]
    rw [List.drop_left' h3]
  · rw [h1]
    simp only [List.take_zero, List.nil_append, Nat.zero_add, List.length_append, h3,
      List.length_drop]
    omega

/-- C6 on the demo creature with the custom order `b, a`: the index copy is
`source[3..5]` followed by `source[0..2]`. -/
theorem C6_custom_order_indices_witness :
    ∃ dst : List Nat,
      (UpdateCreatureRender (demoManager 0) customOrderCore).1.global_indices_copy = some dst
        ∧ dst.take 6 = [13, 14, 15, 10, 11, 12] := by
  obtain ⟨dst, h1, h2, _, _, _⟩ := C6_custom_order_indices (demoManager 0) customOrderCore
    (by decide) (by decide) (by decide)
  exact ⟨dst, h1, h2⟩

theorem lookup_mem {β : Type} (l : List (String × β)) (k : String) (v : β)
    (h : l.lookup k = some v) : (k, v) ∈ l := by
  induction l with
  | nil => simp at h
  | cons e l ih =>
    obtain ⟨k1, v1⟩ := e
    rw [List.lookup_cons] at h
    by_cases hk : k = k1
    · subst hk
      simp at h
      subst h
      exact List.mem_cons_self _ _
    · have : (k == k1) = false := by simpa using hk
      rw [this] at h
      exact List.mem_cons_of_mem _ (ih h)

theorem lookup_filter_ne {β : Type} (l : List (String × β)) (name k : String) (hk : k ≠ name) :
    (l.filter fun e => e.1 != name).lookup k = l.lookup k := by
  induction l with
  | nil => rfl
  | cons e l ih =>
    obtain ⟨k1, v1⟩ := e
    by_cases h1 : k1 = name
    · subst h1
      have hb : (k == k1) = false := by simpa using hk
      simp [List.filter_cons, List.lookup_cons, hb, ih]
    · have hb : (k1 != name) = true := by simpa using h1
      simp only [List.filter_cons, hb, if_true, List.lookup_cons, ih]

theorem CustomOrderLoop.run_pts_frame (regions_map : List (String × meshRenderRegion))
    (src : List Nat) (delta_z : ℚ) (order : List String) (st : CustomOrderLoop) (j : Nat)
    (h : ∀ name ∈ order, ∀ r, regions_map.lookup name = some r →
      ¬ (j % 3 = 2 ∧ r.start_pt_index ≤ j / 3 ∧ j / 3 ≤ r.end_pt_index)) :
    (CustomOrderLoop.run regions_map src delta_z order st).cur_pts[j]? = st.cur_pts[j]? := by
  induction order generalizing st with
  | nil => rfl
  | cons name order ih =>
    simp only [CustomOrderLoop.run, List.foldl_cons]
    have h' := ih (CustomOrderLoop.step regions_map src delta_z st name)
      (fun n hn r hr => h n (List.mem_cons_of_mem _ hn) r hr)
    simp only [CustomOrderLoop.run] at h'
    rw [h']
    cases hl : regions_map.lookup name with
    | none => simp [CustomOrderLoop.step, hl]
    | some r =>
      have hj := h name (List.mem_cons_self _ _) r hl
      simp only [CustomOrderLoop.step, hl, setRegionZ_getElem?]
      rw [if_neg (fun hc => hj hc.1)]

theorem CustomOrderLoop.run_congr (m1 m2 : List (String × meshRenderRegion))
    (src : List Nat) (delta_z : ℚ) (order : List String) (st : CustomOrderLoop)
    (h : ∀ name ∈ order, m1.lookup name = m2.lookup name) :
    CustomOrderLoop.run m1 src delta_z order st = CustomOrderLoop.run m2 src delta_z order st := by
  induction order generalizing st with
  | nil => rfl
  | cons name order ih =>
    simp only [CustomOrderLoop.run, List.foldl_cons]
    have hs : CustomOrderLoop.step m1 src delta_z st name
        = CustomOrderLoop.step m2 src delta_z st name := by
      simp only [CustomOrderLoop.step, h name (List.mem_cons_self _ _)]
    rw [hs]
    exact ih _ (fun n hn => h n (List.mem_cons_of_mem _ hn))

theorem UpdateCreatureRender_customOrder_pts (creature_manager : CreatureManager) (s : Core)
    (hbranch : s.region_custom_order.length = creature_manager.creature.regions.length) :
    (UpdateCreatureRender creature_manager s).2.creature.render_pts
      = (CustomOrderLoop.run creature_manager.creature.regions_map
          creature_manager.creature.global_indices s.region_overlap_z_delta
          s.region_custom_order
          { cur_pts := creature_manager.creature.render_pts, region_z := 0,
            dst_indices := (GetIndicesCopy creature_manager.creature.total_num_indices s).1,
            indice_idx := 0 }).cur_pts := by
  rw [UpdateCreatureRender_of_custom creature_manager s hbranch]
  simp only [UpdateCreatureRender.customOrder, GetIndicesCopy_clearFlags]
  rfl

/-- C7: when `UpdateCreatureRender` takes the custom-order branch, a region of
the regions map whose name does not occur in the custom order, and whose point
range is disjoint from the other regions' point ranges, keeps the z coordinate
of every point of its range, and contributes no index: the index copy is the
one the call produces with that region taken out of the map. -/
theorem C7_unlisted_region_untouched (creature_manager : CreatureManager) (s : Core)
    (name : String) (r : meshRenderRegion)
    (hbranch : s.region_custom_order.length = creature_manager.creature.regions.length)
    (_hmem : (name, r) ∈ creature_manager.creature.regions_map)
    (hnot : name ∉ s.region_custom_order)
    (hdisj : ∀ name2 r2, (name2, r2) ∈ creature_manager.creature.regions_map → name2 ≠ name →
      ∀ p, ¬ ((r.start_pt_index ≤ p ∧ p ≤ r.end_pt_index)
        ∧ (r2.start_pt_index ≤ p ∧ p ≤ r2.end_pt_index))) :
    (∀ p, r.start_pt_index ≤ p → p ≤ r.end_pt_index →
        (UpdateCreatureRender creature_manager s).2.creature.render_pts[p * 3 + 2]?
          = creature_manager.creature.render_pts[p * 3 + 2]?)
      ∧ (UpdateCreatureRender creature_manager s).1.global_indices_copy
          = (UpdateCreatureRender (withoutRegion name creature_manager) s).1.global_indices_copy := by
  constructor
  · intro p hp1 hp2
    rw [UpdateCreatureRender_customOrder_pts creature_manager s hbranch,
      CustomOrderLoop.run_pts_frame]
    intro name2 hn2 r2 hl hc
    have hne : name2 ≠ name := fun e => hnot (e ▸ hn2)
    have hdiv : (p * 3 + 2) / 3 = p := by omega
    rw [hdiv] at hc
    exact hdisj name2 r2 (lookup_mem _ _ _ hl) hne p ⟨⟨hp1, hp2⟩, hc.2⟩
  · rw [UpdateCreatureRender_customOrder_copy creature_manager s hbranch,
      UpdateCreatureRender_customOrder_copy (withoutRegion name creature_manager) s hbranch]
    congr 2
    apply CustomOrderLoop.run_congr
    intro name2 hn2
    have hne : name2 ≠ name := fun e => hnot (e ▸ hn2)
    exact (lookup_filter_ne _ name name2 hne).symm

/-- C7 on the demo creature with the custom order `b, b`: region `a` (points 0
and 1) is not listed; its points keep z = 1 and 2, and the index copy is
`source[3..5]` twice, with or without `a` in the map. -/
theorem C7_unlisted_region_untouched_witness :
    (UpdateCreatureRender (demoManager 0) duplicateOrderCore).2.creature.render_pts[0 * 3 + 2]?
        = some 1
      ∧ (UpdateCreatureRender (demoManager 0) duplicateOrderCore).2.creature.render_pts[1 * 3 + 2]?
        = some 2
      ∧ (UpdateCreatureRender (demoManager 0) duplicateOrderCore).1.global_indices_copy
        = (UpdateCreatureRender (withoutRegion "a" (demoManager 0))
            duplicateOrderCore).1.global_indices_copy := by
  have h := C7_unlisted_region_untouched (demoManager 0) duplicateOrderCore "a" demoRegionA
    (by decide) (by decide) (by decide)
    (by
      intro name2 r2 hm hne p hp
      simp only [demoManager, demoCreature, List.mem_cons, Prod.mk.injEq, List.mem_nil_iff,
        or_false] at hm
      rcases hm with ⟨h1, _⟩ | ⟨_, h2⟩
      · exact hne h1
      · subst h2
        simp only [demoRegionA, demoRegionB] at hp
        omega)
  exact ⟨h.1 0 (by decide) (by decide), h.1 1 (by decide) (by decide), h.2⟩

theorem depthLoop_append (pre post : List meshRenderRegion) (delta_z : ℚ) (pts : List ℚ)
    (z : ℚ) :
    depthLoop (pre ++ post) delta_z pts z
      = depthLoop post delta_z (depthLoop pre delta_z pts z).1 (depthLoop pre delta_z pts z).2 := by
  simp only [depthLoop, List.foldl_append]

theorem depthLoop_cons (r : meshRenderRegion) (post : List meshRenderRegion) (delta_z : ℚ)
    (pts : List ℚ) (z : ℚ) :
    depthLoop (r :: post) delta_z pts z
      = depthLoop post delta_z (setRegionZ pts r z) (z + delta_z) := by
  simp only [depthLoop, List.foldl_cons]

theorem depthLoop_region_z (regions : List meshRenderRegion) (delta_z : ℚ) (pts : List ℚ)
    (z : ℚ) : (depthLoop regions delta_z pts z).2 = z + regions.length * delta_z := by
  induction regions generalizing pts z with
  | nil => simp [depthLoop]
  | cons r rs ih =>
    rw [depthLoop_cons, ih]
    simp only [List.length_cons]
    push_cast
    ring

theorem depthLoop_length (regions : List meshRenderRegion) (delta_z : ℚ) (pts : List ℚ)
    (z : ℚ) : (depthLoop regions delta_z pts z).1.length = pts.length := by
  induction regions generalizing pts z with
  | nil => simp [depthLoop]
  | cons r rs ih => rw [depthLoop_cons, ih, setRegionZ_length]

theorem depthLoop_frame (regions : List meshRenderRegion) (delta_z : ℚ) (pts : List ℚ)
    (z : ℚ) (j : Nat)
    (h : ∀ r ∈ regions, ¬ (j % 3 = 2 ∧ r.start_pt_index ≤ j / 3 ∧ j / 3 ≤ r.end_pt_index)) :
    (depthLoop regions delta_z pts z).1[j]? = pts[j]? := by
  induction regions generalizing pts z with
  | nil => simp [depthLoop]
  | cons r rs ih =>
    rw [depthLoop_cons, ih _ _ (fun r2 h2 => h r2 (List.mem_cons_of_mem _ h2)),
      setRegionZ_getElem?, if_neg (fun hc => h r (List.mem_cons_self _ _) hc.1)]

theorem depthLoop_visit (pre : List meshRenderRegion) (r : meshRenderRegion) (delta_z : ℚ)
    (pts : List ℚ) (p : Nat) (h1 : r.start_pt_index ≤ p) (h2 : p ≤ r.end_pt_index)
    (h3 : p * 3 + 2 < pts.length) :
    (depthLoop (pre ++ [r]) delta_z pts 0).1[p * 3 + 2]? = some (pre.length * delta_z) := by
  rw [depthLoop_append, depthLoop_cons]
  simp only [depthLoop, List.foldl_nil]
  have hdiv : (p * 3 + 2) / 3 = p := by omega
  have hmod : (p * 3 + 2) % 3 = 2 := by omega
  have hlen := depthLoop_length pre delta_z pts 0
  simp only [depthLoop] at hlen
  rw [setRegionZ_getElem?, if_pos ⟨⟨hmod, by omega, by omega⟩, by omega⟩]
  have := depthLoop_region_z pre delta_z pts 0
  simp only [depthLoop] at this
  rw [this, zero_add]

theorem UpdateCreatureRender_default_pts (creature_manager : CreatureManager) (s : Core)
    (hbranch : s.region_custom_order.length ≠ creature_manager.creature.regions.length)
    (hmeta : s.meta_data = none) :
    (UpdateCreatureRender creature_manager s).2.creature.render_pts
      = (depthLoop creature_manager.creature.regions s.region_overlap_z_delta
          creature_manager.creature.render_pts 0).1 := by
  rw [UpdateCreatureRender_of_default creature_manager s hbranch]
  have hm : (UpdateCreatureRender.clearFlags s).meta_data = none := hmeta
  simp only [UpdateCreatureRender.defaultOrder, hm]
  rfl

/-- C8: in the depth loop of the default-order branch, started at `region_z = 0`
with step `delta_z`, the region at position `i` of the natural order is
visited with `region_z = i * delta_z`, the next one with `delta_z` more; once
it is visited every point of its range has `z = i * delta_z`, and keeps it to
the end of the loop unless a later region's range contains the point; the
entries that are not z coordinates (x and y) are never changed. Without meta
data the points `UpdateCreatureRender` leaves are those of this loop with
`delta_z = region_overlap_z_delta`. -/
theorem C8_default_depth (regions pre post : List meshRenderRegion) (r : meshRenderRegion)
    (delta_z : ℚ) (cur_pts : List ℚ) (hsplit : regions = pre ++ r :: post) :
    (depthLoop pre delta_z cur_pts 0).2 = pre.length * delta_z
      ∧ (depthLoop (pre ++ [r]) delta_z cur_pts 0).2
          = (depthLoop pre delta_z cur_pts 0).2 + delta_z
      ∧ (∀ p, r.start_pt_index ≤ p → p ≤ r.end_pt_index → p * 3 + 2 < cur_pts.length →
          (depthLoop (pre ++ [r]) delta_z cur_pts 0).1[p * 3 + 2]? = some (pre.length * delta_z))
      ∧ (∀ p, r.start_pt_index ≤ p → p ≤ r.end_pt_index → p * 3 + 2 < cur_pts.length →
          (∀ r2 ∈ post, ¬ (r2.start_pt_index ≤ p ∧ p ≤ r2.end_pt_index)) →
          (depthLoop regions delta_z cur_pts 0).1[p * 3 + 2]? = some (pre.length * delta_z))
      ∧ (∀ j, j % 3 ≠ 2 → (depthLoop regions delta_z cur_pts 0).1[j]? = cur_pts[j]?)
      ∧ (∀ (creature_manager : CreatureManager) (s : Core),
          s.region_custom_order.length ≠ creature_manager.creature.regions.length →
          s.meta_data = none →
          (UpdateCreatureRender creature_manager s).2.creature.render_pts
            = (depthLoop creature_manager.creature.regions s.region_overlap_z_delta
                creature_manager.creature.render_pts 0).1) := by
  refine ⟨?_, ?_, ?_, ?_, ?_, ?_⟩
  · rw [depthLoop_region_z, zero_add]
  · rw [depthLoop_region_z, depthLoop_region_z]
    simp only [List.length_append, List.length_singleton]
    push_cast
    ring
  · intro p h1 h2 h3
    exact depthLoop_visit pre r delta_z cur_pts p h1 h2 h3
  · intro p h1 h2 h3 hpost
    have hs : pre ++ r :: post = (pre ++ [r]) ++ post := by simp
    rw [hsplit, hs, depthLoop_append, depthLoop_frame, depthLoop_visit pre r delta_z cur_pts p h1 h2 h3]
    intro r2 hr2 hc
    have hdiv : (p * 3 + 2) / 3 = p := by omega
    rw [hdiv] at hc
    exact hpost r2 hr2 hc.2
  · intro j hj
    exact depthLoop_frame regions delta_z cur_pts 0 j (fun _ _ hc => hj hc.1)
  · intro creature_manager s hb hm
    exact UpdateCreatureRender_default_pts creature_manager s hb hm

/-- C8 on the demo creature in default order (custom order `b` for two
regions, no meta data, delta 1/100): the points of region `a` (position 0) get
z = 0, those of region `b` (position 1) get z = 1/100, x and y stay. -/
theorem C8_default_depth_witness :
    (UpdateCreatureRender (demoManager 0) shortOrderCore).2.creature.render_pts
      = [1, 1, 0, 2, 2, 0, 3, 3, 1 / 100, 4, 4, 1 / 100]
      ∧ (depthLoop [demoRegionA, demoRegionB] (1 / 100) [1, 1, 1, 2, 2, 2, 3, 3, 3, 4, 4, 4] 0).1[
          2 * 3 + 2]? = some (((1 : Nat) : ℚ) * (1 / 100)) := by
  have h := C8_default_depth [demoRegionA, demoRegionB] [demoRegionA] [] demoRegionB (1 / 100)
    [1, 1, 1, 2, 2, 2, 3, 3, 3, 4, 4, 4] rfl
  refine ⟨by decide!, ?_⟩
  exact h.2.2.2.1 2 (by decide) (by decide) (by decide) (by simp)

theorem shouldSkinSwap_alloc (n : Nat) (s : Core) :
    shouldSkinSwap (GetIndicesCopy n (UpdateCreatureRender.clearFlags s)).2 = shouldSkinSwap s := by
  unfold GetIndicesCopy UpdateCreatureRender.clearFlags shouldSkinSwap
  cases h : s.global_indices_copy <;> simp [h]

theorem UpdateCreatureRender_skin_swap (creature_manager : CreatureManager) (s : Core)
    (md : CreatureMetaData)
    (hbranch : s.region_custom_order.length ≠ creature_manager.creature.regions.length)
    (hmeta : s.meta_data = some md)
    (hswap : shouldSkinSwap s = true)
    (hno : md.hasRegionOrder creature_manager.active_animation_name
      (truncToInt creature_manager.actual_run_time) = false) :
    (UpdateCreatureRender creature_manager s).1.global_indices_copy
        = some (Memcpy (GetIndicesCopy creature_manager.creature.total_num_indices s).1 0
            s.skin_swap_indices 0 s.skin_swap_indices.length)
      ∧ (UpdateCreatureRender creature_manager s).1.region_order_indices_num = 0 := by
  rw [UpdateCreatureRender_of_default creature_manager s hbranch]
  have hm : (UpdateCreatureRender.clearFlags s).meta_data = some md := hmeta
  have hsk : (GetIndicesCopy creature_manager.creature.total_num_indices
      (UpdateCreatureRender.clearFlags s)).2.skin_swap_indices = s.skin_swap_indices := by
    unfold GetIndicesCopy UpdateCreatureRender.clearFlags
    cases h : s.global_indices_copy <;> simp [h]
  have hnum : (GetIndicesCopy creature_manager.creature.total_num_indices
      (UpdateCreatureRender.clearFlags s)).2.region_order_indices_num = 0 := by
    unfold GetIndicesCopy UpdateCreatureRender.clearFlags
    cases h : s.global_indices_copy <;> simp [h]
  simp only [UpdateCreatureRender.defaultOrder, hm, shouldSkinSwap_alloc, hswap, hno,
    GetIndicesCopy_clearFlags, hsk, ProcessRenderRegions, beq_self_eq_true, Bool.and_self,
    if_true, hnum, and_self]

/-- C9 as stated fails: `skinSwapCustomCore` has meta data, an active skin swap
with a non-empty permutation and a region-order track without keyframe, yet
its custom order has as many names as there are regions, so the custom-order
branch runs and the index copy is `13 14 15 10 11 12`, not the swap
permutation `15 14 13 12 11 10`. -/
theorem C9_counterexample :
    shouldSkinSwap skinSwapCustomCore = true
      ∧ demoMeta.hasRegionOrder (demoManager 0).active_animation_name
          (truncToInt (demoManager 0).actual_run_time) = false
      ∧ (UpdateCreatureRender (demoManager 0) skinSwapCustomCore).1.global_indices_copy
          = some [13, 14, 15, 10, 11, 12]
      ∧ ¬ ∃ dst : List Nat,
          (UpdateCreatureRender (demoManager 0) skinSwapCustomCore).1.global_indices_copy
              = some dst
            ∧ dst.take skinSwapCustomCore.skin_swap_indices.length
              = skinSwapCustomCore.skin_swap_indices := by
  have h : (UpdateCreatureRender (demoManager 0) skinSwapCustomCore).1.global_indices_copy
      = some [13, 14, 15, 10, 11, 12] := by decide!
  refine ⟨by decide!, by decide!, h, ?_⟩
  rintro ⟨dst, h1, h2⟩
  rw [h] at h1
  cases h1
  revert h2
  decide

/-- C9, amended: on a tick that takes the default-order branch (the custom
order's length differs from the region count), with meta data present, skin
swap active with a non-empty permutation that fits into the index copy, and no
region-order keyframe for the active animation at the current run time: the
first `skin_swap_indices.Num()` entries of the index copy equal
`skin_swap_indices`, the entries behind them are untouched,
`region_order_indices_num` stays 0, and the result does not depend on the
region-order track's index computation. -/
theorem C9_skin_swap_indices (creature_manager : CreatureManager) (s : Core)
    (md : CreatureMetaData)
    (hbranch : s.region_custom_order.length ≠ creature_manager.creature.regions.length)
    (hmeta : s.meta_data = some md)
    (hswap : shouldSkinSwap s = true)
    (hno : md.hasRegionOrder creature_manager.active_animation_name
      (truncToInt creature_manager.actual_run_time) = false)
    (hcap : s.skin_swap_indices.length
      ≤ (GetIndicesCopy creature_manager.creature.total_num_indices s).1.length) :
    (∃ dst : List Nat,
        (UpdateCreatureRender creature_manager s).1.global_indices_copy = some dst
          ∧ dst.take s.skin_swap_indices.length = s.skin_swap_indices
          ∧ dst.drop s.skin_swap_indices.length
              = (GetIndicesCopy creature_manager.creature.total_num_indices s).1.drop
                  s.skin_swap_indices.length)
      ∧ (UpdateCreatureRender creature_manager s).1.region_order_indices_num = 0
      ∧ ∀ f, (UpdateCreatureRender creature_manager
                { s with meta_data := some { md with updateIndicesAndPoints := f } }).1.global_indices_copy
              = (UpdateCreatureRender creature_manager s).1.global_indices_copy := by
  obtain ⟨h1, h2⟩ := UpdateCreatureRender_skin_swap creature_manager s md hbranch hmeta hswap hno
  have hm := Memcpy_eq (GetIndicesCopy creature_manager.creature.total_num_indices s).1 0
    s.skin_swap_indices 0 s.skin_swap_indices.length (by omega) (by omega)
  simp only [List.take_zero, List.nil_append, List.drop_zero, List.take_length,
    Nat.zero_add] at hm
  refine ⟨⟨_, h1, ?_, ?_⟩, h2, ?_⟩
  · rw [hm]
    exact List.take_left' rfl
  · rw [hm]
    exact List.drop_left' rfl
  · intro f
    have hswap' : shouldSkinSwap
        { s with meta_data := some { md with updateIndicesAndPoints := f } } = true := by
      unfold shouldSkinSwap at hswap ⊢
      rw [hmeta] at hswap
      exact hswap
    have h3 := (UpdateCreatureRender_skin_swap creature_manager
      { s with meta_data := some { md with updateIndicesAndPoints := f } }
      { md with updateIndicesAndPoints := f } hbranch rfl hswap' hno).1
    have hg : (GetIndicesCopy creature_manager.creature.total_num_indices
        { s with meta_data := some { md with updateIndicesAndPoints := f } }).1
        = (GetIndicesCopy creature_manager.creature.total_num_indices s).1 := by
      unfold GetIndicesCopy
      cases h : s.global_indices_copy <;> simp [h]
    rw [h3, h1, hg]

/-- C9 on the demo creature in default order with the swap permutation
`15 14 13 12 11 10`: the index copy is that permutation and
`region_order_indices_num` is 0. -/
theorem C9_skin_swap_indices_witness :
    (UpdateCreatureRender (demoManager 0) skinSwapCore).1.global_indices_copy
        = some [15, 14, 13, 12, 11, 10]
      ∧ (UpdateCreatureRender (demoManager 0) skinSwapCore).1.region_order_indices_num = 0 := by
  have h := C9_skin_swap_indices (demoManager 0) skinSwapCore demoMeta (by decide) rfl
    (by decide) rfl (by decide)
  exact ⟨by decide!, h.2.1⟩

/-! ## Colour compositor: lemmas -/

theorem toUInt8_of_range (x : ℚ) (h0 : 0 ≤ x) (h1 : x ≤ 255) :
    toUInt8 x = ⌊x⌋.toNat ∧ toUInt8 x ≤ 255 := by
  have hf0 : 0 ≤ ⌊x⌋ := Int.floor_nonneg.2 h0
  have hf1 : ⌊x⌋ ≤ 255 := by
    have h2 : ((⌊x⌋ : ℤ) : ℚ) ≤ 255 := le_trans (Int.floor_le x) h1
    exact_mod_cast h2
  have hm : ⌊x⌋ % 256 = ⌊x⌋ := Int.emod_eq_of_lt hf0 (by omega)
  have he : toUInt8 x = ⌊x⌋.toNat := by
    simp only [toUInt8, truncToInt, h0, if_true, hm]
  refine ⟨he, ?_⟩
  rw [he]
  omega

theorem Clamp_unit (x : ℚ) (h0 : 0 ≤ x) (h1 : x ≤ 1) : Clamp x 0 1 = x := by
  unfold Clamp
  rw [if_neg (not_lt.2 h0)]
  split_ifs with h
  · rfl
  · exact le_antisymm (not_lt.1 h) h1

theorem channel_range (t o : ℚ) (ht0 : 0 ≤ t) (ht1 : t ≤ 100) (ho0 : 0 ≤ o) (ho1 : o ≤ 1) :
    0 ≤ t / 100 * o * 255 ∧ t / 100 * o * 255 ≤ 255 := by
  have h1 : 0 ≤ t / 100 := by positivity
  have h2 : t / 100 ≤ 1 := by
    rw [div_le_one (by norm_num)]
    exact ht1
  have h3 : 0 ≤ t / 100 * o := mul_nonneg h1 ho0
  have h4 : t / 100 * o ≤ 1 := mul_le_one₀ h2 ho0 ho1
  constructor
  · positivity
  · linarith

theorem basePass_append (pre post : List (String × meshRenderRegion)) (cs : List FColor) :
    basePass (pre ++ post) cs = basePass post (basePass pre cs) := by
  simp only [basePass, List.foldl_append]

theorem basePass_cons (e : String × meshRenderRegion) (post : List (String × meshRenderRegion))
    (cs : List FColor) :
    basePass (e :: post) cs
      = basePass post (fillColors cs e.2.start_pt_index e.2.end_pt_index (regionColor e.2)) := by
  simp only [basePass, List.foldl_cons]

theorem basePass_length (regions_map : List (String × meshRenderRegion)) (cs : List FColor) :
    (basePass regions_map cs).length = cs.length := by
  induction regions_map generalizing cs with
  | nil => rfl
  | cons e es ih => rw [basePass_cons, ih, fillColors_length]

theorem basePass_frame (regions_map : List (String × meshRenderRegion)) (cs : List FColor)
    (i : Nat)
    (h : ∀ q ∈ regions_map, ¬ (q.2.start_pt_index ≤ i ∧ i ≤ q.2.end_pt_index)) :
    (basePass regions_map cs)[i]? = cs[i]? := by
  induction regions_map generalizing cs with
  | nil => rfl
  | cons e es ih =>
    rw [basePass_cons, ih _ (fun q hq => h q (List.mem_cons_of_mem _ hq)), fillColors_getElem?,
      if_neg (fun hc => h e (List.mem_cons_self _ _) hc.1)]

theorem basePass_visit (pre : List (String × meshRenderRegion)) (e : String × meshRenderRegion)
    (cs : List FColor) (i : Nat) (h1 : e.2.start_pt_index ≤ i) (h2 : i ≤ e.2.end_pt_index)
    (h3 : i < cs.length) :
    (basePass (pre ++ [e]) cs)[i]? = some (regionColor e.2) := by
  rw [basePass_append, basePass_cons]
  simp only [basePass, List.foldl_nil]
  have hlen := basePass_length pre cs
  simp only [basePass] at hlen
  rw [fillColors_getElem?, if_pos ⟨⟨h1, h2⟩, by omega⟩]

/-! ## Colour compositor: the claims -/

/-- C10: for a region of the regions map whose opacity and tints lie in
`[0, 100]`, the colour of the base pass is
`(trunc(r/100 * o * 255), trunc(g/100 * o * 255), trunc(b/100 * o * 255),
trunc(o * 255))` with `o = clamp(p/100, 0, 1) = p/100`, every channel at most
255; once the region is processed every point index of its range inside the
colour buffer holds that colour, and still does after the pass unless a later
region's range contains the index; an index in no region's range keeps its
colour, and the buffer keeps its length. -/
theorem C10_base_pass_colour (regions_map pre post : List (String × meshRenderRegion))
    (name : String) (r : meshRenderRegion) (region_colors : List FColor)
    (hsplit : regions_map = pre ++ (name, r) :: post)
    (hp : 0 ≤ r.opacity ∧ r.opacity ≤ 100) (hr : 0 ≤ r.red ∧ r.red ≤ 100)
    (hg : 0 ≤ r.green ∧ r.green ≤ 100) (hb : 0 ≤ r.blue ∧ r.blue ≤ 100) :
    regionColor r
        = FColor.mk ⌊r.red / 100 * Clamp (r.opacity / 100) 0 1 * 255⌋.toNat
            ⌊r.green / 100 * Clamp (r.opacity / 100) 0 1 * 255⌋.toNat
            ⌊r.blue / 100 * Clamp (r.opacity / 100) 0 1 * 255⌋.toNat
            ⌊Clamp (r.opacity / 100) 0 1 * 255⌋.toNat
      ∧ Clamp (r.opacity / 100) 0 1 = r.opacity / 100
      ∧ ((regionColor r).R ≤ 255 ∧ (regionColor r).G ≤ 255 ∧ (regionColor r).B ≤ 255
          ∧ (regionColor r).A ≤ 255)
      ∧ (∀ i, r.start_pt_index ≤ i → i ≤ r.end_pt_index → i < region_colors.length →
          (basePass (pre ++ [(name, r)]) region_colors)[i]? = some (regionColor r))
      ∧ (∀ i, r.start_pt_index ≤ i → i ≤ r.end_pt_index → i < region_colors.length →
          (∀ q ∈ post, ¬ (q.2.start_pt_index ≤ i ∧ i ≤ q.2.end_pt_index)) →
          (basePass regions_map region_colors)[i]? = some (regionColor r))
      ∧ (∀ i, (∀ q ∈ regions_map, ¬ (q.2.start_pt_index ≤ i ∧ i ≤ q.2.end_pt_index)) →
          (basePass regions_map region_colors)[i]? = region_colors[i]?)
      ∧ (basePass regions_map region_colors).length = region_colors.length := by
  have ho0 : 0 ≤ r.opacity / 100 := div_nonneg hp.1 (by norm_num)
  have ho1 : r.opacity / 100 ≤ 1 := by
    rw [div_le_one (by norm_num)]
    exact hp.2
  have hc : Clamp (r.opacity / 100) 0 1 = r.opacity / 100 := Clamp_unit _ ho0 ho1
  have hR := channel_range r.red (r.opacity / 100) hr.1 hr.2 ho0 ho1
  have hG := channel_range r.green (r.opacity / 100) hg.1 hg.2 ho0 ho1
  have hB := channel_range r.blue (r.opacity / 100) hb.1 hb.2 ho0 ho1
  have hA : 0 ≤ r.opacity / 100 * 255 ∧ r.opacity / 100 * 255 ≤ 255 :=
    ⟨by positivity, by linarith⟩
  have tR := toUInt8_of_range _ hR.1 hR.2
  have tG := toUInt8_of_range _ hG.1 hG.2
  have tB := toUInt8_of_range _ hB.1 hB.2
  have tA := toUInt8_of_range _ hA.1 hA.2
  have hcol : regionColor r
      = FColor.mk (toUInt8 (r.red / 100 * (r.opacity / 100) * 255))
          (toUInt8 (r.green / 100 * (r.opacity / 100) * 255))
          (toUInt8 (r.blue / 100 * (r.opacity / 100) * 255))
          (toUInt8 (r.opacity / 100 * 255)) := by
    simp only [regionColor, hc]
  refine ⟨?_, hc, ?_, ?_, ?_, ?_, ?_⟩
  · rw [hcol, hc, tR.1, tG.1, tB.1, tA.1]
  · rw [hcol]
    exact ⟨tR.2, tG.2, tB.2, tA.2⟩
  · intro i h1 h2 h3
    exact basePass_visit pre (name, r) region_colors i h1 h2 h3
  · intro i h1 h2 h3 hpost
    have hs : pre ++ (name, r) :: post = (pre ++ [(name, r)]) ++ post := by simp
    rw [hsplit, hs, basePass_append, basePass_frame _ _ _ hpost,
      basePass_visit pre (name, r) region_colors i h1 h2 h3]
  · intro i hi
    exact basePass_frame regions_map region_colors i hi
  · exact basePass_length regions_map region_colors

/-- C10 on the demo regions map, colour buffer of five white points: region `a`
(opacity 100, tints 100, 50, 7) colours points 0 and 1 with
`(255, 127, 17, 255)`, and point 4, in no region's range, stays white. -/
theorem C10_base_pass_colour_witness :
    regionColor demoRegionA = FColor.mk 255 127 17 255
      ∧ (basePass demoCreature.regions_map (List.replicate 5 (FColor.mk 255 255 255 255)))[1]?
          = some (regionColor demoRegionA)
      ∧ (basePass demoCreature.regions_map (List.replicate 5 (FColor.mk 255 255 255 255)))[4]?
          = some (FColor.mk 255 255 255 255) := by
  have h := C10_base_pass_colour demoCreature.regions_map [] [("b", demoRegionB)] "a"
    demoRegionA (List.replicate 5 (FColor.mk 255 255 255 255)) rfl
    (by norm_num [demoRegionA]) (by norm_num [demoRegionA]) (by norm_num [demoRegionA])
    (by norm_num [demoRegionA])
  refine ⟨by decide!, ?_, ?_⟩
  · exact h.2.2.2.2.1 1 (by decide) (by decide) (by decide)
      (by
        intro q hq
        simp only [List.mem_singleton] at hq
        subst hq
        decide)
  · have h4 := h.2.2.2.2.2.1 4
      (by
        intro q hq
        simp only [demoCreature, List.mem_cons, List.mem_nil_iff, or_false] at hq
        rcases hq with rfl | rfl <;> decide)
    rw [h4]
    rfl

/-! ## Colour compositor: the override pass -/

theorem overridePass_append (regions_map : List (String × meshRenderRegion))
    (pre post : List (String × FColor)) (cs : List FColor) :
    overridePass regions_map (pre ++ post) cs
      = overridePass regions_map post (overridePass regions_map pre cs) := by
  simp only [overridePass, List.foldl_append]

theorem overridePass_cons_some (regions_map : List (String × meshRenderRegion))
    (e : String × FColor) (post : List (String × FColor)) (cs : List FColor)
    (r : meshRenderRegion) (h : regions_map.lookup e.1 = some r) :
    overridePass regions_map (e :: post) cs
      = overridePass regions_map post
          (fillColors cs r.start_pt_index r.end_pt_index (FColor.mk e.2.A e.2.A e.2.A e.2.A)) := by
  simp only [overridePass, List.foldl_cons, h]

theorem overridePass_cons_none (regions_map : List (String × meshRenderRegion))
    (e : String × FColor) (post : List (String × FColor)) (cs : List FColor)
    (h : regions_map.lookup e.1 = none) :
    overridePass regions_map (e :: post) cs = overridePass regions_map post cs := by
  simp only [overridePass, List.foldl_cons, h]

theorem overridePass_length (regions_map : List (String × meshRenderRegion))
    (overrides : List (String × FColor)) (cs : List FColor) :
    (overridePass regions_map overrides cs).length = cs.length := by
  induction overrides generalizing cs with
  | nil => rfl
  | cons e es ih =>
    cases h : regions_map.lookup e.1 with
    | none => rw [overridePass_cons_none _ _ _ _ h, ih]
    | some r => rw [overridePass_cons_some _ _ _ _ r h, ih, fillColors_length]

theorem overridePass_frame (regions_map : List (String × meshRenderRegion))
    (overrides : List (String × FColor)) (cs : List FColor) (i : Nat)
    (h : ∀ q ∈ overrides, ∀ r, regions_map.lookup q.1 = some r →
      ¬ (r.start_pt_index ≤ i ∧ i ≤ r.end_pt_index)) :
    (overridePass regions_map overrides cs)[i]? = cs[i]? := by
  induction overrides generalizing cs with
  | nil => rfl
  | cons e es ih =>
    have h' := fun q hq => h q (List.mem_cons_of_mem _ hq)
    cases hl : regions_map.lookup e.1 with
    | none => rw [overridePass_cons_none _ _ _ _ hl, ih _ h']
    | some r =>
      rw [overridePass_cons_some _ _ _ _ r hl, ih _ h', fillColors_getElem?,
        if_neg (fun hc => h e (List.mem_cons_self _ _) r hl hc.1)]

theorem ProcessRenderRegions_length (cur_creature : Creature) (s : Core) :
    (ProcessRenderRegions cur_creature s).region_colors.length = cur_creature.total_num_pts := by
  simp only [ProcessRenderRegions]
  split_ifs <;> simp_all [overridePass_length, basePass_length]

theorem ProcessRenderRegions_colors (cur_creature : Creature) (s : Core) :
    (ProcessRenderRegions cur_creature s).region_colors
      = overridePass cur_creature.regions_map s.region_colors_map
          (basePass cur_creature.regions_map
            (if s.region_colors.length ≠ cur_creature.total_num_pts then
              List.replicate cur_creature.total_num_pts (FColor.mk 255 255 255 255)
            else s.region_colors)) := by
  simp only [ProcessRenderRegions]
  by_cases h : s.region_colors_map.length > 0
  · rw [if_pos h]
  · rw [if_neg h]
    have : s.region_colors_map = [] := List.length_eq_zero.1 (by omega)
    rw [this]
    rfl

theorem regionColor_alpha_zero (r : meshRenderRegion) (h : r.opacity = 0) :
    (regionColor r).A = 0 := by
  simp only [regionColor, h]
  decide!

/-- C11 as stated fails: in `overlapCreature` region `a` has opacity 0 and owns
points 0..1, region `b` (opacity 100) owns points 1..2 and is visited after
`a`; with no override set, point 1, which lies in the range of `a`, has alpha
255 after `ProcessRenderRegions`, not 0. -/
theorem C11_counterexample :
    Core.init.region_colors_map = []
      ∧ overlapCreature.regions_map.lookup "a" = some overlapRegionA
      ∧ overlapRegionA.opacity = 0
      ∧ (overlapRegionA.start_pt_index ≤ 1 ∧ 1 ≤ overlapRegionA.end_pt_index)
      ∧ (ProcessRenderRegions overlapCreature Core.init).region_colors[1]?
          = some (FColor.mk 255 255 255 255)
      ∧ ¬ ∃ c : FColor,
          (ProcessRenderRegions overlapCreature Core.init).region_colors[1]? = some c
            ∧ c.A = 0 := by
  have h : (ProcessRenderRegions overlapCreature Core.init).region_colors[1]?
      = some (FColor.mk 255 255 255 255) := by decide!
  refine ⟨rfl, by decide!, rfl, by decide, h, ?_⟩
  rintro ⟨c, h1, h2⟩
  rw [h] at h1
  cases h1
  revert h2
  decide

/-- C11, amended: with no override set, after `ProcessRenderRegions` every
point of the range `[startPt, endPt]` of a region of opacity 0 that lies in the
colour buffer and in no range of a region visited later by the base pass (so
every such point when the regions' point ranges are disjoint) has alpha 0. -/
theorem C11_zero_opacity_alpha (cur_creature : Creature) (s : Core)
    (pre post : List (String × meshRenderRegion)) (name : String) (r : meshRenderRegion)
    (i : Nat)
    (hno : s.region_colors_map = [])
    (hsplit : cur_creature.regions_map = pre ++ (name, r) :: post)
    (hop : r.opacity = 0)
    (h1 : r.start_pt_index ≤ i) (h2 : i ≤ r.end_pt_index)
    (h3 : i < cur_creature.total_num_pts)
    (hlater : ∀ q ∈ post, ¬ (q.2.start_pt_index ≤ i ∧ i ≤ q.2.end_pt_index)) :
    ∃ c : FColor,
      (ProcessRenderRegions cur_creature s).region_colors[i]? = some c ∧ c.A = 0 := by
  refine ⟨regionColor r, ?_, regionColor_alpha_zero r hop⟩
  rw [ProcessRenderRegions_colors, hno]
  have hs : pre ++ (name, r) :: post = (pre ++ [(name, r)]) ++ post := by simp
  simp only [overridePass, List.foldl_nil]
  rw [hsplit, hs, basePass_append, basePass_frame _ _ _ hlater]
  apply basePass_visit pre (name, r) _ i h1 h2
  split_ifs with hc
  · simpa using h3
  · have : s.region_colors.length = cur_creature.total_num_pts := by
      simpa using hc
    omega

/-- C11 on the overlapping creature: point 0 lies in the range of region `a`
(opacity 0) only, and has alpha 0 after `ProcessRenderRegions`. -/
theorem C11_zero_opacity_alpha_witness :
    ∃ c : FColor,
      (ProcessRenderRegions overlapCreature Core.init).region_colors[0]? = some c ∧ c.A = 0 :=
  C11_zero_opacity_alpha overlapCreature Core.init [] [("b", overlapRegionB)] "a"
    overlapRegionA 0 rfl rfl rfl (by decide) (by decide) (by decide)
    (by
      intro q hq
      simp only [List.mem_singleton] at hq
      subst hq
      decide)

/-- C12 as stated fails: on `overlapCreature` with the overrides `a -> 10` and
`b -> 20`, both naming regions, point 1 lies in the range of region `a` but
ends with colour `(20, 20, 20, 20)`, the override of `b`, not
`(10, 10, 10, 10)`. -/
theorem C12_counterexample :
    overrideCore.region_colors_map.lookup "a" = some (FColor.mk 10 10 10 10)
      ∧ overlapCreature.regions_map.lookup "a" = some overlapRegionA
      ∧ (overlapRegionA.start_pt_index ≤ 1 ∧ 1 ≤ overlapRegionA.end_pt_index)
      ∧ (ProcessRenderRegions overlapCreature overrideCore).region_colors[1]?
          = some (FColor.mk 20 20 20 20)
      ∧ ¬ (ProcessRenderRegions overlapCreature overrideCore).region_colors[1]?
          = some (FColor.mk 10 10 10 10) := by
  refine ⟨by decide!, by decide!, by decide, by decide!, by decide!⟩

/-- C12, amended: after `ProcessRenderRegions`, for an override entry
`name -> colour` of `region_colors_map` with forced alpha `a = colour.A`: if
`name` is a key of the regions map, every point index of that region's range
that lies in the colour buffer and in no range of a region named by a later
override entry (so every such index when the regions' point ranges are
disjoint) has colour `(a, a, a, a)`; if `name` is not a key of the regions
map, the colour buffer is the one obtained without that entry. -/
theorem C12_override_colour (cur_creature : Creature) (s : Core)
    (pre post : List (String × FColor)) (name : String) (colour : FColor)
    (hsplit : s.region_colors_map = pre ++ (name, colour) :: post) :
    (∀ (r : meshRenderRegion) (i : Nat),
        cur_creature.regions_map.lookup name = some r →
        r.start_pt_index ≤ i → i ≤ r.end_pt_index → i < cur_creature.total_num_pts →
        (∀ q ∈ post, ∀ r2, cur_creature.regions_map.lookup q.1 = some r2 →
          ¬ (r2.start_pt_index ≤ i ∧ i ≤ r2.end_pt_index)) →
        (ProcessRenderRegions cur_creature s).region_colors[i]?
          = some (FColor.mk colour.A colour.A colour.A colour.A))
      ∧ (cur_creature.regions_map.lookup name = none →
        (ProcessRenderRegions cur_creature s).region_colors
          = (ProcessRenderRegions cur_creature
              { s with region_colors_map := pre ++ post }).region_colors) := by
  constructor
  · intro r i hl h1 h2 h3 hlater
    rw [ProcessRenderRegions_colors, hsplit, overridePass_append,
      overridePass_cons_some _ _ _ _ r hl, overridePass_frame _ _ _ _ hlater,
      fillColors_getElem?, if_pos]
    refine ⟨⟨h1, h2⟩, ?_⟩
    rw [overridePass_length, basePass_length]
    split_ifs with hc
    · simpa using h3
    · have : s.region_colors.length = cur_creature.total_num_pts := by
        simpa using hc
      omega
  · intro hl
    rw [ProcessRenderRegions_colors, ProcessRenderRegions_colors, hsplit, overridePass_append,
      overridePass_cons_none _ _ _ _ hl, ← overridePass_append]

/-- C12 on the demo creature with the overrides `a -> 10` and `ghost -> 20`:
points 0 and 1 (region `a`) get `(10, 10, 10, 10)`, and the entry `ghost`,
which names no region, changes nothing. -/
theorem C12_override_colour_witness :
    (ProcessRenderRegions demoCreature ghostOverrideCore).region_colors[1]?
        = some (FColor.mk 10 10 10 10)
      ∧ (ProcessRenderRegions demoCreature ghostOverrideCore).region_colors
        = (ProcessRenderRegions demoCreature
            { ghostOverrideCore with
              region_colors_map := [("a", FColor.mk 10 10 10 10)] ++ [] }).region_colors := by
  have ha := C12_override_colour demoCreature ghostOverrideCore []
    [("ghost", FColor.mk 20 20 20 20)] "a" (FColor.mk 10 10 10 10) rfl
  have hg := C12_override_colour demoCreature ghostOverrideCore
    [("a", FColor.mk 10 10 10 10)] [] "ghost" (FColor.mk 20 20 20 20) rfl
  refine ⟨ha.1 demoRegionA 1 (by decide) (by decide) (by decide) (by decide) ?_,
    hg.2 (by decide)⟩
  intro q hq r2 hr2
  simp only [List.mem_singleton] at hq
  subst hq
  have hnone : demoCreature.regions_map.lookup "ghost" = none := by decide
  rw [hnone] at hr2
  cases hr2

/-! ## Asset cache: lemmas -/

theorem lookup_filter_self {V : Type} (m : List (String × V)) (key : String) :
    (m.filter fun e => e.1 != key).lookup key = none := by
  induction m with
  | nil => rfl
  | cons e m ih =>
    obtain ⟨k1, v1⟩ := e
    by_cases h1 : k1 = key
    · subst h1
      simp [List.filter_cons, ih]
    · have hb : (k1 != key) = true := by simpa using h1
      have hk : (key == k1) = false := by simpa using fun h => h1 h.symm
      simp only [List.filter_cons, hb, if_true, List.lookup_cons, hk, ih]

theorem lookup_append_of_none {V : Type} (m1 m2 : List (String × V)) (key : String)
    (h : m1.lookup key = none) : (m1 ++ m2).lookup key = m2.lookup key := by
  induction m1 with
  | nil => rfl
  | cons e m ih =>
    obtain ⟨k1, v1⟩ := e
    rw [List.lookup_cons] at h
    by_cases hk : (key == k1) = true
    · rw [hk] at h
      cases h
    · have hk' : (key == k1) = false := by simpa using hk
      rw [hk'] at h
      simp only [List.cons_append, List.lookup_cons, hk', ih h]

theorem TMapAdd_lookup_self {V : Type} (m : List (String × V)) (key : String) (value : V) :
    (TMapAdd m key value).lookup key = some value := by
  unfold TMapAdd
  rw [lookup_append_of_none _ _ _ (lookup_filter_self m key)]
  simp [List.lookup_cons]

theorem TMapAdd_contains {V : Type} (m : List (String × V)) (key : String) (value : V) :
    TMapContains (TMapAdd m key value) key = true := by
  simp [TMapContains, TMapAdd_lookup_self]

theorem TMapRemove_contains {V : Type} (m : List (String × V)) (key : String) :
    TMapContains (TMapRemove m key) key = false := by
  simp [TMapContains, TMapRemove, lookup_filter_self]

theorem TMapAdd_single {V : Type} (m : List (String × V)) (key : String) (value : V) :
    ((TMapAdd m key value).filter fun e => e.1 == key).length = 1 := by
  unfold TMapAdd
  rw [List.filter_append, List.filter_filter]
  have h : (m.filter fun e => (e.1 == key && e.1 != key)) = [] := by
    rw [List.filter_eq_nil_iff]
    intro e _
    by_cases hk : e.1 = key <;> simp [hk]
  simp [h]

theorem foldl_TMapRemove_mem {V : Type} (keys : List String) (m : List (String × V))
    (e : String × V) :
    e ∈ keys.foldl (fun m cur_key => TMapRemove m cur_key) m ↔ e ∈ m ∧ e.1 ∉ keys := by
  induction keys generalizing m with
  | nil => simp
  | cons k ks ih =>
    rw [List.foldl_cons, ih]
    simp only [TMapRemove, List.mem_filter, List.mem_cons, not_or, bne_iff_ne, ne_eq]
    tauto

theorem isPrefixOf_append_self (p r : List Char) : p.isPrefixOf (p ++ r) = true := by
  induction p with
  | nil => simp [List.isPrefixOf]
  | cons c p ih => simp [List.isPrefixOf, ih]

theorem StartsWith_token (filename_in name_in : String) :
    StartsWith (GetAnimationToken filename_in name_in) (filename_in ++ "_") = true := by
  unfold StartsWith GetAnimationToken
  rw [String.data_append]
  exact isPrefixOf_append_self _ _

theorem lookup_isSome_mem {V : Type} (m : List (String × V)) (key : String)
    (h : (m.lookup key).isSome = true) : ∃ v, (key, v) ∈ m := by
  cases hl : m.lookup key with
  | none => rw [hl] at h; cases h
  | some v => exact ⟨v, lookup_mem m key v hl⟩

theorem FreeDataPacket_loaded (filename_in : String) (g : Globals)
    (h : TMapContains g.global_load_data_packets filename_in = true) :
    FreeDataPacket filename_in g
      = { global_animations :=
            ((g.global_animations.filter fun anim_pair =>
                StartsWith anim_pair.1 (filename_in ++ "_")).map fun anim_pair =>
                  anim_pair.1).foldl
              (fun m cur_key => TMapRemove m cur_key) g.global_animations
          global_load_data_packets := TMapRemove g.global_load_data_packets filename_in } := by
  simp only [FreeDataPacket, h, if_true]

theorem FreeDataPacket_no_clip (filename_in : String) (g : Globals)
    (h : TMapContains g.global_load_data_packets filename_in = true)
    (e : String × CreatureAnimation) (he : e ∈ (FreeDataPacket filename_in g).global_animations) :
    StartsWith e.1 (filename_in ++ "_") = false := by
  rw [FreeDataPacket_loaded filename_in g h] at he
  simp only [foldl_TMapRemove_mem] at he
  obtain ⟨hm, hn⟩ := he
  by_contra hs
  apply hn
  simp only [List.mem_map, List.mem_filter]
  exact ⟨e, ⟨hm, by simpa using hs⟩, rfl⟩

theorem LoadCall_run_contains (M : CreatureModule) (key : String)
    (cache : List (String × CreatureLoadDataPacket)) (first : LoadCall)
    (hfirst : (first.run M key cache).1 = true) :
    TMapContains (first.run M key cache).2 key = true := by
  cases first with
  | path =>
    simp only [LoadCall.run, LoadDataPacket]
    by_cases hc : TMapContains cache key = true
    · simp [hc]
    · simp only [hc]
      exact TMapAdd_contains _ _ _
  | fromData pSourceData =>
    cases pSourceData with
    | none => simp [LoadCall.run, LoadDataPacket.fromData] at hfirst
    | some source =>
      simp only [LoadCall.run, LoadDataPacket.fromData] at hfirst ⊢
      by_cases hc : TMapContains cache key = true
      · simp [hc]
      · by_cases hl : source.length = 0
        · simp [hc, hl] at hfirst
        · simp only [hc, hl, if_false]
          exact TMapAdd_contains _ _ _

theorem LoadCall_run_loaded (M : CreatureModule) (key : String)
    (cache : List (String × CreatureLoadDataPacket)) (second : LoadCall)
    (hc : TMapContains cache key = true) :
    (second.run M key cache).2 = cache
      ∧ ((second.run M key cache).1 = true ↔ second ≠ LoadCall.fromData none) := by
  cases second with
  | path => simp [LoadCall.run, LoadDataPacket, hc]
  | fromData pSourceData =>
    cases pSourceData with
    | none => simp [LoadCall.run, LoadDataPacket.fromData]
    | some source => simp [LoadCall.run, LoadDataPacket.fromData, hc]

theorem LoadCall_run_single (M : CreatureModule) (key : String)
    (cache : List (String × CreatureLoadDataPacket)) (first : LoadCall)
    (hfirst : (first.run M key cache).1 = true) (hc : TMapContains cache key = false) :
    ((first.run M key cache).2.filter fun e => e.1 == key).length = 1 := by
  cases first with
  | path =>
    simp only [LoadCall.run, LoadDataPacket, hc]
    exact TMapAdd_single _ _ _
  | fromData pSourceData =>
    cases pSourceData with
    | none => simp [LoadCall.run, LoadDataPacket.fromData] at hfirst
    | some source =>
      by_cases hl : source.length = 0
      · simp [LoadCall.run, LoadDataPacket.fromData, hc, hl] at hfirst
      · simp only [LoadCall.run, LoadDataPacket.fromData, hc, hl]
        exact TMapAdd_single _ _ _

/-! ## Asset cache: the claims -/

/-- C13 as stated fails: after a successful path-based load of `hero` into an
empty cache, a second load of `hero` through the inline entry point with a null
source does not return success. -/
theorem C13_counterexample :
    (LoadCall.path.run demoModule "hero" []).1 = true
      ∧ ¬ ((LoadCall.fromData none).run demoModule "hero"
            (LoadCall.path.run demoModule "hero" []).2).1 = true := by
  refine ⟨by decide, by decide⟩

/-- C13, amended: after one successful load of a key through either entry point
the key is in the packet cache (as its single entry when it was not there
before), and a second load of the key through either entry point leaves the
packet cache exactly as it was after the first load; the second load returns
success unless it is the inline entry point called with a null source, which
returns false. -/
theorem C13_load_idempotent (M : CreatureModule) (key : String)
    (cache : List (String × CreatureLoadDataPacket)) (first second : LoadCall)
    (hfirst : (first.run M key cache).1 = true) :
    TMapContains (first.run M key cache).2 key = true
      ∧ (TMapContains cache key = false →
          ((first.run M key cache).2.filter fun e => e.1 == key).length = 1)
      ∧ (second.run M key (first.run M key cache).2).2 = (first.run M key cache).2
      ∧ (second ≠ LoadCall.fromData none →
          (second.run M key (first.run M key cache).2).1 = true)
      ∧ (second = LoadCall.fromData none →
          (second.run M key (first.run M key cache).2).1 = false) := by
  have hc := LoadCall_run_contains M key cache first hfirst
  obtain ⟨h1, h2⟩ := LoadCall_run_loaded M key (first.run M key cache).2 second hc
  refine ⟨hc, LoadCall_run_single M key cache first hfirst, h1, h2.2, ?_⟩
  intro hs
  cases hb : (second.run M key (first.run M key cache).2).1 with
  | false => rfl
  | true => exact absurd hs (h2.1 hb)

/-- C13 on an empty cache: an inline load of `hero` from a non-empty source,
then a path-based load of `hero`: the second returns success and the cache
still is the single entry the first load made. -/
theorem C13_load_idempotent_witness :
    ((LoadCall.fromData (some "json")).run demoModule "hero" []).1 = true
      ∧ (LoadCall.path.run demoModule "hero"
          ((LoadCall.fromData (some "json")).run demoModule "hero" []).2).2
          = [("hero", { data := "json" })]
      ∧ (LoadCall.path.run demoModule "hero"
          ((LoadCall.fromData (some "json")).run demoModule "hero" []).2).1 = true := by
  have h := C13_load_idempotent demoModule "hero" [] (LoadCall.fromData (some "json"))
    LoadCall.path (by decide)
  exact ⟨by decide, h.2.2.1, h.2.2.2.1 (by decide)⟩

/-- C14 as stated fails: with `hero` already in the packet cache, the inline
load of `hero` from an empty string is not rejected, it returns true. -/
theorem C14_counterexample :
    ("" : String).length = 0
      ∧ ¬ (LoadDataPacket.fromData demoModule "hero" (some "") heroCache).1 = false := by
  refine ⟨by decide, by decide⟩

/-- C14, amended: the inline load never changes the packet cache when its source
holds no data; with a null source it returns false; with an empty string it
returns false when the key is not in the cache and true when the key already
is. -/
theorem C14_empty_source (M : CreatureModule) (filename_in : String)
    (cache : List (String × CreatureLoadDataPacket)) (source : String)
    (hempty : source.length = 0) :
    LoadDataPacket.fromData M filename_in none cache = (false, cache)
      ∧ (LoadDataPacket.fromData M filename_in (some source) cache).2 = cache
      ∧ (TMapContains cache filename_in = false →
          (LoadDataPacket.fromData M filename_in (some source) cache).1 = false)
      ∧ (TMapContains cache filename_in = true →
          (LoadDataPacket.fromData M filename_in (some source) cache).1 = true) := by
  refine ⟨rfl, ?_, ?_, ?_⟩
  · by_cases hc : TMapContains cache filename_in = true <;>
      simp [LoadDataPacket.fromData, hc, hempty]
  · intro hc
    simp [LoadDataPacket.fromData, hc, hempty]
  · intro hc
    simp [LoadDataPacket.fromData, hc]

/-- C14 on an empty cache: the inline load of `hero` from the empty string
returns false and the cache stays empty. -/
theorem C14_empty_source_witness :
    LoadDataPacket.fromData demoModule "hero" (some "") [] = (false, []) := by
  have h := C14_empty_source demoModule "hero" [] "" (by decide)
  exact Prod.ext (h.2.2.1 (by decide)) h.2.1

/-- C15: `LoadAnimation(file, name)` called while `file` is not in the packet
cache leaves both caches unchanged. -/
theorem C15_load_animation_not_loaded (M : CreatureModule) (filename_in name_in : String)
    (g : Globals) (habsent : TMapContains g.global_load_data_packets filename_in = false) :
    LoadAnimation M filename_in name_in g = g := by
  unfold LoadAnimation
  by_cases hc : TMapContains g.global_animations (GetAnimationToken filename_in name_in) = true
  · simp [hc]
  · simp [hc, habsent]

/-- C15 on the caches of `hero`: loading clip `run` of the asset `villain`,
which is not loaded, changes nothing. -/
theorem C15_load_animation_not_loaded_witness :
    LoadAnimation demoModule "villain" "run" heroGlobals = heroGlobals :=
  C15_load_animation_not_loaded demoModule "villain" "run" heroGlobals (by decide)

/-- C16: when `key` is in the packet cache, after `FreeDataPacket(key)` the
packet cache no longer contains `key` and the clip cache holds no entry whose
token starts with `key` followed by `_`, so none for any clip name of that
key; when `key` is not in the packet cache, both caches are unchanged. -/
theorem C16_free_data_packet (filename_in : String) (g : Globals) :
    (TMapContains g.global_load_data_packets filename_in = true →
        TMapContains (FreeDataPacket filename_in g).global_load_data_packets filename_in = false
          ∧ (∀ e ∈ (FreeDataPacket filename_in g).global_animations,
              StartsWith e.1 (filename_in ++ "_") = false)
          ∧ (∀ name_in : String,
              TMapContains (FreeDataPacket filename_in g).global_animations
                (GetAnimationToken filename_in name_in) = false))
      ∧ (TMapContains g.global_load_data_packets filename_in = false →
        FreeDataPacket filename_in g = g) := by
  constructor
  · intro h
    refine ⟨?_, fun e he => FreeDataPacket_no_clip filename_in g h e he, ?_⟩
    · rw [FreeDataPacket_loaded filename_in g h]
      exact TMapRemove_contains _ _
    · intro name_in
      by_contra hc
      have hc' : ((FreeDataPacket filename_in g).global_animations.lookup
          (GetAnimationToken filename_in name_in)).isSome = true := by
        simpa [TMapContains] using hc
      obtain ⟨v, hv⟩ := lookup_isSome_mem _ _ hc'
      have := FreeDataPacket_no_clip filename_in g h _ hv
      rw [StartsWith_token] at this
      cases this
  · intro h
    simp [FreeDataPacket, h]

/-- C16 on the caches of `hero`: freeing `hero` empties both caches, freeing
the unloaded `villain` changes nothing. -/
theorem C16_free_data_packet_witness :
    FreeDataPacket "hero" heroGlobals
        = { global_animations := [], global_load_data_packets := [] }
      ∧ TMapContains (FreeDataPacket "hero" heroGlobals).global_load_data_packets "hero" = false
      ∧ FreeDataPacket "villain" heroGlobals = heroGlobals :=
  ⟨by decide, ((C16_free_data_packet "hero" heroGlobals).1 (by decide)).1,
    (C16_free_data_packet "villain" heroGlobals).2 (by decide)⟩

/-- C17 fails on the code: the pairs `(a_b, c)` and `(a, b_c)` differ and have
the same token `a_b_c`. With both assets loaded, `LoadAnimation(a_b, c)` caches
a clip under that token, and `LoadAnimation(a, b_c)` then returns early: the
caches are unchanged and the entry it finds is the clip built from the packet
of `a_b` (end time 2), not one built from the packet of `a` (end time 1). -/
theorem C17_token_collision :
    GetAnimationToken "a_b" "c" = GetAnimationToken "a" "b_c"
      ∧ ¬ (("a_b" : String) = "a" ∧ ("c" : String) = "b_c")
      ∧ LoadAnimation demoModule "a" "b_c" (LoadAnimation demoModule "a_b" "c" collisionGlobals)
          = LoadAnimation demoModule "a_b" "c" collisionGlobals
      ∧ (LoadAnimation demoModule "a" "b_c"
            (LoadAnimation demoModule "a_b" "c" collisionGlobals)).global_animations.lookup
            (GetAnimationToken "a" "b_c")
          = some (demoModule.newCreatureAnimation { data := "22" } "c")
      ∧ demoModule.newCreatureAnimation { data := "22" } "c"
          ≠ demoModule.newCreatureAnimation { data := "1" } "b_c" := by
  refine ⟨by decide, by decide, by decide, by decide, by decide⟩

/-! ## Blending and bone transforms: the claims -/

theorem SetAutoBlendActiveAnimation_known (name_in : String) (factor : ℚ)
    (creature_manager : CreatureManager) (s : Core)
    (hknown : TMapContains creature_manager.all_animations name_in = true) :
    (SetAutoBlendActiveAnimation name_in factor creature_manager s).2.auto_blend_to
        = some (name_in,
            if factor < 1 / 1000 then 1 / 1000 else if factor > 1 then 1 else factor)
      ∧ (SetAutoBlendActiveAnimation name_in factor creature_manager s).1.smooth_transitions
        = true := by
  simp only [SetAutoBlendActiveAnimation, hknown]
  refine ⟨rfl, ?_⟩
  cases h : s.smooth_transitions <;> simp [h]

/-- C18 as stated fails: for the known clip `idle` and the requested factor 0,
`AutoBlendTo` receives the factor 1/1000, which does not lie in the half-open
interval `(0.001, 1.0]`. -/
theorem C18_counterexample :
    TMapContains blendManager.all_animations "idle" = true
      ∧ (SetAutoBlendActiveAnimation "idle" 0 blendManager demoCore).2.auto_blend_to
          = some ("idle", 1 / 1000)
      ∧ ¬ ∃ f : ℚ,
          (SetAutoBlendActiveAnimation "idle" 0 blendManager demoCore).2.auto_blend_to
              = some ("idle", f)
            ∧ (1 / 1000 < f ∧ f ≤ 1) := by
  have h := (SetAutoBlendActiveAnimation_known "idle" 0 blendManager demoCore (by decide)).1
  have h' : (SetAutoBlendActiveAnimation "idle" 0 blendManager demoCore).2.auto_blend_to
      = some ("idle", 1 / 1000) := by
    rw [h]
    norm_num
  refine ⟨by decide, h', ?_⟩
  rintro ⟨f, hf, h1, _⟩
  rw [h'] at hf
  simp only [Option.some.injEq, Prod.mk.injEq, true_and] at hf
  rw [← hf] at h1
  exact lt_irrefl _ h1

/-- C18, amended: for every requested factor and every clip name known to the
manager, `SetAutoBlendActiveAnimation` hands `AutoBlendTo` that name with a
blend factor in the closed interval `[0.001, 1.0]`, equal to the requested
factor whenever the request lies in that interval, switches auto blending on
and leaves `smooth_transitions` true. -/
theorem C18_blend_factor_clamped (name_in : String) (factor : ℚ)
    (creature_manager : CreatureManager) (s : Core)
    (hknown : TMapContains creature_manager.all_animations name_in = true) :
    ∃ f : ℚ,
      (SetAutoBlendActiveAnimation name_in factor creature_manager s).2.auto_blend_to
          = some (name_in, f)
        ∧ 1 / 1000 ≤ f ∧ f ≤ 1
        ∧ (1 / 1000 ≤ factor ∧ factor ≤ 1 → f = factor)
        ∧ (SetAutoBlendActiveAnimation name_in factor creature_manager s).2.auto_blending = true
        ∧ (SetAutoBlendActiveAnimation name_in factor creature_manager s).1.smooth_transitions
            = true := by
  obtain ⟨h1, h2⟩ := SetAutoBlendActiveAnimation_known name_in factor creature_manager s hknown
  refine ⟨_, h1, ?_, ?_, ?_, ?_, h2⟩
  · split_ifs with ha hb
    · exact le_refl _
    · norm_num
    · exact not_lt.1 ha
  · split_ifs with ha hb
    · norm_num
    · exact le_refl _
    · exact not_lt.1 hb
  · rintro ⟨hlo, hhi⟩
    rw [if_neg (not_lt.2 hlo), if_neg (not_lt.2 hhi)]
  · simp only [SetAutoBlendActiveAnimation, hknown]
    rfl

/-- C18 on the demo manager: the requests 1/2, 0 and 7 for the clip `idle` are
handed on as 1/2, 1/1000 and 1. -/
theorem C18_blend_factor_clamped_witness :
    (SetAutoBlendActiveAnimation "idle" (1 / 2) blendManager demoCore).2.auto_blend_to
        = some ("idle", 1 / 2)
      ∧ (SetAutoBlendActiveAnimation "idle" 7 blendManager demoCore).2.auto_blend_to
        = some ("idle", 1)
      ∧ (SetAutoBlendActiveAnimation "idle" (1 / 2) blendManager demoCore).1.smooth_transitions
        = true := by
  obtain ⟨f, h1, _, _, h4, _, h6⟩ :=
    C18_blend_factor_clamped "idle" (1 / 2) blendManager demoCore (by decide)
  refine ⟨?_, by decide!, h6⟩
  rw [h1, h4 ⟨by norm_num, by norm_num⟩]

theorem GetBluePrintBoneXform_skip {T : Type} (ops : FTransformOps T) (name_in : String)
    (world_transform : Bool) (s : ℚ) (base_transform : T)
    (pre rest : List (FCreatureBoneData T)) (hpre : ∀ q ∈ pre, q.name ≠ name_in) :
    GetBluePrintBoneXform ops name_in world_transform s base_transform (pre ++ rest)
      = GetBluePrintBoneXform ops name_in world_transform s base_transform rest := by
  induction pre with
  | nil => rfl
  | cons b pre ih =>
    have hb : ¬ b.name = name_in := hpre b (List.mem_cons_self _ _)
    simp only [List.cons_append, GetBluePrintBoneXform, hb, if_false]
    exact ih (fun q hq => hpre q (List.mem_cons_of_mem _ hq))

theorem exists_first_bone {T : Type} (bone_data : List (FCreatureBoneData T))
    (name_in : String) (hpresent : ∃ q ∈ bone_data, q.name = name_in) :
    ∃ (pre : List (FCreatureBoneData T)) (bone : FCreatureBoneData T)
        (post : List (FCreatureBoneData T)),
      bone_data = pre ++ bone :: post ∧ (∀ q ∈ pre, q.name ≠ name_in)
        ∧ bone.name = name_in := by
  induction bone_data with
  | nil =>
    obtain ⟨q, hq, _⟩ := hpresent
    cases hq
  | cons b rest ih =>
    by_cases hb : b.name = name_in
    · exact ⟨[], b, rest, rfl, by simp, hb⟩
    · have hrest : ∃ q ∈ rest, q.name = name_in := by
        obtain ⟨q, hq, hn⟩ := hpresent
        rcases List.mem_cons.1 hq with rfl | hq
        · exact absurd hn hb
        · exact ⟨q, hq, hn⟩
      obtain ⟨pre, bone, post, h1, h2, h3⟩ := ih hrest
      refine ⟨b :: pre, bone, post, by rw [h1]; rfl, ?_, h3⟩
      intro q hq
      rcases List.mem_cons.1 hq with rfl | hq
      · exact hb
      · exact h2 q hq

/-- C19: for a bone table whose first bone named `name_in` is `bone` (every
name present in a table has such a first bone) and a slide factor `s`,
`GetBluePrintBoneXform` with `world_transform = false` returns the bone's
midpoint transform `xform` when `|s| <= 0.01`, and otherwise the blend of its
start-anchored and end-anchored transforms with weight `s + 0.5`; at `s = 0.5`
the weight is 1, which is the end-anchored transform whenever blending with
weight 1 yields the second transform. -/
theorem C19_bone_xform_slide {T : Type} (ops : FTransformOps T)
    (pre post : List (FCreatureBoneData T)) (bone : FCreatureBoneData T) (name_in : String)
    (s : ℚ) (base_transform : T)
    (hpre : ∀ q ∈ pre, q.name ≠ name_in) (hname : bone.name = name_in) :
    (|s| ≤ 1 / 100 →
        GetBluePrintBoneXform ops name_in false s base_transform (pre ++ bone :: post)
          = bone.xform)
      ∧ (¬ |s| ≤ 1 / 100 →
        GetBluePrintBoneXform ops name_in false s base_transform (pre ++ bone :: post)
          = ops.Blend bone.startXform bone.endXform (s + 1 / 2))
      ∧ (s = 1 / 2 →
        GetBluePrintBoneXform ops name_in false s base_transform (pre ++ bone :: post)
          = ops.Blend bone.startXform bone.endXform 1)
      ∧ (s = 1 / 2 → (∀ a b : T, ops.Blend a b 1 = b) →
        GetBluePrintBoneXform ops name_in false s base_transform (pre ++ bone :: post)
          = bone.endXform)
      ∧ (∀ bone_data : List (FCreatureBoneData T), (∃ q ∈ bone_data, q.name = name_in) →
        ∃ (pre2 : List (FCreatureBoneData T)) (bone2 : FCreatureBoneData T)
            (post2 : List (FCreatureBoneData T)),
          bone_data = pre2 ++ bone2 :: post2 ∧ (∀ q ∈ pre2, q.name ≠ name_in)
            ∧ bone2.name = name_in) := by
  rw [GetBluePrintBoneXform_skip ops name_in false s base_transform pre _ hpre]
  have hblend : ¬ |s| ≤ 1 / 100 →
      GetBluePrintBoneXform ops name_in false s base_transform (bone :: post)
        = ops.Blend bone.startXform bone.endXform (s + 1 / 2) := by
    intro hs
    simp only [GetBluePrintBoneXform, hname, if_true]
    rw [if_pos (not_le.1 hs)]
    rfl
  have hhalf : s = 1 / 2 →
      GetBluePrintBoneXform ops name_in false s base_transform (bone :: post)
        = ops.Blend bone.startXform bone.endXform 1 := by
    intro hs
    have h1 : ¬ |s| ≤ 1 / 100 := by
      rw [hs]
      norm_num [abs_le]
    rw [hblend h1, hs]
    norm_num
  refine ⟨?_, hblend, hhalf, ?_, fun bone_data hp => exists_first_bone bone_data name_in hp⟩
  · intro hs
    simp only [GetBluePrintBoneXform, hname, if_true]
    rw [if_neg (not_lt.2 hs)]
    rfl
  · intro hs hB
    rw [hhalf hs, hB]

/-- C19 on the two-bone table: for `leg` (midpoint 30, start 20, end 40) the
slide factor 0 gives the midpoint 30 and the slide factor 1/2 gives the end
anchor 40. -/
theorem C19_bone_xform_slide_witness :
    GetBluePrintBoneXform lineOps "leg" false 0 0 lineBones = 30
      ∧ GetBluePrintBoneXform lineOps "leg" false (1 / 2) 0 lineBones = 40 := by
  have hpre : ∀ q ∈ [(⟨"arm", ⟨0, 0, 0⟩, ⟨10, 0, 0⟩, 5, 0, 10⟩ : FCreatureBoneData ℚ)],
      q.name ≠ "leg" := by
    intro q hq
    simp only [List.mem_singleton] at hq
    subst hq
    decide
  have h0 := C19_bone_xform_slide lineOps
    [⟨"arm", ⟨0, 0, 0⟩, ⟨10, 0, 0⟩, 5, 0, 10⟩] [] ⟨"leg", ⟨20, 0, 0⟩, ⟨40, 0, 0⟩, 30, 20, 40⟩
    "leg" 0 0 hpre rfl
  have h1 := C19_bone_xform_slide lineOps
    [⟨"arm", ⟨0, 0, 0⟩, ⟨10, 0, 0⟩, 5, 0, 10⟩] [] ⟨"leg", ⟨20, 0, 0⟩, ⟨40, 0, 0⟩, 30, 20, 40⟩
    "leg" (1 / 2) 0 hpre rfl
  refine ⟨h0.1 (by norm_num), h1.2.2.2.1 rfl ?_⟩
  intro a b
  simp only [lineOps]
  ring

theorem IsBluePrintBonesCollide_hit_iff (length : vec4 → ℚ) (pt : vec4) (radius : ℚ)
    (bone : meshBone) :
    IsBluePrintBonesCollide.hit length pt radius bone = true
      ↔ boneWithin length pt radius bone := by
  unfold IsBluePrintBonesCollide.hit boneWithin boneNormal boneUnitAxis
  by_cases hL : length (bone.world_end_pt.sub bone.world_start_pt) = 0
  · simp only [hL, if_true, lt_irrefl, false_and]
    simp
  · simp only [hL, if_false]
    constructor
    · intro h
      split_ifs at h with h1 h2
      · refine ⟨?_, h1.1, h1.2, h2⟩
        exact lt_of_le_of_ne (le_trans h1.1 h1.2) (Ne.symm hL)
    · rintro ⟨_, h1, h2, h3⟩
      rw [if_pos ⟨h1, h2⟩, if_pos h3]

theorem IsBluePrintBonesCollide_loop_iff (length : vec4 → ℚ) (pt : vec4) (radius : ℚ)
    (bones_map : List (String × meshBone)) :
    IsBluePrintBonesCollide.loop length pt radius bones_map = true
      ↔ ∃ e ∈ bones_map, boneWithin length pt radius e.2 := by
  induction bones_map with
  | nil => simp [IsBluePrintBonesCollide.loop]
  | cons e rest ih =>
    simp only [IsBluePrintBonesCollide.loop, List.mem_cons, exists_eq_or_imp]
    by_cases h : IsBluePrintBonesCollide.hit length pt radius e.2 = true
    · simp only [h, if_true, true_iff]
      exact Or.inl ((IsBluePrintBonesCollide_hit_iff length pt radius e.2).1 h)
    · have hn : ¬ boneWithin length pt radius e.2 :=
        fun hw => h ((IsBluePrintBonesCollide_hit_iff length pt radius e.2).2 hw)
      have h' : IsBluePrintBonesCollide.hit length pt radius e.2 = false := by
        simpa using h
      rw [h']
      simp only [Bool.false_eq_true, if_false, ih, hn, false_or]

/-- C20 as stated fails: for the bone from `(0, 0, 0)` to `(10, 0, 0)`, the test
point `(5, 1/2, 0)` and the radius 0 given by the caller,
`IsBluePrintBonesCollide` returns true, although no bone has the point within
the given radius 0 (its distance from the axis is 1/2). -/
theorem C20_counterexample :
    IsBluePrintBonesCollide axisLength ⟨5, 1 / 2, 0⟩ 0 boneManager = true
      ∧ ¬ ∃ e ∈ boneManager.creature.bones_map,
          boneWithin axisLength ⟨5, 1 / 2, 0, 1⟩ 0 e.2 := by
  refine ⟨by decide!, by decide!⟩

/-- C20, amended: for every bone set, test point in base-local space and radius
given by the caller, `IsBluePrintBonesCollide` returns true if and only if
some bone with start `P1`, length `L > 0`, unit axis `U` and normal `N`
(`N.x = -U.y`, `N.y = U.x`) satisfies `0 <= dot(point - P1, U) <= L` and
`|dot(point - P1, N)| <= r`, where `r` is the given radius when that is
positive and 1 otherwise. -/
theorem C20_bones_collide (length : vec4 → ℚ) (local_test_point : FVector) (bone_size : ℚ)
    (creature_manager : CreatureManager) :
    IsBluePrintBonesCollide length local_test_point bone_size creature_manager = true
      ↔ ∃ e ∈ creature_manager.creature.bones_map,
          boneWithin length
            { x := local_test_point.X, y := local_test_point.Y, z := local_test_point.Z, w := 1 }
            (if bone_size ≤ 0 then 1 else bone_size) e.2 := by
  unfold IsBluePrintBonesCollide
  exact IsBluePrintBonesCollide_loop_iff _ _ _ _

/-! ## The draw buffer handed out: lemmas -/

theorem GetRealTotalIndicesNum_plain (creature_manager : CreatureManager) (s : Core)
    (hmod : s.mesh_modifier = none) :
    GetRealTotalIndicesNum creature_manager s
      = if s.region_order_indices_num > 0 then s.region_order_indices_num
        else if shouldSkinSwap s then (s.skin_swap_indices.length : ℤ)
        else (creature_manager.creature.total_num_indices : ℤ) := by
  simp [GetRealTotalIndicesNum, HasMeshModifier, hmod]

/-- The fields the reported index count depends on. -/
theorem GetRealTotalIndicesNum_congr (m1 m2 : CreatureManager) (s1 s2 : Core)
    (h1 : s1.mesh_modifier = s2.mesh_modifier)
    (h2 : s1.region_order_indices_num = s2.region_order_indices_num)
    (h3 : s1.meta_data.isSome = s2.meta_data.isSome)
    (h4 : s1.skin_swap_active = s2.skin_swap_active)
    (h5 : s1.skin_swap_indices = s2.skin_swap_indices)
    (h6 : m1.creature.total_num_indices = m2.creature.total_num_indices) :
    GetRealTotalIndicesNum m1 s1 = GetRealTotalIndicesNum m2 s2 := by
  simp only [GetRealTotalIndicesNum, HasMeshModifier, shouldSkinSwap, h1, h2, h3, h4, h5, h6]

theorem customOrder_fields (creature_manager : CreatureManager) (s : Core) :
    (UpdateCreatureRender.customOrder creature_manager s).1.mesh_modifier = s.mesh_modifier
      ∧ (UpdateCreatureRender.customOrder creature_manager s).1.region_order_indices_num
          = s.region_order_indices_num
      ∧ (UpdateCreatureRender.customOrder creature_manager s).1.meta_data.isSome
          = s.meta_data.isSome
      ∧ (UpdateCreatureRender.customOrder creature_manager s).1.skin_swap_active
          = s.skin_swap_active
      ∧ (UpdateCreatureRender.customOrder creature_manager s).1.skin_swap_indices
          = s.skin_swap_indices
      ∧ (UpdateCreatureRender.customOrder creature_manager s).2.creature.total_num_indices
          = creature_manager.creature.total_num_indices := by
  unfold UpdateCreatureRender.customOrder GetIndicesCopy
  cases hg : s.global_indices_copy <;> simp

theorem defaultOrder_fields (creature_manager : CreatureManager) (s : Core) :
    (UpdateCreatureRender.defaultOrder creature_manager s).1.mesh_modifier = s.mesh_modifier
      ∧ (UpdateCreatureRender.defaultOrder creature_manager s).1.meta_data.isSome
          = s.meta_data.isSome
      ∧ (UpdateCreatureRender.defaultOrder creature_manager s).1.skin_swap_active
          = s.skin_swap_active
      ∧ (UpdateCreatureRender.defaultOrder creature_manager s).1.skin_swap_indices
          = s.skin_swap_indices
      ∧ (UpdateCreatureRender.defaultOrder creature_manager s).2.creature.total_num_indices
          = creature_manager.creature.total_num_indices := by
  unfold UpdateCreatureRender.defaultOrder GetIndicesCopy
  cases hm : s.meta_data with
  | none => simp [hm]
  | some md =>
    cases hg : s.global_indices_copy <;>
      (simp only []; split_ifs <;> simp [hm])
theorem UpdateCreatureRender_fields (creature_manager : CreatureManager) (s : Core) :
    (UpdateCreatureRender creature_manager s).1.mesh_modifier = s.mesh_modifier
      ∧ (UpdateCreatureRender creature_manager s).1.meta_data.isSome = s.meta_data.isSome
      ∧ (UpdateCreatureRender creature_manager s).1.skin_swap_active = s.skin_swap_active
      ∧ (UpdateCreatureRender creature_manager s).1.skin_swap_indices = s.skin_swap_indices
      ∧ (UpdateCreatureRender creature_manager s).2.creature.total_num_indices
          = creature_manager.creature.total_num_indices := by
  by_cases hb : s.region_custom_order.length = creature_manager.creature.regions.length
  · rw [UpdateCreatureRender_of_custom creature_manager s hb]
    obtain ⟨h1, _, h3, h4, h5, h6⟩ :=
      customOrder_fields creature_manager (UpdateCreatureRender.clearFlags s)
    exact ⟨h1, h3, h4, h5, h6⟩
  · rw [UpdateCreatureRender_of_default creature_manager s hb]
    exact defaultOrder_fields creature_manager (UpdateCreatureRender.clearFlags s)

theorem UpdateCreatureRender_shouldSkinSwap (creature_manager : CreatureManager) (s : Core) :
    shouldSkinSwap (UpdateCreatureRender creature_manager s).1 = shouldSkinSwap s := by
  obtain ⟨_, h2, h3, h4, _⟩ := UpdateCreatureRender_fields creature_manager s
  simp only [shouldSkinSwap, h2, h3, h4]

theorem UpdateCreatureRender_count (creature_manager : CreatureManager) (s : Core)
    (hmod : s.mesh_modifier = none) :
    GetRealTotalIndicesNum (UpdateCreatureRender creature_manager s).2
        (UpdateCreatureRender creature_manager s).1
      = if (UpdateCreatureRender creature_manager s).1.region_order_indices_num > 0 then
          (UpdateCreatureRender creature_manager s).1.region_order_indices_num
        else if shouldSkinSwap s then (s.skin_swap_indices.length : ℤ)
        else (creature_manager.creature.total_num_indices : ℤ) := by
  obtain ⟨h1, _, _, h4, h5⟩ := UpdateCreatureRender_fields creature_manager s
  rw [GetRealTotalIndicesNum_plain _ _ (h1.trans hmod), UpdateCreatureRender_shouldSkinSwap,
    h4, h5]

theorem UpdateCreatureRender_custom_num (creature_manager : CreatureManager) (s : Core)
    (hbranch : s.region_custom_order.length = creature_manager.creature.regions.length) :
    (UpdateCreatureRender creature_manager s).1.region_order_indices_num = 0 := by
  rw [UpdateCreatureRender_of_custom creature_manager s hbranch]
  exact (customOrder_fields creature_manager (UpdateCreatureRender.clearFlags s)).2.1

theorem UpdateCreatureRender_plain_num (creature_manager : CreatureManager) (s : Core)
    (hbranch : s.region_custom_order.length ≠ creature_manager.creature.regions.length)
    (hmeta : s.meta_data = none) :
    (UpdateCreatureRender creature_manager s).1.region_order_indices_num = 0 := by
  rw [UpdateCreatureRender_of_default creature_manager s hbranch]
  have hm : (UpdateCreatureRender.clearFlags s).meta_data = none := hmeta
  simp only [UpdateCreatureRender.defaultOrder, hm, ProcessRenderRegions]
  rfl

theorem UpdateCreatureRender_track_num (creature_manager : CreatureManager) (s : Core)
    (md : CreatureMetaData)
    (hbranch : s.region_custom_order.length ≠ creature_manager.creature.regions.length)
    (hmeta : s.meta_data = some md)
    (htrack : ¬ (shouldSkinSwap s = true
      ∧ md.hasRegionOrder creature_manager.active_animation_name
          (truncToInt creature_manager.actual_run_time) = false)) :
    (UpdateCreatureRender creature_manager s).1.region_order_indices_num
      = (md.updateIndicesAndPoints
          (GetIndicesCopy creature_manager.creature.total_num_indices s).1
          creature_manager.creature.global_indices
          (depthLoop creature_manager.creature.regions s.region_overlap_z_delta
            creature_manager.creature.render_pts 0).1
          s.region_overlap_z_delta creature_manager.creature.total_num_indices
          creature_manager.creature.total_num_pts creature_manager.active_animation_name
          (shouldSkinSwap s) s.skin_swap_region_ids
          (truncToInt creature_manager.actual_run_time)).1 := by
  rw [UpdateCreatureRender_of_default creature_manager s hbranch]
  have hm : (UpdateCreatureRender.clearFlags s).meta_data = some md := hmeta
  have hc : ¬ ((shouldSkinSwap s
      && (md.hasRegionOrder creature_manager.active_animation_name
          (truncToInt creature_manager.actual_run_time) == false)) = true) := by
    simpa using htrack
  simp only [UpdateCreatureRender.defaultOrder, hm, shouldSkinSwap_alloc, hc,
    GetIndicesCopy_clearFlags, ProcessRenderRegions, if_false]
  have hids : (GetIndicesCopy creature_manager.creature.total_num_indices
      (UpdateCreatureRender.clearFlags s)).2.skin_swap_region_ids = s.skin_swap_region_ids := by
    unfold GetIndicesCopy UpdateCreatureRender.clearFlags
    cases h : s.global_indices_copy <;> simp [h]
  rw [hids]
  rfl
/-! ## The draw buffer handed out: the claims -/

/-- C21 as stated fails: with the custom order `a, ghost` on the demo creature
(two names, two regions, no mesh modifier) the tick takes the custom-order
branch and writes the custom-order total of 3 indices (`source[0..2]`, the rest
of the fresh buffer untouched), yet `GetRealTotalIndicesNum` reports 6, the
topology's total. -/
theorem C21_counterexample :
    ghostOrderCore.mesh_modifier = none
      ∧ ghostOrderCore.region_custom_order.length = (demoManager 0).creature.regions.length
      ∧ customOrderCount (demoManager 0).creature.regions_map ghostOrderCore.region_custom_order
          = 3
      ∧ (UpdateCreatureRender (demoManager 0) ghostOrderCore).1.global_indices_copy
          = some [10, 11, 12, 0, 0, 0]
      ∧ GetRealTotalIndicesNum (UpdateCreatureRender (demoManager 0) ghostOrderCore).2
          (UpdateCreatureRender (demoManager 0) ghostOrderCore).1 = 6
      ∧ ¬ GetRealTotalIndicesNum (UpdateCreatureRender (demoManager 0) ghostOrderCore).2
            (UpdateCreatureRender (demoManager 0) ghostOrderCore).1
          = (customOrderCount (demoManager 0).creature.regions_map
              ghostOrderCore.region_custom_order : ℤ) := by
  refine ⟨rfl, by decide, by decide, by decide!, by decide!, by decide!⟩

/-- C21, amended: after a tick of `UpdateCreatureRender` with no mesh modifier
installed, `GetRealTotalIndicesNum` reports the count the region-order track
returned when the tick called the track and that count is positive; in every
other case (plain default order, custom order whatever its total, skin swap, a
track count of 0 or less) it reports `skin_swap_indices.Num()` when
`shouldSkinSwap()` holds and the topology's total otherwise. In particular it
is the topology's total in plain default order and `skin_swap_indices.Num()`
under skin swap. -/
theorem C21_reported_index_count (creature_manager : CreatureManager) (s : Core)
    (hmod : s.mesh_modifier = none) :
    (s.region_custom_order.length = creature_manager.creature.regions.length →
        GetRealTotalIndicesNum (UpdateCreatureRender creature_manager s).2
            (UpdateCreatureRender creature_manager s).1
          = if shouldSkinSwap s then (s.skin_swap_indices.length : ℤ)
            else (creature_manager.creature.total_num_indices : ℤ))
      ∧ (s.region_custom_order.length ≠ creature_manager.creature.regions.length →
          s.meta_data = none →
          GetRealTotalIndicesNum (UpdateCreatureRender creature_manager s).2
              (UpdateCreatureRender creature_manager s).1
            = (creature_manager.creature.total_num_indices : ℤ))
      ∧ (∀ md : CreatureMetaData,
          s.region_custom_order.length ≠ creature_manager.creature.regions.length →
          s.meta_data = some md → shouldSkinSwap s = true →
          md.hasRegionOrder creature_manager.active_animation_name
            (truncToInt creature_manager.actual_run_time) = false →
          GetRealTotalIndicesNum (UpdateCreatureRender creature_manager s).2
              (UpdateCreatureRender creature_manager s).1
            = (s.skin_swap_indices.length : ℤ))
      ∧ (∀ md : CreatureMetaData,
          s.region_custom_order.length ≠ creature_manager.creature.regions.length →
          s.meta_data = some md →
          ¬ (shouldSkinSwap s = true
            ∧ md.hasRegionOrder creature_manager.active_animation_name
                (truncToInt creature_manager.actual_run_time) = false) →
          GetRealTotalIndicesNum (UpdateCreatureRender creature_manager s).2
              (UpdateCreatureRender creature_manager s).1
            = if (md.updateIndicesAndPoints
                  (GetIndicesCopy creature_manager.creature.total_num_indices s).1
                  creature_manager.creature.global_indices
                  (depthLoop creature_manager.creature.regions s.region_overlap_z_delta
                    creature_manager.creature.render_pts 0).1
                  s.region_overlap_z_delta creature_manager.creature.total_num_indices
                  creature_manager.creature.total_num_pts
                  creature_manager.active_animation_name (shouldSkinSwap s)
                  s.skin_swap_region_ids (truncToInt creature_manager.actual_run_time)).1 > 0
              then
                (md.updateIndicesAndPoints
                  (GetIndicesCopy creature_manager.creature.total_num_indices s).1
                  creature_manager.creature.global_indices
                  (depthLoop creature_manager.creature.regions s.region_overlap_z_delta
                    creature_manager.creature.render_pts 0).1
                  s.region_overlap_z_delta creature_manager.creature.total_num_indices
                  creature_manager.creature.total_num_pts
                  creature_manager.active_animation_name (shouldSkinSwap s)
                  s.skin_swap_region_ids (truncToInt creature_manager.actual_run_time)).1
              else if shouldSkinSwap s then (s.skin_swap_indices.length : ℤ)
              else (creature_manager.creature.total_num_indices : ℤ)) := by
  have hcount := UpdateCreatureRender_count creature_manager s hmod
  refine ⟨?_, ?_, ?_, ?_⟩
  · intro hb
    rw [hcount, UpdateCreatureRender_custom_num creature_manager s hb]
    simp
  · intro hb hmeta
    rw [hcount, UpdateCreatureRender_plain_num creature_manager s hb hmeta]
    have : shouldSkinSwap s = false := by simp [shouldSkinSwap, hmeta]
    simp [this]
  · intro md hb hmeta hswap hno
    rw [hcount, (UpdateCreatureRender_skin_swap creature_manager s md hb hmeta hswap hno).2]
    simp [hswap]
  · intro md hb hmeta htrack
    rw [hcount, UpdateCreatureRender_track_num creature_manager s md hb hmeta htrack]

/-- C21 on the demo creature: in plain default order (custom order `b`, no meta
data) the reported count is 6, the topology's total; under skin swap with the
permutation of six indices it is 6 as well, the length of the permutation. -/
theorem C21_reported_index_count_witness :
    GetRealTotalIndicesNum (UpdateCreatureRender (demoManager 0) shortOrderCore).2
        (UpdateCreatureRender (demoManager 0) shortOrderCore).1 = 6
      ∧ GetRealTotalIndicesNum (UpdateCreatureRender (demoManager 0) skinSwapCore).2
        (UpdateCreatureRender (demoManager 0) skinSwapCore).1
          = (skinSwapCore.skin_swap_indices.length : ℤ) :=
  ⟨(C21_reported_index_count (demoManager 0) shortOrderCore rfl).2.1 (by decide) rfl,
    (C21_reported_index_count (demoManager 0) skinSwapCore rfl).2.2.1 demoMeta (by decide) rfl
      (by decide) rfl⟩

theorem GetIndicesCopy_allocated (n : Nat) (s : Core) (buf : List Nat)
    (h : s.global_indices_copy = some buf) : GetIndicesCopy n s = (buf, s) := by
  simp only [GetIndicesCopy, h]

/-- C24 fails on the code: on a fresh instance `GetIndicesCopy(3)` allocates a
buffer of 3 entries, and the following `GetIndicesCopy(6)` returns that same
buffer, whose capacity 3 is below the 6 requested; in general, once the
buffer exists every call returns it as it is, whatever size is asked for. -/
theorem C24_scratch_buffer_not_regrown :
    (GetIndicesCopy 3 Core.init).1.length = 3
      ∧ (GetIndicesCopy 6 (GetIndicesCopy 3 Core.init).2).1.length = 3
      ∧ ¬ 6 ≤ (GetIndicesCopy 6 (GetIndicesCopy 3 Core.init).2).1.length
      ∧ ∀ (n : Nat) (s : Core) (buf : List Nat),
          s.global_indices_copy = some buf → GetIndicesCopy n s = (buf, s) := by
  refine ⟨by decide, by decide, by decide, fun n s buf h => GetIndicesCopy_allocated n s buf h⟩

theorem GetProcMeshData_loaded (world_type : EWorldType) (creature_manager : CreatureManager)
    (s : Core) (hloaded : s.is_animation_loaded = true) (hmod : s.mesh_modifier = none) :
    (GetProcMeshData world_type creature_manager s).1.indices
        = some (Memcpy (GetIndicesCopy creature_manager.creature.total_num_indices s).1 0
            creature_manager.creature.global_indices 0
            creature_manager.creature.total_num_indices)
      ∧ (GetProcMeshData world_type creature_manager s).2.global_indices_copy
        = some (Memcpy (GetIndicesCopy creature_manager.creature.total_num_indices s).1 0
            creature_manager.creature.global_indices 0
            creature_manager.creature.total_num_indices)
      ∧ (GetProcMeshData world_type creature_manager s).1.indices_num
        = (creature_manager.creature.total_num_indices : ℤ) := by
  have hm : (GetIndicesCopy creature_manager.creature.total_num_indices s).2.mesh_modifier
      = none := by
    unfold GetIndicesCopy
    cases h : s.global_indices_copy <;> simp [h, hmod]
  simp only [GetProcMeshData, hloaded, hm]
  simp

/-- C26 as stated fails: on the demo creature with the custom order `b, a` the
tick leaves the reordered sequence `13 14 15 10 11 12` in the index copy, and
the following `GetProcMeshData` (animation loaded, no mesh modifier) returns
`10 11 12 13 14 15`, the creature's indices in natural order. -/
theorem C26_counterexample :
    (UpdateCreatureRender (demoManager 0) loadedCustomOrderCore).1.global_indices_copy
        = some [13, 14, 15, 10, 11, 12]
      ∧ (UpdateCreatureRender (demoManager 0) loadedCustomOrderCore).1.is_animation_loaded
          = true
      ∧ (UpdateCreatureRender (demoManager 0) loadedCustomOrderCore).1.mesh_modifier = none
      ∧ (GetProcMeshData EWorldType.Game
            (UpdateCreatureRender (demoManager 0) loadedCustomOrderCore).2
            (UpdateCreatureRender (demoManager 0) loadedCustomOrderCore).1).1.indices
          = some [10, 11, 12, 13, 14, 15]
      ∧ ¬ (GetProcMeshData EWorldType.Game
            (UpdateCreatureRender (demoManager 0) loadedCustomOrderCore).2
            (UpdateCreatureRender (demoManager 0) loadedCustomOrderCore).1).1.indices
          = (UpdateCreatureRender (demoManager 0) loadedCustomOrderCore).1.global_indices_copy := by
  refine ⟨by decide!, by decide!,
    (UpdateCreatureRender_fields (demoManager 0) loadedCustomOrderCore).1.trans rfl,
    by decide!, by decide!⟩

/-- C26, amended: `GetProcMeshData` (animation loaded, no mesh modifier, the
creature's total within both the source and the index copy) overwrites the
first `GetTotalNumIndices()` entries of the instance's index copy with the
creature's global indices in their natural order and returns that buffer with
that count; only the entries behind the count stay as the last tick left
them. -/
theorem C26_proc_mesh_indices (world_type : EWorldType) (creature_manager : CreatureManager)
    (s : Core) (hloaded : s.is_animation_loaded = true) (hmod : s.mesh_modifier = none)
    (hsrc : creature_manager.creature.total_num_indices
      ≤ creature_manager.creature.global_indices.length)
    (hcap : creature_manager.creature.total_num_indices
      ≤ (GetIndicesCopy creature_manager.creature.total_num_indices s).1.length) :
    ∃ buf : List Nat,
      (GetProcMeshData world_type creature_manager s).1.indices = some buf
        ∧ (GetProcMeshData world_type creature_manager s).2.global_indices_copy = some buf
        ∧ buf.take creature_manager.creature.total_num_indices
            = creature_manager.creature.global_indices.take
                creature_manager.creature.total_num_indices
        ∧ buf.drop creature_manager.creature.total_num_indices
            = (GetIndicesCopy creature_manager.creature.total_num_indices s).1.drop
                creature_manager.creature.total_num_indices
        ∧ (GetProcMeshData world_type creature_manager s).1.indices_num
            = (creature_manager.creature.total_num_indices : ℤ) := by
  obtain ⟨h1, h2, h3⟩ := GetProcMeshData_loaded world_type creature_manager s hloaded hmod
  have hm := Memcpy_eq (GetIndicesCopy creature_manager.creature.total_num_indices s).1 0
    creature_manager.creature.global_indices 0 creature_manager.creature.total_num_indices
    (by omega) (by omega)
  simp only [List.take_zero, List.nil_append, List.drop_zero, Nat.zero_add] at hm
  have hlen : (creature_manager.creature.global_indices.take
      creature_manager.creature.total_num_indices).length
      = creature_manager.creature.total_num_indices := by
    simp only [List.length_take]
    omega
  refine ⟨_, h1, h2, ?_, ?_, h3⟩
  · rw [hm]
    exact List.take_left' hlen
  · rw [hm]
    exact List.drop_left' hlen

/-- C26 on the demo creature after the custom-order tick: the index sequence
handed out starts with the six global indices in natural order. -/
theorem C26_proc_mesh_indices_witness :
    ∃ buf : List Nat,
      (GetProcMeshData EWorldType.Game
          (UpdateCreatureRender (demoManager 0) loadedCustomOrderCore).2
          (UpdateCreatureRender (demoManager 0) loadedCustomOrderCore).1).1.indices = some buf
        ∧ buf.take 6 = [10, 11, 12, 13, 14, 15] := by
  obtain ⟨buf, h1, _, h3, _, _⟩ := C26_proc_mesh_indices EWorldType.Game
    (UpdateCreatureRender (demoManager 0) loadedCustomOrderCore).2
    (UpdateCreatureRender (demoManager 0) loadedCustomOrderCore).1
    (by decide!)
    ((UpdateCreatureRender_fields (demoManager 0) loadedCustomOrderCore).1.trans rfl)
    (by decide!) (by decide!)
  refine ⟨buf, h1, ?_⟩
  have e : (UpdateCreatureRender (demoManager 0) loadedCustomOrderCore).2.creature.total_num_indices
      = 6 := by decide!
  have e2 : (UpdateCreatureRender (demoManager 0) loadedCustomOrderCore).2.creature.global_indices
      = [10, 11, 12, 13, 14, 15] := by decide!
  rw [e, e2] at h3
  exact h3

/-! ## Entry points without a manager, the lock, initialisation: the claims -/

/-- The three entry points that reach for the manager without a null test have
no result when there is no manager. -/
theorem unguarded_entry_points_null (E : CreatureEngine) (time_in factor : ℚ)
    (name_in : String) (s : Core) :
    SetBluePrintAnimationFrame E time_in none s = none
      ∧ SetActiveAnimation E name_in none s = none
      ∧ SetAutoBlendActiveAnimation.onPointer name_in factor none s = none :=
  ⟨rfl, rfl, rfl⟩

/-- C22 as stated fails: with no creature manager, `SetBluePrintAnimationLoop(false)`
on a fresh instance changes `is_looping`, and the two resets on an instance
whose edges are consumed change `play_start_done`; the instance's state is not
left unchanged. -/
theorem C22_counterexample :
    ¬ (SetBluePrintAnimationLoop demoEngine false none Core.init).1.is_looping
        = Core.init.is_looping
      ∧ ¬ (SetBluePrintAnimationResetToStart demoEngine none consumedCore).1.play_start_done
        = consumedCore.play_start_done
      ∧ ¬ ((SetBluePrintAnimationResetToEnd demoEngine none consumedCore).map
            fun r => r.1.play_start_done) = some consumedCore.play_start_done := by
  refine ⟨by decide, by decide, by decide⟩

/-- C22, amended: called while no creature manager exists, `SetTimeScale`,
`SetBluePrintAnimationLoop`, `SetBluePrintAnimationResetToStart` and
`SetBluePrintAnimationResetToEnd` complete without reaching for the manager;
`SetTimeScale` leaves the instance unchanged, `SetBluePrintAnimationLoop`
changes `is_looping` to its argument and nothing else, and the two resets set
both edge flags to false and change nothing else. -/
theorem C22_no_manager (E : CreatureEngine) (timeScale : ℚ) (flag_in : Bool) (s : Core) :
    SetTimeScale E timeScale none s = (s, none)
      ∧ SetBluePrintAnimationLoop E flag_in none s = ({ s with is_looping := flag_in }, none)
      ∧ SetBluePrintAnimationResetToStart E none s
          = ({ s with play_start_done := false, play_end_done := false }, none)
      ∧ SetBluePrintAnimationResetToEnd E none s
          = some ({ s with play_start_done := false, play_end_done := false }, none) :=
  ⟨rfl, rfl, rfl, rfl⟩

/-- C23 fails on the code: of the mutation entry points only
`SetBluePrintAnimationResetToStart` (and `SetBluePrintAnimationPlayFromStart`)
construct an `FScopeLock` on `update_lock`, as `RunTick` does, before they
touch the shared state; `SetBluePrintAnimationPlay`,
`SetBluePrintAnimationResetToEnd`, `SetBluePrintAnimationFrame` and
`SetAutoBlendActiveAnimation` touch it without holding the lock. -/
theorem C23_unlocked_mutations :
    guardedFrom 0 RunTick.lockSteps = true
      ∧ guardedFrom 0 SetBluePrintAnimationResetToStart.lockSteps = true
      ∧ guardedFrom 0 SetBluePrintAnimationPlayFromStart.lockSteps = true
      ∧ guardedFrom 0 SetBluePrintAnimationPlay.lockSteps = false
      ∧ guardedFrom 0 SetBluePrintAnimationResetToEnd.lockSteps = false
      ∧ guardedFrom 0 SetBluePrintAnimationFrame.lockSteps = false
      ∧ guardedFrom 0 SetAutoBlendActiveAnimation.lockSteps = false := by
  refine ⟨by decide, by decide, by decide, by decide, by decide, by decide, by decide⟩

/-- C25 fails on the code: with the assets `hero` and `hero_big` loaded and the
clip `run` of `hero_big` cached, `FreeDataPacket(hero)` keeps `hero_big` in
the packet cache but removes its clip: the token `hero_big_run` starts with
`hero_`. -/
theorem C25_free_removes_other_clips :
    TMapContains sharedStartGlobals.global_load_data_packets "hero_big" = true
      ∧ TMapContains sharedStartGlobals.global_animations
          (GetAnimationToken "hero_big" "run") = true
      ∧ TMapContains (FreeDataPacket "hero" sharedStartGlobals).global_load_data_packets
          "hero_big" = true
      ∧ TMapContains (FreeDataPacket "hero" sharedStartGlobals).global_animations
          (GetAnimationToken "hero_big" "run") = false
      ∧ (FreeDataPacket "hero" sharedStartGlobals).global_animations = [] := by
  refine ⟨by decide, by decide, by decide, by decide, by decide⟩
theorem InitCreatureRender_loaded_flag (M : CreatureModule) (E : CreatureEngine)
    (F : PlatformFile) (g : Globals) (creature_manager : Option CreatureManager) (s : Core)
    (r : Bool × Core × Globals × Option CreatureManager)
    (h : InitCreatureRender M E F g creature_manager s = some r) :
    r.2.1.is_animation_loaded = true := by
  unfold InitCreatureRender at h
  simp only [] at h
  by_cases hs : (InitCreatureRender.load M F g s).1 = true
  · rw [if_pos hs] at h
    cases ho : InitCreatureRender.onSuccess M E (InitCreatureRender.load M F g s).2.1
        (InitCreatureRender.load M F g s).2.2.2 (InitCreatureRender.load M F g s).2.2.1 with
    | none => rw [ho] at h; cases h
    | some out =>
      rw [ho] at h
      cases h
      rfl
  · rw [if_neg hs] at h
    cases h
    rfl

theorem InitCreatureRender_load_empty_source (M : CreatureModule) (F : PlatformFile)
    (g : Globals) (s : Core) (json : String) (hjson : s.pJsonData = some json)
    (hempty : json.length = 0)
    (habsent : TMapContains g.global_load_data_packets
      (if FNameIsNone s.creature_filename then s.creature_asset_filename
        else s.creature_filename) = false) :
    InitCreatureRender.load M F g s
      = (false,
          (if FNameIsNone s.creature_filename then s.creature_asset_filename
            else s.creature_filename),
          { s with
            is_animation_loaded := false
            absolute_creature_filename :=
              if FNameIsNone s.creature_filename then s.creature_asset_filename
              else s.creature_filename },
          g) := by
  simp only [InitCreatureRender.load, hjson, LoadDataPacket.fromData, habsent, hempty]
  simp

theorem InitCreatureRender_load_no_file (M : CreatureModule) (F : PlatformFile)
    (g : Globals) (s : Core) (hnull : s.pJsonData = none)
    (hfile : F.FileExists s.creature_filename = false) :
    InitCreatureRender.load M F g s
      = (false, "None", { s with is_animation_loaded := false }, g) := by
  simp only [InitCreatureRender.load, hnull, hfile]
  simp

theorem InitCreatureRender_empty_source (M : CreatureModule) (E : CreatureEngine)
    (F : PlatformFile) (g : Globals) (creature_manager : Option CreatureManager) (s : Core)
    (json : String) (hjson : s.pJsonData = some json) (hempty : json.length = 0)
    (habsent : TMapContains g.global_load_data_packets
      (if FNameIsNone s.creature_filename then s.creature_asset_filename
        else s.creature_filename) = false) :
    InitCreatureRender M E F g creature_manager s
      = some (false,
          { s with
            is_animation_loaded := true
            absolute_creature_filename :=
              if FNameIsNone s.creature_filename then s.creature_asset_filename
              else s.creature_filename },
          g, creature_manager) := by
  unfold InitCreatureRender
  rw [InitCreatureRender_load_empty_source M F g s json hjson hempty habsent]
  simp

theorem InitCreatureRender_no_file (M : CreatureModule) (E : CreatureEngine)
    (F : PlatformFile) (g : Globals) (creature_manager : Option CreatureManager) (s : Core)
    (hnull : s.pJsonData = none) (hfile : F.FileExists s.creature_filename = false) :
    InitCreatureRender M E F g creature_manager s
      = some (false, { s with is_animation_loaded := true }, g, creature_manager) := by
  unfold InitCreatureRender
  rw [InitCreatureRender_load_no_file M F g s hnull hfile]
  simp

theorem RunTick_no_manager (E : CreatureEngine) (delta_time : ℚ) (g : Globals) (s : Core)
    (hloaded : s.is_animation_loaded = true) (hdriven : s.is_driven = false)
    (hdisabled : s.is_disabled = false) :
    RunTick E delta_time g none s = some (true, s, none) := by
  simp [RunTick, hloaded, hdriven, hdisabled]

/-- C27 as stated fails: a fresh instance of asset `hero` with an empty inline
source, empty caches and no manager: `InitCreatureRender` returns false, yet
`is_animation_loaded` is true afterwards, and the following `RunTick` does not
return false at its first check but runs on and returns true. -/
theorem C27_counterexample :
    (InitCreatureRender demoModule demoEngine emptyDisk emptyGlobals none emptySourceCore).map
        (fun r => r.1) = some false
      ∧ (InitCreatureRender demoModule demoEngine emptyDisk emptyGlobals none
          emptySourceCore).map (fun r => r.2.1.is_animation_loaded) = some true
      ∧ ((InitCreatureRender demoModule demoEngine emptyDisk emptyGlobals none
          emptySourceCore).bind fun r =>
            (RunTick demoEngine (1 / 60) r.2.2.1 r.2.2.2 r.2.1).map fun t => t.1) = some true := by
  refine ⟨by decide, by decide, by decide!⟩

/-- C27, amended: whenever `InitCreatureRender` returns, `is_animation_loaded`
is true, whatever the returned flag. When initialisation fails (empty inline
source for an asset not yet cached, or no inline source and the file not
found) it returns false, leaves the caches and the manager pointer as they
were and sets `is_animation_loaded` (with an inline source also
`absolute_creature_filename`); a later `RunTick` on an instance that is loaded
in this sense, neither driven nor disabled and without manager passes its
first check, touches no manager and returns true with the instance
unchanged. -/
theorem C27_init_loaded_flag (M : CreatureModule) (E : CreatureEngine) (F : PlatformFile)
    (g : Globals) (creature_manager : Option CreatureManager) (s : Core) :
    (∀ r, InitCreatureRender M E F g creature_manager s = some r →
        r.2.1.is_animation_loaded = true)
      ∧ (∀ json : String, s.pJsonData = some json → json.length = 0 →
          TMapContains g.global_load_data_packets
            (if FNameIsNone s.creature_filename then s.creature_asset_filename
              else s.creature_filename) = false →
          InitCreatureRender M E F g creature_manager s
            = some (false,
                { s with
                  is_animation_loaded := true
                  absolute_creature_filename :=
                    if FNameIsNone s.creature_filename then s.creature_asset_filename
                    else s.creature_filename },
                g, creature_manager))
      ∧ (s.pJsonData = none → F.FileExists s.creature_filename = false →
          InitCreatureRender M E F g creature_manager s
            = some (false, { s with is_animation_loaded := true }, g, creature_manager))
      ∧ (∀ (delta_time : ℚ) (c : Core), c.is_animation_loaded = true → c.is_driven = false →
          c.is_disabled = false → RunTick E delta_time g none c = some (true, c, none)) :=
  ⟨fun r h => InitCreatureRender_loaded_flag M E F g creature_manager s r h,
    fun json h1 h2 h3 => InitCreatureRender_empty_source M E F g creature_manager s json h1 h2 h3,
    fun h1 h2 => InitCreatureRender_no_file M E F g creature_manager s h1 h2,
    fun dt c h1 h2 h3 => RunTick_no_manager E dt g c h1 h2 h3⟩

/-- C27 on a fresh instance that names `hero.json` on a disk without files:
`InitCreatureRender` returns false with `is_animation_loaded` set, and the
next `RunTick` returns true. -/
theorem C27_init_loaded_flag_witness :
    InitCreatureRender demoModule demoEngine emptyDisk emptyGlobals none missingFileCore
        = some (false, { missingFileCore with is_animation_loaded := true }, emptyGlobals, none)
      ∧ RunTick demoEngine (1 / 60) emptyGlobals none
          { missingFileCore with is_animation_loaded := true }
        = some (true, { missingFileCore with is_animation_loaded := true }, none) :=
  ⟨(C27_init_loaded_flag demoModule demoEngine emptyDisk emptyGlobals none
      missingFileCore).2.2.1 rfl rfl,
    (C27_init_loaded_flag demoModule demoEngine emptyDisk emptyGlobals none
      missingFileCore).2.2.2 (1 / 60) _ rfl rfl rfl⟩

end CreatureCore
